import Mathlib

/-! Odyssey: the client-session core of `sources/frontend.c`.

A shallow embedding of the per-client frontend of the Odyssey connection
pooler: attach / attach-and-deploy, setup (`od_frontend_setup`), the relay
loop (`od_frontend_remote`) with its handlers (`od_frontend_ctl`,
`od_frontend_remote_client`, `od_frontend_remote_server`) and the cleanup
dispatcher (`od_frontend_cleanup`, `od_frontend_close`).

Conventions of the embedding.

* The C functions mutate `od_client_t` through a pointer; here every function
  takes the session value and returns the updated one together with the list
  of calls it made on its collaborators (`od_event`), oldest first.
* A write event carries the session as it was at the moment of the call, so
  that "the update is applied before the frame is written" can be stated.
* Collaborators that live outside `frontend.c` (router, backend connector,
  packet reader, codec, sockets) answer through the record `od_env`; the
  theorems quantify over every such record.
* A failed `assert`, a dereference of a NULL server or route, and `abort()`
  end a call without a result: `none` for cleanup and close, the outcome
  `fault` for the attach and relay functions.
* The attach loop has no bound of its own; it consumes one answer of the
  router per iteration and its outcome is `waiting` when the answers given
  are used up before it returns.
* Setup takes one record of answers per pass through its label `retry`, the
  relay loop one list of ready endpoints per return of `machine_read_poll`,
  each endpoint with the answers its handler gets; both are `waiting` when
  what was given is used up.
* Logging (`od_log`, `od_debug`, `od_error`) and `machine_msg_free` do not act
  on the session and are left out; so are the query-text decoders that the
  QUERY and PARSE cases of the client handler call for logging only.
-/

namespace Odyssey

/-! ## Data model -/

/-- Terminal codes of the frontend, `frontend.c` lines 21-34. -/
inductive od_frontend_rc_t
  | OD_FE_UNDEF
  | OD_FE_OK
  | OD_FE_KILL
  | OD_FE_TERMINATE
  | OD_FE_EATTACH
  | OD_FE_ESERVER_CONNECT
  | OD_FE_ESERVER_CONFIGURE
  | OD_FE_ESERVER_READ
  | OD_FE_ESERVER_WRITE
  | OD_FE_ECLIENT_READ
  | OD_FE_ECLIENT_WRITE
  | OD_FE_ECLIENT_CONFIGURE
  deriving DecidableEq, Repr

/-- Router status; only `OD_ROK` is distinguished by the attach loop. -/
inductive od_router_status_t
  | OD_ROK
  | OD_RERROR
  | OD_RERROR_NOT_FOUND
  | OD_RERROR_LIMIT
  deriving DecidableEq, Repr

/-- Pool mode of a route (`route->config->pool`). -/
inductive od_pool_type_t
  | OD_POOL_TYPE_SESSION
  | OD_POOL_TYPE_TRANSACTION
  deriving DecidableEq, Repr

/-- Storage kind of a route (`route->config->storage->storage_type`). -/
inductive od_storage_type_t
  | OD_STORAGE_TYPE_REMOTE
  | OD_STORAGE_TYPE_LOCAL
  deriving DecidableEq, Repr

/-- Identifier of a client or a server: printable prefix, id bytes, and the
two integers the cancel key is taken from. -/
structure od_id_t where
  id_prefix : String
  id : String
  id_a : Nat
  id_b : Nat
  deriving DecidableEq, Repr

/-- A message buffer: the bytes of one chunk read from a peer. -/
structure machine_msg_t where
  data : List Nat
  deriving DecidableEq, Repr

/-- Size of a message, `machine_msg_get_size`. -/
def machine_msg_get_size (msg : machine_msg_t) : Nat := msg.data.length

/-- The one-byte type code of a first chunk,
`*(char*)machine_msg_get_data(msg)`. -/
def machine_msg_type (msg : machine_msg_t) : Nat := msg.data.headD 0

/-- One parameter of a parameter map. -/
structure kiwi_param_t where
  name : String
  value : String
  deriving DecidableEq, Repr

/-- A parameter map: the `list` of a `kiwi_params_t`, in list order. -/
abbrev kiwi_params_t := List kiwi_param_t

/-- A decoded error response, as filled in by `kiwi_fe_read_error`. -/
structure kiwi_fe_error_t where
  severity : String
  code : String
  message : String
  detail : Option String
  hint : Option String
  deriving DecidableEq, Repr

/-- The cancel key of a session. -/
structure kiwi_key_t where
  key_pid : Nat
  key : Nat
  deriving DecidableEq, Repr

/-- The part of a server connection the frontend reads or writes. -/
structure od_server_t where
  id : od_id_t
  io : Option Nat
  is_transaction : Bool
  is_copy : Bool
  deploy_sync : Int
  sync_request : Int
  last_client_id : od_id_t
  error_connect : Option machine_msg_t
  deriving DecidableEq, Repr

/-- Route configuration honoured by the frontend. -/
structure od_config_route_t where
  pool : od_pool_type_t
  client_fwd_error : Bool
  storage_type : od_storage_type_t
  deriving DecidableEq, Repr

/-- A route: its configuration and its cached parameter map. -/
structure od_route_t where
  config : od_config_route_t
  params : kiwi_params_t
  deriving DecidableEq, Repr

/-- Control word of a session. -/
inductive od_client_op_t
  | OD_CLIENT_OP_NONE
  | OD_CLIENT_OP_KILL
  deriving DecidableEq, Repr

/-- The client session. `route` and `server` are `none` for a NULL pointer. -/
structure od_client_t where
  id : od_id_t
  key : kiwi_key_t
  io : Option Nat
  io_notify : Option Nat
  route : Option od_route_t
  server : Option od_server_t
  params : kiwi_params_t
  startup_params : kiwi_params_t
  ctl_op : od_client_op_t
  deriving DecidableEq, Repr

/-- A frame handed to `machine_write`: a relayed chunk, or a frame built by
the frontend itself. -/
inductive od_frame
  | chunk (msg : machine_msg_t)
  | error (code : String) (text : String)
  | error_as (severity : String) (code : String) (detail : Option String)
      (hint : Option String) (text : String)
  | parameter_status (name : String) (value : String)
  | backend_key_data (key_pid : Nat) (key : Nat)
  | ready (status : Char)
  deriving DecidableEq, Repr

/-- The three endpoints the relay polls: the control channel, the client
socket, the server socket. -/
inductive od_endpoint
  | notify
  | client
  | server
  deriving DecidableEq, Repr

/-- Calls made by the frontend on its collaborators. The two write events
carry the result code of the call and the session at the time of the call;
the two read events are the calls of `od_packet_read` on either socket, with
the result code and the chunk read. -/
inductive od_event
  | od_router_attach (status : od_router_status_t)
  | od_router_close (server : od_server_t)
  | od_router_detach (server : od_server_t)
  | od_unroute
  | od_router_detach_and_unroute (server : od_server_t)
  | od_router_close_and_unroute (server : od_server_t)
  | od_reset (server : od_server_t) (rc : Int)
  | od_backend_connect (server : od_server_t) (rc : Int)
  | od_deploy_write (server : od_server_t) (params : kiwi_params_t) (rc : Int)
  | od_backend_deploy (msg : machine_msg_t) (rc : Int)
  | od_backend_error (msg : machine_msg_t)
  | od_backend_ready (msg : machine_msg_t)
  | write_client (f : od_frame) (rc : Int) (session : od_client_t)
  | flush_client (rc : Int)
  | write_server (f : od_frame) (rc : Int) (session : od_client_t)
  | flush_server (rc : Int)
  | read_client (rc : Int) (msg : machine_msg_t)
  | read_server (rc : Int) (msg : machine_msg_t)
  | od_stat_recv_client (size : Nat)
  | od_stat_recv_server (size : Nat)
  | od_stat_query_start
  | od_stat_query_end
  /-- one call of `kiwi_params_lock_copy` on the route cache: result code and the copy -/
  | kiwi_params_lock_copy (rc : Int) (params : kiwi_params_t)
  /-- one call of `machine_read_poll`: the poll set, the number of its entries
  that are polled, the endpoints reported ready, the session at that time -/
  | machine_read_poll (io_set : List (Option Nat)) (io_count : Nat)
      (ready : List (Option Nat)) (session : od_client_t)
  /-- the relay loop calls the handler of an endpoint -/
  | handler (endpoint : od_endpoint)
  deriving DecidableEq, Repr

/-- One answer of `od_router_attach`: the status, the server handed out when
the status is `OD_ROK`, and what `machine_connected(server->io)` reports. -/
structure od_attach_answer where
  status : od_router_status_t
  server : od_server_t
  connected : Bool

/-- Answers of the collaborators during one call of a frontend function. -/
structure od_env where
  /-- whether `od_frontend_error_msg` / `kiwi_be_write_error_as` returned a message -/
  error_msg : Bool
  /-- result of `machine_write(client->io, ..)` -/
  client_write : Int
  /-- result of the flush of `client->io` -/
  client_flush : Int
  /-- result of `machine_write(server->io, ..)` -/
  server_write : Int
  /-- result of the flush of `server->io` -/
  server_flush : Int
  /-- result of `od_reset(server)` -/
  reset : od_server_t → Int
  /-- answer of `kiwi_fe_read_error`: `none` for -1 -/
  read_error : machine_msg_t → Option kiwi_fe_error_t
  /-- text left by `od_snprintf(text, size, ..)` for the formatted string -/
  od_snprintf : Nat → String → String
  /-- result code and message of `od_packet_read` -/
  packet_read : Int × machine_msg_t
  /-- answer of `kiwi_fe_read_parameter`: `none` for -1 -/
  read_parameter : machine_msg_t → Option (String × String)
  /-- whether `kiwi_param_allocate` returned a parameter -/
  param_allocate : Bool
  /-- answer of `od_backend_ready`: `none` for -1, else the server as updated -/
  backend_ready : od_server_t → machine_msg_t → Option od_server_t
  /-- answer of `od_backend_deploy`: result code and the server as updated -/
  backend_deploy : od_server_t → machine_msg_t → Int × od_server_t
  /-- successive answers of `od_router_attach` -/
  router_attach : List od_attach_answer
  /-- answer of `od_backend_connect`: result code and the server as updated -/
  backend_connect : od_server_t → Int × od_server_t
  /-- result of `od_deploy_write` -/
  deploy_write : od_server_t → kiwi_params_t → Int
  /-- answer of `kiwi_params_lock_copy` on the cache of the route: result code
  and the copy obtained -/
  lock_copy : od_route_t → Int × kiwi_params_t := fun route => (0, route.params)
  /-- whether the n-th message built by setup (`kiwi_be_write_*`) was allocated -/
  setup_msg : Nat → Bool := fun _ => true
  /-- result of the n-th `machine_write(client->io, ..)` of setup -/
  setup_write : Nat → Int := fun _ => 0
  /-- result of `kiwi_params_copy` -/
  params_copy : Int := 0

/-! ## Constants of the codec (`kiwi.h`) -/

/-- Modelled from the spec: `kiwi.h` is not under src/; SQLSTATE
`08006` connection-failure of the spec's section 6. -/
def KIWI_CONNECTION_FAILURE : String := "08006"

/-! ## Router operations -/

/-- Modelled from the spec: `od_unroute` is not under src/;
"`router.unroute(session)` drops the route reference". -/
def od_unroute (client : od_client_t) : od_client_t :=
  { client with route := none }

/-- Modelled from the spec: `od_router_detach` is not under src/;
"`router.detach(session)` releases lease to pool", clearing the lease. -/
def od_router_detach (client : od_client_t) : od_client_t :=
  { client with server := none }

/-- Modelled from the spec: `od_router_close` is not under src/;
"`router.close(session)` releases lease and destroys the server". -/
def od_router_close (client : od_client_t) : od_client_t :=
  { client with server := none }

/-- Modelled from the spec: `od_router_detach_and_unroute` is not under
src/; detach followed by unroute. -/
def od_router_detach_and_unroute (client : od_client_t) : od_client_t :=
  od_unroute (od_router_detach client)

/-- Modelled from the spec: `od_router_close_and_unroute` is not under
src/; close followed by unroute. -/
def od_router_close_and_unroute (client : od_client_t) : od_client_t :=
  od_unroute (od_router_close client)

/-! ## `frontend.c` -/

/-- The function `od_frontend_close`, lines 36-52: the two assertions, then the handles
are closed and freed. `none` when an assertion fails. -/
def od_frontend_close (client : od_client_t) : Option od_client_t :=
  if client.route.isSome then none
  else if client.server.isSome then none
  else some { client with io := none, io_notify := none }

/-- The function `od_frontend_error`, lines 54-70: build the error frame, write it to the
client, flush. Returns the result code and the calls made. -/
def od_frontend_error (env : od_env) (client : od_client_t) (code : String)
    (text : String) : Int × List od_event :=
  if env.error_msg = false then (-1, [])
  else
    let rc := env.client_write
    if rc = -1 then (-1, [od_event.write_client (od_frame.error code text) rc client])
    else
      (env.client_flush,
        [od_event.write_client (od_frame.error code text) rc client,
         od_event.flush_client env.client_flush])

/-- The function `od_frontend_error_fwd`, lines 72-106: re-emit the stored connect
error of the server under the session's own message prefix. -/
def od_frontend_error_fwd (env : od_env) (client : od_client_t) :
    Option (Int × List od_event) :=
  match client.server with
  | none => none
  | some server =>
    match server.error_connect with
    | none => none
    | some stored =>
      match env.read_error stored with
      | none => some (-1, [])
      | some error =>
        let text := env.od_snprintf 512
          ("odyssey: " ++ od_id_t.id_prefix client.id ++ client.id.id ++ ": " ++ error.message)
        if env.error_msg = false then some (-1, [])
        else
          let f := od_frame.error_as error.severity error.code error.detail error.hint text
          let rc := env.client_write
          if rc = -1 then some (-1, [od_event.write_client f rc client])
          else
            some (env.client_flush,
              [od_event.write_client f rc client, od_event.flush_client env.client_flush])

/-- The function `od_frontend_cleanup`, lines 809-936. The two duplicated
branches of the C switch are kept apart. -/
def od_frontend_cleanup (env : od_env) (client : od_client_t)
    (status : od_frontend_rc_t) : Option (od_client_t × List od_event) :=
  match status with
  | .OD_FE_EATTACH =>
    if client.server.isSome then none
    else if client.route.isNone then none
    else
      let e := od_frontend_error env client KIWI_CONNECTION_FAILURE
        "failed to get remote server connection"
      some (od_unroute client, e.2 ++ [od_event.od_unroute])
  | .OD_FE_KILL | .OD_FE_TERMINATE | .OD_FE_OK =>
    match client.server with
    | none => some (od_unroute client, [od_event.od_unroute])
    | some server =>
      let rc := env.reset server
      if rc ≠ 1 then
        some (od_router_close_and_unroute client,
          [od_event.od_reset server rc, od_event.od_router_close_and_unroute server])
      else
        some (od_router_detach_and_unroute client,
          [od_event.od_reset server rc, od_event.od_router_detach_and_unroute server])
  | .OD_FE_ECLIENT_READ | .OD_FE_ECLIENT_WRITE =>
    match client.server with
    | none => some (od_unroute client, [od_event.od_unroute])
    | some server =>
      let rc := env.reset server
      if rc ≠ 1 then
        some (od_router_close_and_unroute client,
          [od_event.od_reset server rc, od_event.od_router_close_and_unroute server])
      else
        some (od_router_detach_and_unroute client,
          [od_event.od_reset server rc, od_event.od_router_detach_and_unroute server])
  | .OD_FE_ECLIENT_CONFIGURE =>
    match client.server with
    | none => some (od_unroute client, [od_event.od_unroute])
    | some server =>
      let e := od_frontend_error env client KIWI_CONNECTION_FAILURE
        ("client " ++ od_id_t.id_prefix client.id ++ client.id.id ++ " configuration error")
      some (od_router_detach_and_unroute client,
        e.2 ++ [od_event.od_router_detach_and_unroute server])
  | .OD_FE_ESERVER_CONNECT =>
    match client.server with
    | none => none
    | some server =>
      match server.error_connect with
      | none =>
        let e := od_frontend_error env client KIWI_CONNECTION_FAILURE
          ("failed to connect to remote server " ++ od_id_t.id_prefix server.id ++ server.id.id)
        some (od_router_close_and_unroute client,
          e.2 ++ [od_event.od_router_close_and_unroute server])
      | some _ =>
        match client.route with
        | none => none
        | some route =>
          if route.config.client_fwd_error then
            match od_frontend_error_fwd env client with
            | none => none
            | some e =>
              some (od_router_close_and_unroute client,
                e.2 ++ [od_event.od_router_close_and_unroute server])
          else
            let e := od_frontend_error env client KIWI_CONNECTION_FAILURE
              ("failed to connect to remote server " ++ od_id_t.id_prefix server.id ++ server.id.id)
            some (od_router_close_and_unroute client,
              e.2 ++ [od_event.od_router_close_and_unroute server])
  | .OD_FE_ESERVER_CONFIGURE =>
    match client.server with
    | none => none
    | some server =>
      let e := od_frontend_error env client KIWI_CONNECTION_FAILURE
        ("failed to configure remote server " ++ od_id_t.id_prefix server.id ++ server.id.id)
      some (od_router_close_and_unroute client,
        e.2 ++ [od_event.od_router_close_and_unroute server])
  | .OD_FE_ESERVER_READ | .OD_FE_ESERVER_WRITE =>
    match client.server with
    | none => none
    | some server =>
      let e := od_frontend_error env client KIWI_CONNECTION_FAILURE
        ("remote server read/write error " ++ od_id_t.id_prefix server.id ++ server.id.id)
      some (od_router_close_and_unroute client,
        e.2 ++ [od_event.od_router_close_and_unroute server])
  | .OD_FE_UNDEF => none

/-- How a call of a frontend function ended. -/
inductive od_outcome
  /-- the function returned this code -/
  | returned (rc : od_frontend_rc_t)
  /-- the answers of the router are used up and the call is still in its loop -/
  | waiting
  /-- a NULL pointer was dereferenced or an assertion failed -/
  | fault
  deriving DecidableEq, Repr

/-- Result of a call: how it ended, the session afterwards, the calls made. -/
structure od_result where
  outcome : od_outcome
  client : od_client_t
  trace : List od_event
  deriving DecidableEq, Repr

/-- Modelled from the spec: `kiwi.h` is not under src/; the one-byte
type codes of the frontend messages the spec names, with their values in
version 3 of the PostgreSQL protocol. -/
def KIWI_FE_TERMINATE : Nat := 'X'.toNat

/-- Modelled from the spec: type code of copy-done (`kiwi.h`). -/
def KIWI_FE_COPY_DONE : Nat := 'c'.toNat

/-- Modelled from the spec: type code of copy-fail (`kiwi.h`). -/
def KIWI_FE_COPY_FAIL : Nat := 'f'.toNat

/-- Modelled from the spec: type code of query (`kiwi.h`). -/
def KIWI_FE_QUERY : Nat := 'Q'.toNat

/-- Modelled from the spec: type code of parse (`kiwi.h`). -/
def KIWI_FE_PARSE : Nat := 'P'.toNat

/-- Modelled from the spec: type code of function-call (`kiwi.h`). -/
def KIWI_FE_FUNCTION_CALL : Nat := 'F'.toNat

/-- Modelled from the spec: type code of sync (`kiwi.h`). -/
def KIWI_FE_SYNC : Nat := 'S'.toNat

/-- Modelled from the spec: type code of error-response (`kiwi.h`). -/
def KIWI_BE_ERROR_RESPONSE : Nat := 'E'.toNat

/-- Modelled from the spec: type code of parameter-status (`kiwi.h`). -/
def KIWI_BE_PARAMETER_STATUS : Nat := 'S'.toNat

/-- Modelled from the spec: type code of copy-in-response (`kiwi.h`). -/
def KIWI_BE_COPY_IN_RESPONSE : Nat := 'G'.toNat

/-- Modelled from the spec: type code of copy-out-response (`kiwi.h`). -/
def KIWI_BE_COPY_OUT_RESPONSE : Nat := 'H'.toNat

/-- Modelled from the spec: type code of the backend copy-done (`kiwi.h`). -/
def KIWI_BE_COPY_DONE : Nat := 'c'.toNat

/-- Modelled from the spec: type code of ready-for-query (`kiwi.h`). -/
def KIWI_BE_READY_FOR_QUERY : Nat := 'Z'.toNat

/-- Modelled from the spec: `od_router_attach` is not under src/;
"on OK sets `server`, acquires exclusive lease". -/
def od_router_attach (client : od_client_t) (a : od_attach_answer) : od_client_t :=
  if a.status = od_router_status_t.OD_ROK then { client with server := some a.server }
  else client

/-- Modelled from the spec: `od_id_mgr_cmp` is not under src/; it tells
whether "`last_client_id` equals the session id". -/
def od_id_mgr_cmp (a : od_id_t) (b : od_id_t) : Bool := decide (a.id = b.id)

/-- Modelled from the spec: `od_server_sync_request` is not under src/;
"the server sync-request counter is incremented by" the count. -/
def od_server_sync_request (server : od_server_t) (count : Int) : od_server_t :=
  { server with sync_request := server.sync_request + count }

/-- Modelled from the spec: `kiwi_params_replace` is not under src/;
"upsert into session parameter map": the value of an entry of that name is
replaced in place, a new name is added at the end. -/
def kiwi_params_replace : kiwi_params_t → kiwi_param_t → kiwi_params_t
  | [], param => [param]
  | p :: rest, param =>
    if p.name = param.name then param :: rest
    else p :: kiwi_params_replace rest param

/-- Value of a name in a parameter map: the first entry of that name. -/
def kiwi_params_lookup : kiwi_params_t → String → Option String
  | [], _ => none
  | p :: rest, name => if p.name = name then some p.value else kiwi_params_lookup rest name

/-- The function `od_frontend_key`, lines 154-167. -/
def od_frontend_key (client : od_client_t) : od_client_t :=
  { client with key := { key_pid := client.id.id_a, key := client.id.id_b } }

/-- The loop of `od_frontend_attach`, lines 177-196, followed by the connect
of lines 198-206. One answer of the router is consumed per iteration;
`waiting` when the answers are used up inside the loop. -/
def od_frontend_attach_loop (env : od_env) (client : od_client_t) :
    List od_attach_answer → od_result
  | [] => { outcome := od_outcome.waiting, client := client, trace := [] }
  | a :: rest =>
    if a.status ≠ od_router_status_t.OD_ROK then
      { outcome := od_outcome.returned od_frontend_rc_t.OD_FE_EATTACH,
        client := od_router_attach client a,
        trace := [od_event.od_router_attach a.status] }
    else
      let attached := od_router_attach client a
      let server := a.server
      if server.io.isSome ∧ a.connected = false then
        let r := od_frontend_attach_loop env (od_router_close attached) rest
        { r with trace :=
            [od_event.od_router_attach a.status, od_event.od_router_close server] ++ r.trace }
      else if server.io.isNone then
        let cn := env.backend_connect server
        if cn.1 = -1 then
          { outcome := od_outcome.returned od_frontend_rc_t.OD_FE_ESERVER_CONNECT,
            client := { attached with server := some cn.2 },
            trace := [od_event.od_router_attach a.status,
                      od_event.od_backend_connect server cn.1] }
        else
          { outcome := od_outcome.returned od_frontend_rc_t.OD_FE_OK,
            client := { attached with server := some cn.2 },
            trace := [od_event.od_router_attach a.status,
                      od_event.od_backend_connect server cn.1] }
      else
        { outcome := od_outcome.returned od_frontend_rc_t.OD_FE_OK,
          client := attached,
          trace := [od_event.od_router_attach a.status] }

/-- The function `od_frontend_attach`, lines 169-207, on the answers the
router gives during this call. -/
def od_frontend_attach (env : od_env) (client : od_client_t) : od_result :=
  od_frontend_attach_loop env client env.router_attach

/-- The function `od_frontend_attach_and_deploy`, lines 209-240. -/
def od_frontend_attach_and_deploy (env : od_env) (client : od_client_t) : od_result :=
  let r := od_frontend_attach env client
  if r.outcome ≠ od_outcome.returned od_frontend_rc_t.OD_FE_OK then r
  else
    match r.client.server with
    | none => { r with outcome := od_outcome.fault }
    | some server =>
      if od_id_mgr_cmp server.last_client_id r.client.id = false then
        let rc := env.deploy_write server r.client.params
        if rc = -1 then
          { outcome := od_outcome.returned od_frontend_rc_t.OD_FE_ESERVER_WRITE,
            client := r.client,
            trace := r.trace ++ [od_event.od_deploy_write server r.client.params rc] }
        else
          let deployed := { server with deploy_sync := rc }
          { outcome := od_outcome.returned od_frontend_rc_t.OD_FE_OK,
            client := { r.client with
              server := some (od_server_sync_request deployed deployed.deploy_sync) },
            trace := r.trace ++ [od_event.od_deploy_write server r.client.params rc] }
      else
        let deployed := { server with deploy_sync := 0 }
        { outcome := od_outcome.returned od_frontend_rc_t.OD_FE_OK,
          client := { r.client with
            server := some (od_server_sync_request deployed deployed.deploy_sync) },
          trace := r.trace }

/-- Forward of one chunk to the server socket: `machine_write` then
`od_flush`, as at lines 441-447 and 516-522. Returns whether both succeeded
and the calls made. -/
def od_forward_server (env : od_env) (client : od_client_t) (msg : machine_msg_t) :
    Bool × List od_event :=
  if env.server_write = -1 then
    (false, [od_event.write_server (od_frame.chunk msg) env.server_write client])
  else if env.server_flush = -1 then
    (false, [od_event.write_server (od_frame.chunk msg) env.server_write client,
             od_event.flush_server env.server_flush])
  else
    (true, [od_event.write_server (od_frame.chunk msg) env.server_write client,
            od_event.flush_server env.server_flush])

/-- Forward of one chunk to the client socket: `machine_write` then
`od_flush`, as at lines 558-563 and 662-668. -/
def od_forward_client (env : od_env) (client : od_client_t) (msg : machine_msg_t) :
    Bool × List od_event :=
  if env.client_write = -1 then
    (false, [od_event.write_client (od_frame.chunk msg) env.client_write client])
  else if env.client_flush = -1 then
    (false, [od_event.write_client (od_frame.chunk msg) env.client_write client,
             od_event.flush_client env.client_flush])
  else
    (true, [od_event.write_client (od_frame.chunk msg) env.client_write client,
            od_event.flush_client env.client_flush])

/-- The part of `od_frontend_remote_client` after the attach, lines 428-536,
run with `server` being the attached server of `client`. `pre` holds the
calls made so far. The QUERY and PARSE cases of the switch only log and fall
through to the forward. -/
def od_frontend_remote_client_read (env : od_env) (client : od_client_t)
    (server : od_server_t) (pre : List od_event) : od_result :=
  let rc := env.packet_read.1
  let msg := env.packet_read.2
  if rc = -1 then
    { outcome := od_outcome.returned od_frontend_rc_t.OD_FE_ECLIENT_READ,
      client := client, trace := pre ++ [od_event.read_client rc msg] }
  else
    let t1 := pre ++ [od_event.read_client rc msg,
      od_event.od_stat_recv_client (machine_msg_get_size msg)]
    if rc ≠ 0 then
      let w := od_forward_server env client msg
      if w.1 = false then
        { outcome := od_outcome.returned od_frontend_rc_t.OD_FE_ESERVER_WRITE,
          client := client, trace := t1 ++ w.2 }
      else
        { outcome := od_outcome.returned od_frontend_rc_t.OD_FE_OK,
          client := client, trace := t1 ++ w.2 }
    else
      let type := machine_msg_type msg
      if type = KIWI_FE_TERMINATE then
        { outcome := od_outcome.returned od_frontend_rc_t.OD_FE_TERMINATE,
          client := client, trace := t1 }
      else
        let server1 :=
          if type = KIWI_FE_COPY_DONE ∨ type = KIWI_FE_COPY_FAIL then
            { server with is_copy := false }
          else server
        let client1 := { client with server := some server1 }
        let w := od_forward_server env client1 msg
        if w.1 = false then
          { outcome := od_outcome.returned od_frontend_rc_t.OD_FE_ESERVER_WRITE,
            client := client1, trace := t1 ++ w.2 }
        else
          let server2 :=
            if type = KIWI_FE_QUERY ∨ type = KIWI_FE_FUNCTION_CALL ∨ type = KIWI_FE_SYNC then
              od_server_sync_request server1 1
            else server1
          { outcome := od_outcome.returned od_frontend_rc_t.OD_FE_OK,
            client := { client1 with server := some server2 },
            trace := t1 ++ w.2 ++ [od_event.od_stat_query_start] }

/-- The function `od_frontend_remote_client`, lines 411-536. -/
def od_frontend_remote_client (env : od_env) (client : od_client_t) : od_result :=
  match client.server with
  | some server => od_frontend_remote_client_read env client server []
  | none =>
    let r := od_frontend_attach_and_deploy env client
    if r.outcome ≠ od_outcome.returned od_frontend_rc_t.OD_FE_OK then r
    else
      match r.client.server with
      | none => { r with outcome := od_outcome.fault }
      | some server => od_frontend_remote_client_read env r.client server r.trace

/-- The switch of `od_frontend_remote_server` on the type of a first chunk,
lines 583-659, with `server` the attached server and `route` the route of
`client`. Returns either the code of an early return or the session as
updated, with the calls made. -/
def od_frontend_remote_server_switch (env : od_env) (client : od_client_t)
    (server : od_server_t) (msg : machine_msg_t) :
    od_outcome × od_client_t × List od_event :=
  let type := machine_msg_type msg
  if type = KIWI_BE_ERROR_RESPONSE then
    (od_outcome.returned od_frontend_rc_t.OD_FE_OK, client, [od_event.od_backend_error msg])
  else if type = KIWI_BE_PARAMETER_STATUS then
    match env.read_parameter msg with
    | none => (od_outcome.returned od_frontend_rc_t.OD_FE_ESERVER_READ, client, [])
    | some nv =>
      if env.param_allocate = false then
        (od_outcome.returned od_frontend_rc_t.OD_FE_ESERVER_CONFIGURE, client, [])
      else
        (od_outcome.returned od_frontend_rc_t.OD_FE_OK,
          { client with
            params := kiwi_params_replace client.params { name := nv.1, value := nv.2 } },
          [])
  else if type = KIWI_BE_COPY_IN_RESPONSE ∨ type = KIWI_BE_COPY_OUT_RESPONSE then
    (od_outcome.returned od_frontend_rc_t.OD_FE_OK,
      { client with server := some { server with is_copy := true } }, [])
  else if type = KIWI_BE_COPY_DONE then
    (od_outcome.returned od_frontend_rc_t.OD_FE_OK,
      { client with server := some { server with is_copy := false } }, [])
  else if type = KIWI_BE_READY_FOR_QUERY then
    match env.backend_ready server msg with
    | none =>
      (od_outcome.returned od_frontend_rc_t.OD_FE_ESERVER_READ, client,
        [od_event.od_backend_ready msg])
    | some server1 =>
      let client1 := { client with server := some server1 }
      let t1 := [od_event.od_backend_ready msg, od_event.od_stat_query_end]
      match client.route with
      | none => (od_outcome.fault, client1, t1)
      | some route =>
        if route.config.pool = od_pool_type_t.OD_POOL_TYPE_TRANSACTION then
          if server1.is_transaction = false then
            let rc := env.reset server1
            if rc = -1 then
              (od_outcome.returned od_frontend_rc_t.OD_FE_ESERVER_WRITE, client1,
                t1 ++ [od_event.od_reset server1 rc])
            else
              (od_outcome.returned od_frontend_rc_t.OD_FE_OK, od_router_detach client1,
                t1 ++ [od_event.od_reset server1 rc, od_event.od_router_detach server1])
          else (od_outcome.returned od_frontend_rc_t.OD_FE_OK, client1, t1)
        else (od_outcome.returned od_frontend_rc_t.OD_FE_OK, client1, t1)
  else
    (od_outcome.returned od_frontend_rc_t.OD_FE_OK, client, [])

/-- The function `od_frontend_remote_server`, lines 538-671. -/
def od_frontend_remote_server (env : od_env) (client : od_client_t) : od_result :=
  match client.server with
  | none => { outcome := od_outcome.fault, client := client, trace := [] }
  | some server =>
    let rc := env.packet_read.1
    let msg := env.packet_read.2
    if rc = -1 then
      { outcome := od_outcome.returned od_frontend_rc_t.OD_FE_ESERVER_READ,
        client := client, trace := [od_event.read_server rc msg] }
    else
      let t1 := [od_event.read_server rc msg,
        od_event.od_stat_recv_server (machine_msg_get_size msg)]
      if rc ≠ 0 then
        let w := od_forward_client env client msg
        if w.1 = false then
          { outcome := od_outcome.returned od_frontend_rc_t.OD_FE_ECLIENT_WRITE,
            client := client, trace := t1 ++ w.2 }
        else
          { outcome := od_outcome.returned od_frontend_rc_t.OD_FE_OK,
            client := client, trace := t1 ++ w.2 }
      else if server.deploy_sync > 0 then
        let d := env.backend_deploy server msg
        let client1 := { client with server := some d.2 }
        if d.1 = -1 then
          { outcome := od_outcome.returned od_frontend_rc_t.OD_FE_ESERVER_CONFIGURE,
            client := client1, trace := t1 ++ [od_event.od_backend_deploy msg d.1] }
        else
          { outcome := od_outcome.returned od_frontend_rc_t.OD_FE_OK,
            client := client1, trace := t1 ++ [od_event.od_backend_deploy msg d.1] }
      else
        let sw := od_frontend_remote_server_switch env client server msg
        if sw.1 ≠ od_outcome.returned od_frontend_rc_t.OD_FE_OK then
          { outcome := sw.1, client := sw.2.1, trace := t1 ++ sw.2.2 }
        else
          let w := od_forward_client env sw.2.1 msg
          if w.1 = false then
            { outcome := od_outcome.returned od_frontend_rc_t.OD_FE_ECLIENT_WRITE,
              client := sw.2.1, trace := t1 ++ sw.2.2 ++ w.2 }
          else
            { outcome := od_outcome.returned od_frontend_rc_t.OD_FE_OK,
              client := sw.2.1, trace := t1 ++ sw.2.2 ++ w.2 }

/-- The function `od_frontend_ctl`, lines 673-680, with `op` the control
word left by `od_client_notify_read`. -/
def od_frontend_ctl (client : od_client_t) (op : od_client_op_t) : od_result :=
  let client1 := { client with ctl_op := op }
  if client1.ctl_op = od_client_op_t.OD_CLIENT_OP_KILL then
    { outcome := od_outcome.returned od_frontend_rc_t.OD_FE_KILL, client := client1, trace := [] }
  else
    { outcome := od_outcome.returned od_frontend_rc_t.OD_FE_OK, client := client1, trace := [] }

/-- Successive calls of `od_frontend_remote_client` as the loop of
`od_frontend_remote` makes them (lines 708-716): one call per answer record,
the next call being made only when the previous one returned `OD_FE_OK`. -/
def od_frontend_remote_client_run (client : od_client_t) : List od_env → od_result
  | [] => { outcome := od_outcome.returned od_frontend_rc_t.OD_FE_OK,
            client := client, trace := [] }
  | env :: rest =>
    let r := od_frontend_remote_client env client
    if r.outcome ≠ od_outcome.returned od_frontend_rc_t.OD_FE_OK then r
    else
      let r2 := od_frontend_remote_client_run r.client rest
      { r2 with trace := r.trace ++ r2.trace }

/-- Modelled from the spec: `kiwi_params_copy` is not under src/;
"copy startup parameters into the session's running parameter map": the map
becomes a copy of the source. -/
def kiwi_params_copy (_dest : kiwi_params_t) (src : kiwi_params_t) : kiwi_params_t := src

/-- The function `od_frontend_setup_params`, lines 296-331: one
parameter-status frame per entry, in list order. `n` numbers the messages
built by setup so far. Returns the code and the calls made. -/
def od_frontend_setup_params (env : od_env) (client : od_client_t) :
    Nat → kiwi_params_t → od_frontend_rc_t × List od_event
  | _, [] => (od_frontend_rc_t.OD_FE_OK, [])
  | n, param :: rest =>
    if env.setup_msg n = false then (od_frontend_rc_t.OD_FE_ECLIENT_CONFIGURE, [])
    else if env.setup_write n = -1 then
      (od_frontend_rc_t.OD_FE_ECLIENT_WRITE,
        [od_event.write_client (od_frame.parameter_status param.name param.value)
          (env.setup_write n) client])
    else
      let r := od_frontend_setup_params env client (n + 1) rest
      (r.1, od_event.write_client (od_frame.parameter_status param.name param.value)
        (env.setup_write n) client :: r.2)

/-- The part of `od_frontend_setup` that follows the copy of a non-empty
route cache, lines 365-408: the parameter-status frames of the cache and of
the startup parameters, the copy of the startup parameters, backend-key-data,
ready-for-query, flush. -/
def od_frontend_setup_write (env : od_env) (client : od_client_t)
    (route_params : kiwi_params_t) : od_result :=
  let r1 := od_frontend_setup_params env client 0 route_params
  if r1.1 ≠ od_frontend_rc_t.OD_FE_OK then
    { outcome := od_outcome.returned r1.1, client := client, trace := r1.2 }
  else
    let r2 := od_frontend_setup_params env client route_params.length client.startup_params
    if r2.1 ≠ od_frontend_rc_t.OD_FE_OK then
      { outcome := od_outcome.returned r2.1, client := client, trace := r1.2 ++ r2.2 }
    else if env.params_copy = -1 then
      { outcome := od_outcome.returned od_frontend_rc_t.OD_FE_ECLIENT_CONFIGURE,
        client := client, trace := r1.2 ++ r2.2 }
    else
      let client1 :=
        { client with params := kiwi_params_copy client.params client.startup_params }
      let n := route_params.length + client.startup_params.length
      if env.setup_msg n = false then
        { outcome := od_outcome.returned od_frontend_rc_t.OD_FE_ECLIENT_CONFIGURE,
          client := client1, trace := r1.2 ++ r2.2 }
      else
        let key := od_event.write_client
          (od_frame.backend_key_data client1.key.key_pid client1.key.key)
          (env.setup_write n) client1
        if env.setup_write n = -1 then
          { outcome := od_outcome.returned od_frontend_rc_t.OD_FE_ECLIENT_WRITE,
            client := client1, trace := r1.2 ++ r2.2 ++ [key] }
        else if env.setup_msg (n + 1) = false then
          { outcome := od_outcome.returned od_frontend_rc_t.OD_FE_ECLIENT_CONFIGURE,
            client := client1, trace := r1.2 ++ r2.2 ++ [key] }
        else
          let ready := od_event.write_client (od_frame.ready 'I')
            (env.setup_write (n + 1)) client1
          if env.setup_write (n + 1) = -1 then
            { outcome := od_outcome.returned od_frontend_rc_t.OD_FE_ECLIENT_WRITE,
              client := client1, trace := r1.2 ++ r2.2 ++ [key, ready] }
          else if env.client_flush = -1 then
            { outcome := od_outcome.returned od_frontend_rc_t.OD_FE_ECLIENT_WRITE,
              client := client1,
              trace := r1.2 ++ r2.2 ++ [key, ready, od_event.flush_client env.client_flush] }
          else
            { outcome := od_outcome.returned od_frontend_rc_t.OD_FE_OK,
              client := client1,
              trace := r1.2 ++ r2.2 ++ [key, ready, od_event.flush_client env.client_flush] }

/-- The function `od_frontend_setup`, lines 333-409. Each pass through the
label `retry` has its own answer record; `waiting` when the records are used
up (or the attach of a pass is itself waiting). -/
def od_frontend_setup (client : od_client_t) : List od_env → od_result
  | [] => { outcome := od_outcome.waiting, client := client, trace := [] }
  | env :: rest =>
    match client.route with
    | none => { outcome := od_outcome.fault, client := client, trace := [] }
    | some route =>
      let cp := env.lock_copy route
      if cp.1 = -1 then
        { outcome := od_outcome.returned od_frontend_rc_t.OD_FE_ECLIENT_CONFIGURE,
          client := client, trace := [od_event.kiwi_params_lock_copy cp.1 cp.2] }
      else if cp.2.length = 0 then
        let a := od_frontend_attach env client
        if a.outcome ≠ od_outcome.returned od_frontend_rc_t.OD_FE_OK then
          { a with trace := od_event.kiwi_params_lock_copy cp.1 cp.2 :: a.trace }
        else
          match a.client.server with
          | none =>
            { outcome := od_outcome.fault, client := a.client,
              trace := od_event.kiwi_params_lock_copy cp.1 cp.2 :: a.trace }
          | some server =>
            let r := od_frontend_setup (od_router_close a.client) rest
            { r with trace := od_event.kiwi_params_lock_copy cp.1 cp.2 :: a.trace ++
                [od_event.od_router_close server] ++ r.trace }
      else
        let w := od_frontend_setup_write env client cp.2
        { w with trace := od_event.kiwi_params_lock_copy cp.1 cp.2 :: w.trace }

/-- One endpoint reported ready by `machine_read_poll`, with what happens
while its handler runs: the answers of the collaborators and, for the control
channel, the control word read by `od_client_notify_read`. -/
structure od_ready where
  io : Option Nat
  env : od_env
  op : od_client_op_t

/-- Locals of `od_frontend_remote` next to the session: the poll set and the
number of its entries that are polled. -/
structure od_relay_t where
  client : od_client_t
  io_set : List (Option Nat)
  io_count : Nat
  deriving DecidableEq, Repr

/-- The inner loop of `od_frontend_remote`, lines 698-725, over the endpoints
one poll reported ready. The first component is `none` when the loop ends
(all endpoints taken, or `break` after a server step that left the session
without a server) and the poll is to be called again. -/
def od_frontend_remote_round :
    od_relay_t → List od_ready → Option od_outcome × od_relay_t × List od_event
  | st, [] => (none, st, [])
  | st, r :: rest =>
    if r.io = st.client.io_notify then
      let c := od_frontend_ctl st.client r.op
      let t := od_event.handler od_endpoint.notify :: c.trace
      if c.outcome ≠ od_outcome.returned od_frontend_rc_t.OD_FE_OK then
        (some c.outcome, { st with client := c.client }, t)
      else
        let n := od_frontend_remote_round { st with client := c.client } rest
        (n.1, n.2.1, t ++ n.2.2)
    else if r.io = st.client.io then
      let c := od_frontend_remote_client r.env st.client
      let t := od_event.handler od_endpoint.client :: c.trace
      if c.outcome ≠ od_outcome.returned od_frontend_rc_t.OD_FE_OK then
        (some c.outcome, { st with client := c.client }, t)
      else
        match c.client.server with
        | none => (some od_outcome.fault, { st with client := c.client }, t)
        | some server =>
          let n := od_frontend_remote_round
            { client := c.client, io_set := st.io_set.set 2 server.io, io_count := 3 } rest
          (n.1, n.2.1, t ++ n.2.2)
    else
      let c := od_frontend_remote_server r.env st.client
      let t := od_event.handler od_endpoint.server :: c.trace
      if c.outcome ≠ od_outcome.returned od_frontend_rc_t.OD_FE_OK then
        (some c.outcome, { st with client := c.client }, t)
      else if c.client.server = none then
        (none, { client := c.client, io_set := st.io_set.set 2 none, io_count := 2 }, t)
      else
        let n := od_frontend_remote_round { st with client := c.client } rest
        (n.1, n.2.1, t ++ n.2.2)

/-- The outer loop of `od_frontend_remote`, lines 693-726: one poll per
round; `waiting` when the rounds given are used up. -/
def od_frontend_remote_loop : od_relay_t → List (List od_ready) → od_result
  | st, [] => { outcome := od_outcome.waiting, client := st.client, trace := [] }
  | st, ready :: rounds =>
    let poll := od_event.machine_read_poll st.io_set st.io_count
      (ready.map (fun r => r.io)) st.client
    let r := od_frontend_remote_round st ready
    match r.1 with
    | some outcome =>
      { outcome := outcome, client := r.2.1.client, trace := poll :: r.2.2 }
    | none =>
      let next := od_frontend_remote_loop r.2.1 rounds
      { next with trace := poll :: r.2.2 ++ next.trace }

/-- The function `od_frontend_remote`, lines 682-731. -/
def od_frontend_remote (client : od_client_t) (rounds : List (List od_ready)) : od_result :=
  od_frontend_remote_loop
    { client := client, io_set := [client.io_notify, client.io, none], io_count := 2 } rounds

/-- The REMOTE case of the switch of `od_frontend`, lines 1067-1072,
followed by cleanup and close, lines 1075-1078. The outcome is the terminal
code handed to cleanup once the session has been closed. -/
def od_frontend_remote_storage (setup_envs : List od_env) (rounds : List (List od_ready))
    (cleanup_env : od_env) (client : od_client_t) : od_result :=
  let s := od_frontend_setup client setup_envs
  let m :=
    if s.outcome ≠ od_outcome.returned od_frontend_rc_t.OD_FE_OK then s
    else
      let r := od_frontend_remote s.client rounds
      { r with trace := s.trace ++ r.trace }
  match m.outcome with
  | od_outcome.returned ferc =>
    match od_frontend_cleanup cleanup_env m.client ferc with
    | none => { m with outcome := od_outcome.fault }
    | some cl =>
      match od_frontend_close cl.1 with
      | none => { outcome := od_outcome.fault, client := cl.1, trace := m.trace ++ cl.2 }
      | some closed =>
        { outcome := od_outcome.returned ferc, client := closed, trace := m.trace ++ cl.2 }
  | _ => m

/-! ## Observations on a list of calls -/

/-- The three release operations of the router used by cleanup. -/
def od_event.is_release : od_event → Bool
  | od_event.od_unroute => true
  | od_event.od_router_detach_and_unroute _ => true
  | od_event.od_router_close_and_unroute _ => true
  | _ => false

/-- A write to the client socket. -/
def od_event.is_write_client : od_event → Bool
  | od_event.write_client _ _ _ => true
  | _ => false

/-- A write to the server socket. -/
def od_event.is_write_server : od_event → Bool
  | od_event.write_server _ _ _ => true
  | _ => false

/-- Frames handed to `machine_write` on the server socket, in order. -/
def od_server_frames : List od_event → List od_frame
  | [] => []
  | od_event.write_server f _ _ :: rest => f :: od_server_frames rest
  | _ :: rest => od_server_frames rest

/-- Chunks read from the client socket (reads that did not fail), in order,
each with the result code of `od_packet_read`. -/
def od_client_chunks : List od_event → List (Int × machine_msg_t)
  | [] => []
  | od_event.read_client rc msg :: rest =>
    if rc = -1 then od_client_chunks rest else (rc, msg) :: od_client_chunks rest
  | _ :: rest => od_client_chunks rest

/-- A chunk read from the client is a TERMINATE first chunk. -/
def od_is_terminate (c : Int × machine_msg_t) : Bool :=
  decide (c.1 = 0) && decide (machine_msg_type c.2 = KIWI_FE_TERMINATE)

/-- The server precondition cleanup puts on a terminal code: no server for
`OD_FE_EATTACH` (asserted), a server for the four server error codes (it is
dereferenced). -/
def od_cleanup_server_ok (client : od_client_t) (status : od_frontend_rc_t) : Prop :=
  (status = od_frontend_rc_t.OD_FE_EATTACH → client.server = none) ∧
  ((status = od_frontend_rc_t.OD_FE_ESERVER_CONNECT ∨
    status = od_frontend_rc_t.OD_FE_ESERVER_CONFIGURE ∨
    status = od_frontend_rc_t.OD_FE_ESERVER_READ ∨
    status = od_frontend_rc_t.OD_FE_ESERVER_WRITE) → client.server ≠ none)

/-! ## Sample values -/

/-- A client id. -/
def sample_client_id : od_id_t := { id_prefix := "c", id := "0a1b", id_a := 7, id_b := 9 }

/-- A server id. -/
def sample_server_id : od_id_t := { id_prefix := "s", id := "77f0", id_a := 3, id_b := 4 }

/-- A connected server last configured by another client. -/
def sample_server : od_server_t :=
  { id := sample_server_id, io := some 5, is_transaction := false, is_copy := false,
    deploy_sync := 0, sync_request := 2,
    last_client_id := { id_prefix := "c", id := "ffff", id_a := 1, id_b := 2 },
    error_connect := none }

/-- A remote route in transaction pool mode. -/
def sample_route : od_route_t :=
  { config := { pool := od_pool_type_t.OD_POOL_TYPE_TRANSACTION, client_fwd_error := false,
                storage_type := od_storage_type_t.OD_STORAGE_TYPE_REMOTE },
    params := [{ name := "server_version", value := "9.6.0" }] }

/-- A routed session holding `sample_server`. -/
def sample_client : od_client_t :=
  { id := sample_client_id, key := { key_pid := 7, key := 9 }, io := some 1,
    io_notify := some 2, route := some sample_route, server := some sample_server,
    params := [{ name := "client_encoding", value := "UTF8" }],
    startup_params := [{ name := "client_encoding", value := "UTF8" }],
    ctl_op := od_client_op_t.OD_CLIENT_OP_NONE }

/-- A chunk made of the given bytes. -/
def sample_msg (bytes : List Nat) : machine_msg_t := { data := bytes }

/-- Collaborators that succeed at everything: reset answers `reset_rc`, the
packet reader hands out `msg` with result code `read_rc`, the deploy consumer
counts down on a ready-for-query. -/
def sample_env (reset_rc : Int) (read_rc : Int) (msg : machine_msg_t) : od_env :=
  { error_msg := true, client_write := 0, client_flush := 0, server_write := 0,
    server_flush := 0, reset := fun _ => reset_rc, read_error := fun _ => none,
    od_snprintf := fun n text => text.take (n - 1), packet_read := (read_rc, msg),
    read_parameter := fun _ => none, param_allocate := true,
    backend_ready := fun server _ => some server,
    backend_deploy := fun server reply =>
      if machine_msg_type reply = 90 then
        (0, { server with deploy_sync := server.deploy_sync - 1 })
      else (0, server),
    router_attach := [], backend_connect := fun server => (0, server),
    deploy_write := fun _ _ => 1 }

/-- The server an event returns to the pool, if it is such a call. -/
def od_returns_to_pool : od_event → Option od_server_t
  | od_event.od_router_detach server => some server
  | od_event.od_router_detach_and_unroute server => some server
  | _ => none

/-- Every call of the list that returns a server to the pool comes right
after an `od_reset` on that server whose result satisfies `ok`; `prev` is the
call made just before the list. -/
def od_pool_return_after_reset (ok : Int → Bool) : Option od_event → List od_event → Bool
  | _, [] => true
  | prev, e :: rest =>
    (match od_returns_to_pool e with
     | none => true
     | some server =>
       match prev with
       | some (od_event.od_reset reset_server rc) => decide (reset_server = server) && ok rc
       | _ => false) &&
    od_pool_return_after_reset ok (some e) rest

/-- The calls made by cleanup; none when it faults. -/
def od_cleanup_trace (r : Option (od_client_t × List od_event)) : List od_event :=
  match r with
  | none => []
  | some x => x.2

/-- An `od_reset` call. -/
def od_event.is_reset : od_event → Bool
  | od_event.od_reset _ _ => true
  | _ => false

/-- A ready-for-query first chunk, state idle. -/
def sample_ready : machine_msg_t := sample_msg [90, 0, 0, 0, 5, 73]

/-- The sample session right after a deploy of one query: one reply of the
server is still to be discarded. -/
def sample_deploying_client : od_client_t :=
  { sample_client with server := some { sample_server with deploy_sync := 1 } }

/-- A call of `od_router_detach`. -/
def od_event.is_detach : od_event → Bool
  | od_event.od_router_detach _ => true
  | _ => false

/-- Result codes of the calls of `machine_write` on the server socket. -/
def od_server_write_results : List od_event → List Int
  | [] => []
  | od_event.write_server _ rc _ :: rest => rc :: od_server_write_results rest
  | _ :: rest => od_server_write_results rest

/-- A parameter-status first chunk; its bytes are decoded by the answer
record, here as `(TimeZone, GMT)`. -/
def sample_parameter_status : machine_msg_t := sample_msg [83, 0, 0, 0, 17]

/-- The collaborators of `sample_env` with a codec that reads the pair
`(TimeZone, GMT)` from every parameter-status frame. -/
def sample_env_parameter : od_env :=
  { sample_env 1 0 sample_parameter_status with
    read_parameter := fun _ => some ("TimeZone", "GMT") }

/-- A query first chunk. -/
def sample_query : machine_msg_t := sample_msg [81, 0, 0, 0, 5, 0]

/-- A call of `od_deploy_write`. -/
def od_event.is_deploy_write : od_event → Bool
  | od_event.od_deploy_write _ _ _ => true
  | _ => false

/-- A call of `od_router_attach`. -/
def od_event.is_router_attach : od_event → Bool
  | od_event.od_router_attach _ => true
  | _ => false

/-- A call of `od_router_close`. -/
def od_event.is_router_close : od_event → Bool
  | od_event.od_router_close _ => true
  | _ => false

/-- An answer of the router that hands out a dead server: status OK, a
socket that exists and is no longer connected. -/
def od_attach_answer.is_dead (a : od_attach_answer) : Bool :=
  decide (a.status = od_router_status_t.OD_ROK) && a.server.io.isSome && !a.connected

/-- The router hands out `sample_server` with a dead socket. -/
def sample_dead_answer : od_attach_answer :=
  { status := od_router_status_t.OD_ROK, server := sample_server, connected := false }

/-- The router hands out `sample_server` with a live socket. -/
def sample_live_answer : od_attach_answer :=
  { status := od_router_status_t.OD_ROK, server := sample_server, connected := true }

/-- The sample session before any attach. -/
def sample_detached_client : od_client_t := { sample_client with server := none }

/-- The collaborators of `sample_env` with the given answers of the router. -/
def sample_env_attach (answers : List od_attach_answer) : od_env :=
  { sample_env 1 0 sample_query with router_attach := answers }

/-- Two sessions that differ at most in the server they hold. -/
def od_same_but_server (a b : od_client_t) : Prop :=
  a.id = b.id ∧ a.key = b.key ∧ a.io = b.io ∧ a.io_notify = b.io_notify ∧
  a.route = b.route ∧ a.params = b.params ∧ a.startup_params = b.startup_params ∧
  a.ctl_op = b.ctl_op

/-- Frames handed to `machine_write` on the client socket, in order. -/
def od_client_frames : List od_event → List od_frame
  | [] => []
  | od_event.write_client f _ _ :: rest => f :: od_client_frames rest
  | _ :: rest => od_client_frames rest

/-- A copy of the route cache. -/
def od_event.is_lock_copy : od_event → Bool
  | od_event.kiwi_params_lock_copy _ _ => true
  | _ => false

/-- A call of a handler by the relay loop. -/
def od_event.is_handler : od_event → Bool
  | od_event.handler _ => true
  | _ => false

/-- A call of the readiness poll. -/
def od_event.is_poll : od_event → Bool
  | od_event.machine_read_poll _ _ _ _ => true
  | _ => false

/-- The parameter-status frame of a parameter. -/
def od_parameter_status (param : kiwi_param_t) : od_frame :=
  od_frame.parameter_status param.name param.value

/-- The calls of one pass of setup that finds the cache empty: the copy, the
throwaway attach, the close of the server obtained. -/
def od_setup_throwaway (client : od_client_t) (env : od_env) : List od_event :=
  match client.route with
  | none => []
  | some route =>
    od_event.kiwi_params_lock_copy (env.lock_copy route).1 (env.lock_copy route).2 ::
      (od_frontend_attach env client).trace ++
      (match (od_frontend_attach env client).client.server with
       | none => []
       | some server => [od_event.od_router_close server])

/-- The contract of the poll: an event of `machine_read_poll` reports only
endpoints that are among the polled entries of the poll set. -/
def od_event.poll_ok : od_event → Bool
  | od_event.machine_read_poll io_set io_count ready _ =>
    ready.all (fun io => (io_set.take io_count).contains io)
  | _ => true

/-- The poll-set invariant at an event of `machine_read_poll`: with a server
held, three entries are polled and the third is the socket of that server;
without one, two entries are polled. -/
def od_event.poll_set_ok : od_event → Bool
  | od_event.machine_read_poll io_set io_count _ session =>
    match session.server with
    | some server =>
      decide (io_count = 3) && decide (io_set = [session.io_notify, session.io, server.io])
    | none =>
      decide (io_count = 2) && decide (io_set = [session.io_notify, session.io, none])
  | _ => true

/-- Two sessions with the same identity, key, sockets, route and startup
parameters. -/
def od_same_session (a b : od_client_t) : Prop :=
  a.id = b.id ∧ a.key = b.key ∧ a.io = b.io ∧ a.io_notify = b.io_notify ∧
  a.route = b.route ∧ a.startup_params = b.startup_params

/-- The four server error codes. -/
def od_frontend_rc_t.is_server_error : od_frontend_rc_t → Bool
  | od_frontend_rc_t.OD_FE_ESERVER_CONNECT => true
  | od_frontend_rc_t.OD_FE_ESERVER_CONFIGURE => true
  | od_frontend_rc_t.OD_FE_ESERVER_READ => true
  | od_frontend_rc_t.OD_FE_ESERVER_WRITE => true
  | _ => false

/-- Collaborators of a setup pass that finds the route cache empty and gets
the live sample server from the router. -/
def sample_env_empty_cache : od_env :=
  { sample_env_attach [sample_live_answer] with lock_copy := fun _ => (0, []) }

/-- The server of each write to the server socket (its id) with the cancel
key of the session at that write, in order. -/
def od_server_write_keys : List od_event → List (Option od_id_t × kiwi_key_t)
  | [] => []
  | od_event.write_server _ _ session :: rest =>
    (session.server.map (fun server => server.id), session.key) :: od_server_write_keys rest
  | _ :: rest => od_server_write_keys rest

/-- A live server last configured by the sample client. -/
def sample_server_a : od_server_t :=
  { sample_server with last_client_id := sample_client_id }

/-- Another live server last configured by the sample client. -/
def sample_server_b : od_server_t :=
  { sample_server_a with
    id := { id_prefix := "s", id := "b2b2", id_a := 5, id_b := 6 }, io := some 6 }

/-- The client socket is ready with a query, and the router answers with the
given server. -/
def sample_ready_query (server : od_server_t) : od_ready :=
  { io := some 1,
    env := sample_env_attach
      [{ status := od_router_status_t.OD_ROK, server := server, connected := true }],
    op := od_client_op_t.OD_CLIENT_OP_NONE }

/-- The socket `io` of a server is ready with a ready-for-query, state idle. -/
def sample_ready_idle (io : Nat) : od_ready :=
  { io := some io, env := sample_env 1 0 sample_ready,
    op := od_client_op_t.OD_CLIENT_OP_NONE }

/-- The control channel is ready and carries no kill. -/
def sample_ready_notify : od_ready :=
  { io := some 2, env := sample_env 1 0 sample_query,
    op := od_client_op_t.OD_CLIENT_OP_NONE }

/-- The sample route with the forwarding of connect errors switched on. -/
def sample_fwd_route : od_route_t :=
  { sample_route with config := { sample_route.config with client_fwd_error := true } }

/-- The error response a server sent while its startup failed, as stored. -/
def sample_stored_error : machine_msg_t := sample_msg [69, 0, 0, 0, 9]

/-- The sample session after a failed connect: the server has no socket and
holds the stored error; the route forwards connect errors. -/
def sample_failed_client : od_client_t :=
  { sample_client with
    route := some sample_fwd_route,
    server := some { sample_server with io := none, error_connect := some sample_stored_error } }

/-- The collaborators of `sample_env` with a codec that decodes the stored
error and a formatted text that fits the buffer of `od_snprintf`. -/
def sample_env_fwd : od_env :=
  { sample_env 1 0 sample_query with
    od_snprintf := fun _ text => text,
    read_error := fun _ =>
      some { severity := "FATAL", code := "28P01", message := "denied",
             detail := none, hint := none } }

/-- A write or a flush on the client socket. -/
def od_event.is_client_io : od_event → Bool
  | od_event.write_client _ _ _ => true
  | od_event.flush_client _ => true
  | _ => false

/-- A call made by the relay loop itself: the poll, or the call of a handler. -/
def od_event.is_relay_call : od_event → Bool
  | od_event.machine_read_poll _ _ _ _ => true
  | od_event.handler _ => true
  | _ => false

/-- The answers of `od_backend_ready` and `od_backend_deploy` leave the
socket of the server as it is. -/
def od_env.keeps_io (env : od_env) : Prop :=
  (∀ server msg updated, env.backend_ready server msg = some updated →
    updated.io = server.io) ∧
  (∀ server msg, (env.backend_deploy server msg).2.io = server.io)

/-- The poll-set invariant on the locals of the relay loop. -/
def od_relay_t.poll_set_ok (st : od_relay_t) : Prop :=
  (st.io_count = 3 ∧ ∃ server, st.client.server = some server ∧
    st.io_set = [st.client.io_notify, st.client.io, server.io]) ∨
  (st.io_count = 2 ∧ st.client.server = none ∧
    st.io_set = [st.client.io_notify, st.client.io, none])

/-- Three returns of the poll: the control channel and the client socket are
ready at once, the router answering with `sample_server_a`; then the socket
of that server with a ready-for-query; then the control channel again. -/
def sample_rounds : List (List od_ready) :=
  [[sample_ready_notify, sample_ready_query sample_server_a], [sample_ready_idle 5],
   [sample_ready_notify]]

/-- The endpoint of a call of a handler by the relay loop, `none` for any
other call. -/
def od_event.endpoint : od_event → Option od_endpoint
  | od_event.handler endpoint => some endpoint
  | _ => none

/-- The locals of `od_frontend_remote` at its first poll. -/
def od_relay_t.start (client : od_client_t) : od_relay_t :=
  { client := client, io_set := [client.io_notify, client.io, none], io_count := 2 }

/-- Two returns of the poll: the client socket is ready with a query, the
router answering with `sample_server_a`; then the socket of that server is
ready and the read from it fails. -/
def sample_rounds_read_error : List (List od_ready) :=
  [[sample_ready_query sample_server_a],
   [{ io := some 5, env := sample_env 1 (-1) sample_query,
      op := od_client_op_t.OD_CLIENT_OP_NONE }]]

/-- A write to the server socket is made under the cancel key `key`; true of
every other call. -/
def od_event.key_is (key : kiwi_key_t) : od_event → Bool
  | od_event.write_server _ _ session => decide (session.key = key)
  | _ => true

/-! ## Theorems: cleanup -/

/-- The error frame of `od_frontend_error` involves no release call. -/
theorem od_frontend_error_no_release (env : od_env) (client : od_client_t)
    (code text : String) :
    (od_frontend_error env client code text).2.filter od_event.is_release = [] := by
  unfold od_frontend_error
  split
  · rfl
  · dsimp only
    split <;> simp [od_event.is_release]

/-- The forwarded error of `od_frontend_error_fwd` involves no release call. -/
theorem od_frontend_error_fwd_no_release (env : od_env) (client : od_client_t)
    (e : Int × List od_event) (h : od_frontend_error_fwd env client = some e) :
    e.2.filter od_event.is_release = [] := by
  unfold od_frontend_error_fwd at h
  split at h
  · cases h
  · split at h
    · cases h
    · split at h
      · cases h; rfl
      · split at h
        · cases h; rfl
        · dsimp only at h
          split at h <;> cases h <;> simp [od_event.is_release]

/-- With a server holding a stored connect error, `od_frontend_error_fwd`
passes its two assertions. -/
theorem od_frontend_error_fwd_defined (env : od_env) (client : od_client_t)
    (server : od_server_t) (stored : machine_msg_t)
    (hs : client.server = some server) (he : server.error_connect = some stored) :
    ∃ e, od_frontend_error_fwd env client = some e := by
  unfold od_frontend_error_fwd
  rw [hs]
  simp only [he]
  split
  · exact ⟨_, rfl⟩
  · split
    · exact ⟨_, rfl⟩
    · split <;> exact ⟨_, rfl⟩

/-- C1, as stated, fails: with terminal code `OD_FE_EATTACH` and a session
that has a route and still holds a server, the first assertion of the
`OD_FE_EATTACH` branch fails, so cleanup makes no release call at all. -/
theorem cleanup_eattach_with_server_faults :
    sample_client.route ≠ none ∧
    od_frontend_rc_t.OD_FE_EATTACH ≠ od_frontend_rc_t.OD_FE_UNDEF ∧
    od_frontend_cleanup (sample_env 1 0 (sample_msg [])) sample_client
      od_frontend_rc_t.OD_FE_EATTACH = none := by
  refine ⟨by decide, by decide, rfl⟩

/-- C1, amended: for every terminal code other than UNDEF and every session
with a route assigned whose server field is what the code's branch requires
(none for EATTACH, present for the four server error codes), cleanup returns,
makes exactly one release call (`od_unroute`, `od_router_detach_and_unroute`
or `od_router_close_and_unroute`), and leaves the session with neither a
route nor a server, so that `od_frontend_close` passes its two assertions. -/
theorem cleanup_releases_exactly_once (env : od_env) (client : od_client_t)
    (status : od_frontend_rc_t)
    (hstatus : status ≠ od_frontend_rc_t.OD_FE_UNDEF)
    (hroute : client.route ≠ none)
    (hpre : od_cleanup_server_ok client status) :
    ∃ after trace,
      od_frontend_cleanup env client status = some (after, trace) ∧
      (trace.filter od_event.is_release).length = 1 ∧
      after.route = none ∧ after.server = none ∧
      (od_frontend_close after).isSome = true := by
  obtain ⟨hpre1, hpre2⟩ := hpre
  have hrel : ∀ (pre : List od_event) (e : od_event), pre.filter od_event.is_release = [] →
      e.is_release = true → ((pre ++ [e]).filter od_event.is_release).length = 1 := by
    intro pre e hp he
    simp [List.filter_append, hp, he]
  cases hr : client.route with
  | none => exact absurd hr hroute
  | some route =>
    cases hs : client.server with
    | none =>
      cases status <;>
        simp only [od_frontend_cleanup, hs, hr, Option.isSome_none, Option.isNone_some,
          Bool.false_eq_true, if_false]
      case OD_FE_UNDEF => exact absurd rfl hstatus
      case OD_FE_EATTACH =>
        exact ⟨_, _, rfl, hrel _ _ (od_frontend_error_no_release _ _ _ _) rfl, rfl, hs, by
          simp [od_frontend_close, od_unroute, hs]⟩
      case OD_FE_ESERVER_CONNECT => exact absurd hs (hpre2 (Or.inl rfl))
      case OD_FE_ESERVER_CONFIGURE => exact absurd hs (hpre2 (Or.inr (Or.inl rfl)))
      case OD_FE_ESERVER_READ => exact absurd hs (hpre2 (Or.inr (Or.inr (Or.inl rfl))))
      case OD_FE_ESERVER_WRITE => exact absurd hs (hpre2 (Or.inr (Or.inr (Or.inr rfl))))
      all_goals
        exact ⟨_, _, rfl, rfl, rfl, hs, by simp [od_frontend_close, od_unroute, hs]⟩
    | some server =>
      have hclose : ∀ c : od_client_t, c.route = none → c.server = none →
          (od_frontend_close c).isSome = true := by
        intro c h1 h2
        simp [od_frontend_close, h1, h2]
      cases status <;> simp only [od_frontend_cleanup, hs, hr]
      case OD_FE_UNDEF => exact absurd rfl hstatus
      case OD_FE_EATTACH => rw [hs] at hpre1; exact absurd (hpre1 rfl) (by simp)
      case OD_FE_ECLIENT_CONFIGURE =>
        exact ⟨_, _, rfl, hrel _ _ (od_frontend_error_no_release _ _ _ _) rfl, rfl, rfl,
          hclose _ rfl rfl⟩
      case OD_FE_ESERVER_CONFIGURE =>
        exact ⟨_, _, rfl, hrel _ _ (od_frontend_error_no_release _ _ _ _) rfl, rfl, rfl,
          hclose _ rfl rfl⟩
      case OD_FE_ESERVER_READ =>
        exact ⟨_, _, rfl, hrel _ _ (od_frontend_error_no_release _ _ _ _) rfl, rfl, rfl,
          hclose _ rfl rfl⟩
      case OD_FE_ESERVER_WRITE =>
        exact ⟨_, _, rfl, hrel _ _ (od_frontend_error_no_release _ _ _ _) rfl, rfl, rfl,
          hclose _ rfl rfl⟩
      case OD_FE_ESERVER_CONNECT =>
        cases he : server.error_connect with
        | none =>
          exact ⟨_, _, rfl, hrel _ _ (od_frontend_error_no_release _ _ _ _) rfl, rfl, rfl,
            hclose _ rfl rfl⟩
        | some stored =>
          simp only []
          split
          · obtain ⟨e, hfwd⟩ := od_frontend_error_fwd_defined env client server stored hs he
            rw [hfwd]
            exact ⟨_, _, rfl, hrel _ _ (od_frontend_error_fwd_no_release _ _ _ hfwd) rfl,
              rfl, rfl, hclose _ rfl rfl⟩
          · exact ⟨_, _, rfl, hrel _ _ (od_frontend_error_no_release _ _ _ _) rfl, rfl, rfl,
              hclose _ rfl rfl⟩
      all_goals
        split <;> exact ⟨_, _, rfl, rfl, rfl, rfl, hclose _ rfl rfl⟩

/-- Witness of C1 amended: a server read error with the server attached. -/
theorem cleanup_releases_exactly_once_witness :
    ∃ after trace,
      od_frontend_cleanup (sample_env 1 0 (sample_msg [])) sample_client
        od_frontend_rc_t.OD_FE_ESERVER_READ = some (after, trace) ∧
      (trace.filter od_event.is_release).length = 1 ∧
      after.route = none ∧ after.server = none ∧
      (od_frontend_close after).isSome = true :=
  cleanup_releases_exactly_once (sample_env 1 0 (sample_msg [])) sample_client
    od_frontend_rc_t.OD_FE_ESERVER_READ (by decide) (by decide)
    ⟨fun h => (nomatch h), fun _ => by decide⟩

/-- C2: for the terminal codes OK, KILL, TERMINATE, ECLIENT_READ and
ECLIENT_WRITE, cleanup returns, writes nothing to the client, and its calls
are: `od_unroute` alone when no server is attached; otherwise one `od_reset`
on the server followed by `od_router_detach_and_unroute` when reset answered
1 and by `od_router_close_and_unroute` for any other answer. -/
theorem cleanup_graceful (env : od_env) (client : od_client_t) (status : od_frontend_rc_t)
    (hstatus : status = od_frontend_rc_t.OD_FE_OK ∨ status = od_frontend_rc_t.OD_FE_KILL ∨
      status = od_frontend_rc_t.OD_FE_TERMINATE ∨
      status = od_frontend_rc_t.OD_FE_ECLIENT_READ ∨
      status = od_frontend_rc_t.OD_FE_ECLIENT_WRITE) :
    ∃ after trace,
      od_frontend_cleanup env client status = some (after, trace) ∧
      trace.filter od_event.is_write_client = [] ∧
      (client.server = none → trace = [od_event.od_unroute]) ∧
      (∀ server, client.server = some server →
        (env.reset server = 1 →
          trace = [od_event.od_reset server 1, od_event.od_router_detach_and_unroute server]) ∧
        (env.reset server ≠ 1 →
          trace = [od_event.od_reset server (env.reset server),
                   od_event.od_router_close_and_unroute server])) := by
  cases hs : client.server with
  | none =>
    rcases hstatus with h | h | h | h | h <;> subst h <;>
      simp only [od_frontend_cleanup, hs] <;>
      exact ⟨_, _, rfl, rfl, fun _ => rfl, fun _ h => nomatch h⟩
  | some server =>
    rcases hstatus with h | h | h | h | h <;> subst h <;>
      simp only [od_frontend_cleanup, hs] <;>
      (by_cases hr : env.reset server = 1
       · rw [if_neg (not_not.mpr hr)]
         refine ⟨_, _, rfl, ?_, fun h => (nomatch h), fun s hs2 => ?_⟩
         · simp [od_event.is_write_client]
         · cases hs2
           exact ⟨fun _ => by rw [hr], fun h => absurd hr h⟩
       · rw [if_pos hr]
         refine ⟨_, _, rfl, ?_, fun h => (nomatch h), fun s hs2 => ?_⟩
         · simp [od_event.is_write_client]
         · cases hs2
           exact ⟨fun h => absurd h hr, fun _ => rfl⟩)

/-- Witness of C2: a client read error with a server whose reset answers 0. -/
theorem cleanup_graceful_witness :
    ∃ after trace,
      od_frontend_cleanup (sample_env 0 0 (sample_msg [])) sample_client
        od_frontend_rc_t.OD_FE_ECLIENT_READ = some (after, trace) ∧
      trace.filter od_event.is_write_client = [] ∧
      (sample_client.server = none → trace = [od_event.od_unroute]) ∧
      (∀ server, sample_client.server = some server →
        ((sample_env 0 0 (sample_msg [])).reset server = 1 →
          trace = [od_event.od_reset server 1, od_event.od_router_detach_and_unroute server]) ∧
        ((sample_env 0 0 (sample_msg [])).reset server ≠ 1 →
          trace = [od_event.od_reset server ((sample_env 0 0 (sample_msg [])).reset server),
                   od_event.od_router_close_and_unroute server])) :=
  cleanup_graceful (sample_env 0 0 (sample_msg [])) sample_client
    od_frontend_rc_t.OD_FE_ECLIENT_READ (Or.inr (Or.inr (Or.inr (Or.inl rfl))))

/-! ## Theorems: return of a server to the pool -/

/-- A list of calls none of which returns a server to the pool passes the
reset check. -/
theorem od_pool_return_after_reset_of_none (ok : Int → Bool) (l : List od_event) :
    ∀ prev, (∀ e ∈ l, od_returns_to_pool e = none) →
      od_pool_return_after_reset ok prev l = true := by
  induction l with
  | nil => intro _ _; rfl
  | cons e rest ih =>
    intro prev h
    have he : od_returns_to_pool e = none := h e (List.mem_cons_self _ _)
    have hrest := ih (some e) (fun x hx => h x (List.mem_cons_of_mem _ hx))
    simp [od_pool_return_after_reset, he, hrest]

/-- The reset check on a list followed by one more call. -/
theorem od_pool_return_after_reset_snoc (ok : Int → Bool) (l : List od_event) (e : od_event)
    (he : od_returns_to_pool e = none) :
    ∀ prev, od_pool_return_after_reset ok prev l = true →
      od_pool_return_after_reset ok prev (l ++ [e]) = true := by
  induction l with
  | nil => intro prev _; simp [od_pool_return_after_reset, he]
  | cons x rest ih =>
    intro prev h
    simp only [od_pool_return_after_reset, Bool.and_eq_true, List.cons_append] at h ⊢
    exact ⟨h.1, ih _ h.2⟩

/-- No call of `od_frontend_error` returns a server to the pool. -/
theorem od_frontend_error_no_pool_return (env : od_env) (client : od_client_t)
    (code text : String) :
    ∀ e ∈ (od_frontend_error env client code text).2, od_returns_to_pool e = none := by
  unfold od_frontend_error
  split
  · intro e he; cases he
  · dsimp only
    split <;> simp [od_returns_to_pool]

/-- No call of `od_frontend_error_fwd` returns a server to the pool. -/
theorem od_frontend_error_fwd_no_pool_return (env : od_env) (client : od_client_t)
    (r : Int × List od_event) (h : od_frontend_error_fwd env client = some r) :
    ∀ e ∈ r.2, od_returns_to_pool e = none := by
  unfold od_frontend_error_fwd at h
  split at h
  · cases h
  · split at h
    · cases h
    · split at h
      · cases h; intro e he; cases he
      · split at h
        · cases h; intro e he; cases he
        · dsimp only at h
          split at h <;> cases h <;> simp [od_returns_to_pool]

/-- No call of the attach loop returns a server to the pool. -/
theorem od_frontend_attach_loop_no_pool_return (env : od_env) (l : List od_attach_answer) :
    ∀ client, ∀ e ∈ (od_frontend_attach_loop env client l).trace,
      od_returns_to_pool e = none := by
  induction l with
  | nil => intro client e he; cases he
  | cons a rest ih =>
    intro client
    unfold od_frontend_attach_loop
    split
    · simp [od_returns_to_pool]
    · dsimp only
      split
      · intro e he
        simp only [List.cons_append, List.nil_append, List.mem_cons] at he
        rcases he with rfl | rfl | he
        · rfl
        · rfl
        · exact ih _ e he
      · split
        · split <;> simp [od_returns_to_pool]
        · simp [od_returns_to_pool]

/-- No call of `od_frontend_attach_and_deploy` returns a server to the pool. -/
theorem od_frontend_attach_and_deploy_no_pool_return (env : od_env) (client : od_client_t) :
    ∀ e ∈ (od_frontend_attach_and_deploy env client).trace, od_returns_to_pool e = none := by
  have h0 := od_frontend_attach_loop_no_pool_return env env.router_attach client
  unfold od_frontend_attach_and_deploy
  dsimp only
  split
  · exact h0
  · split
    · exact h0
    · split
      · split
        · intro e he
          rcases List.mem_append.mp he with h | h
          · exact h0 e h
          · simp only [List.mem_singleton] at h; subst h; rfl
        · intro e he
          rcases List.mem_append.mp he with h | h
          · exact h0 e h
          · simp only [List.mem_singleton] at h; subst h; rfl
      · exact h0

/-- No call made after the attach in `od_frontend_remote_client` returns a
server to the pool. -/
theorem od_frontend_remote_client_read_no_pool_return (env : od_env) (client : od_client_t)
    (server : od_server_t) (pre : List od_event)
    (hpre : ∀ e ∈ pre, od_returns_to_pool e = none) :
    ∀ e ∈ (od_frontend_remote_client_read env client server pre).trace,
      od_returns_to_pool e = none := by
  unfold od_frontend_remote_client_read od_forward_server
  dsimp only
  split_ifs <;>
    simp only [List.mem_append, List.mem_cons, List.mem_singleton, List.not_mem_nil,
      or_false, or_imp, forall_and, forall_eq, od_returns_to_pool, and_true, true_and] <;>
    exact hpre

/-- No call of `od_frontend_remote_client` returns a server to the pool. -/
theorem od_frontend_remote_client_no_pool_return (env : od_env) (client : od_client_t) :
    ∀ e ∈ (od_frontend_remote_client env client).trace, od_returns_to_pool e = none := by
  unfold od_frontend_remote_client
  split
  · exact od_frontend_remote_client_read_no_pool_return env client _ []
      (fun e he => nomatch he)
  · dsimp only
    split
    · exact od_frontend_attach_and_deploy_no_pool_return env client
    · split
      · exact od_frontend_attach_and_deploy_no_pool_return env client
      · exact od_frontend_remote_client_read_no_pool_return env _ _ _
          (od_frontend_attach_and_deploy_no_pool_return env client)

/-- The reset check passes on a reset with an accepted answer followed by
the detach of the same server, between calls that return nothing to the
pool. -/
theorem od_pool_return_after_reset_sandwich (ok : Int → Bool) (a b : List od_event)
    (server : od_server_t) (rc : Int) (hok : ok rc = true)
    (ha : ∀ e ∈ a, od_returns_to_pool e = none)
    (hb : ∀ e ∈ b, od_returns_to_pool e = none) :
    ∀ prev, od_pool_return_after_reset ok prev
      (a ++ ([od_event.od_reset server rc, od_event.od_router_detach server] ++ b)) = true := by
  induction a with
  | nil =>
    intro prev
    simp [od_pool_return_after_reset, od_returns_to_pool, hok,
      od_pool_return_after_reset_of_none ok b _ hb]
  | cons x rest ih =>
    intro prev
    have hx : od_returns_to_pool x = none := ha x (List.mem_cons_self _ _)
    have hrest := ih (fun e he => ha e (List.mem_cons_of_mem _ he)) (some x)
    simp only [List.cons_append, od_pool_return_after_reset, hx, Bool.true_and]
    exact hrest

/-- Shape of the calls of the first-chunk switch of the server handler:
either nothing is returned to the pool, or the calls end with a reset whose
result is not -1 followed by the detach of the same server. -/
theorem od_frontend_remote_server_switch_shape (env : od_env) (client : od_client_t)
    (server : od_server_t) (msg : machine_msg_t) :
    (∀ e ∈ (od_frontend_remote_server_switch env client server msg).2.2,
        od_returns_to_pool e = none) ∨
    (∃ pre s rc, (od_frontend_remote_server_switch env client server msg).2.2 =
        pre ++ [od_event.od_reset s rc, od_event.od_router_detach s] ∧
        (∀ e ∈ pre, od_returns_to_pool e = none) ∧ rc ≠ -1) := by
  generalize ht : (od_frontend_remote_server_switch env client server msg).2.2 = t
  unfold od_frontend_remote_server_switch at ht
  dsimp only at ht
  split at ht
  · subst ht; left; simp [od_returns_to_pool]
  · split at ht
    · split at ht
      · subst ht; left; simp
      · split at ht <;> (subst ht; left; simp)
    · split at ht
      · subst ht; left; simp
      · split at ht
        · subst ht; left; simp
        · split at ht
          · split at ht
            · subst ht; left; simp [od_returns_to_pool]
            · split at ht
              · subst ht; left; simp [od_returns_to_pool]
              · split at ht
                · split at ht
                  · split at ht
                    · subst ht; left; simp [od_returns_to_pool]
                    · subst ht; right
                      exact ⟨_, _, _, rfl, by simp [od_returns_to_pool], by assumption⟩
                  · subst ht; left; simp [od_returns_to_pool]
                · subst ht; left; simp [od_returns_to_pool]
          · subst ht; left; simp

/-- No call of a forward to the client returns a server to the pool. -/
theorem od_forward_client_no_pool_return (env : od_env) (client : od_client_t)
    (msg : machine_msg_t) :
    ∀ e ∈ (od_forward_client env client msg).2, od_returns_to_pool e = none := by
  unfold od_forward_client
  split_ifs <;> simp [od_returns_to_pool]

/-- In `od_frontend_remote_server` every `od_router_detach` comes right after
an `od_reset` on the same server whose result is not -1. -/
theorem od_frontend_remote_server_pool_return (env : od_env) (client : od_client_t) :
    od_pool_return_after_reset (fun rc => decide (rc ≠ -1)) none
      (od_frontend_remote_server env client).trace = true := by
  unfold od_frontend_remote_server
  split
  · rfl
  · next server hs =>
    dsimp only
    have hw := od_forward_client_no_pool_return env
    have key : ∀ (w : List od_event), (∀ e ∈ w, od_returns_to_pool e = none) →
        od_pool_return_after_reset (fun rc => decide (rc ≠ -1)) none
          ([od_event.read_server env.packet_read.1 env.packet_read.2,
            od_event.od_stat_recv_server (machine_msg_get_size env.packet_read.2)] ++
            (od_frontend_remote_server_switch env client server env.packet_read.2).2.2 ++ w)
          = true := by
      intro w hwn
      rcases od_frontend_remote_server_switch_shape env client server env.packet_read.2 with
        h | ⟨pre, s, rc, heq, hpre, hrc⟩
      · apply od_pool_return_after_reset_of_none
        intro e he
        simp only [List.mem_append, List.mem_cons, List.mem_singleton, List.not_mem_nil,
          or_false] at he
        rcases he with (((rfl | rfl)) | he) | he
        · rfl
        · rfl
        · exact h e he
        · exact hwn e he
      · rw [heq]
        have := od_pool_return_after_reset_sandwich (fun rc => decide (rc ≠ -1))
          ([od_event.read_server env.packet_read.1 env.packet_read.2,
            od_event.od_stat_recv_server (machine_msg_get_size env.packet_read.2)] ++ pre)
          w s rc (by simpa using hrc) (by
            intro e he
            simp only [List.mem_append, List.mem_cons, List.mem_singleton, List.not_mem_nil,
              or_false] at he
            rcases he with (rfl | rfl) | he
            · rfl
            · rfl
            · exact hpre e he) hwn none
        simpa [List.append_assoc] using this
    split
    · rfl
    · split
      · split
        · exact od_pool_return_after_reset_of_none _ _ none (by
            intro e he
            simp only [List.mem_append, List.mem_cons, List.mem_singleton, List.not_mem_nil,
              or_false] at he
            rcases he with (rfl | rfl) | he
            · rfl
            · rfl
            · exact hw _ _ e he)
        · exact od_pool_return_after_reset_of_none _ _ none (by
            intro e he
            simp only [List.mem_append, List.mem_cons, List.mem_singleton, List.not_mem_nil,
              or_false] at he
            rcases he with (rfl | rfl) | he
            · rfl
            · rfl
            · exact hw _ _ e he)
      · split
        · split <;> rfl
        · split
          · have := key [] (fun e he => nomatch he)
            simpa using this
          · split
            · exact key _ (hw _ _)
            · exact key _ (hw _ _)

/-- In cleanup for a code other than ECLIENT_CONFIGURE, every
`od_router_detach_and_unroute` comes right after an `od_reset` on the same
server that answered 1. -/
theorem od_frontend_cleanup_pool_return (env : od_env) (client : od_client_t)
    (status : od_frontend_rc_t)
    (hstatus : status ≠ od_frontend_rc_t.OD_FE_ECLIENT_CONFIGURE) :
    od_pool_return_after_reset (fun rc => decide (rc = 1)) none
      (od_cleanup_trace (od_frontend_cleanup env client status)) = true := by
  have herr : ∀ (code text : String) (e : od_event), od_returns_to_pool e = none →
      od_pool_return_after_reset (fun rc => decide (rc = 1)) none
        ((od_frontend_error env client code text).2 ++ [e]) = true := by
    intro code text e he
    exact od_pool_return_after_reset_snoc _ _ e he none
      (od_pool_return_after_reset_of_none _ _ none
        (od_frontend_error_no_pool_return env client code text))
  cases status
  case OD_FE_ECLIENT_CONFIGURE => exact absurd rfl hstatus
  case OD_FE_UNDEF => rfl
  case OD_FE_EATTACH =>
    unfold od_frontend_cleanup
    dsimp only
    split
    · rfl
    · split
      · rfl
      · exact herr _ _ _ rfl
  case OD_FE_ESERVER_CONNECT =>
    unfold od_frontend_cleanup
    dsimp only
    split
    · rfl
    · split
      · exact herr _ _ _ rfl
      · split
        · rfl
        · split
          · split
            · rfl
            · next r hfwd =>
              exact od_pool_return_after_reset_snoc _ r.2
                (od_event.od_router_close_and_unroute _) rfl none
                (od_pool_return_after_reset_of_none _ _ none
                  (od_frontend_error_fwd_no_pool_return env client r hfwd))
          · exact herr _ _ _ rfl
  case OD_FE_ESERVER_CONFIGURE =>
    unfold od_frontend_cleanup
    dsimp only
    split
    · rfl
    · exact herr _ _ _ rfl
  case OD_FE_ESERVER_READ =>
    unfold od_frontend_cleanup
    dsimp only
    split
    · rfl
    · exact herr _ _ _ rfl
  case OD_FE_ESERVER_WRITE =>
    unfold od_frontend_cleanup
    dsimp only
    split
    · rfl
    · exact herr _ _ _ rfl
  all_goals
    unfold od_frontend_cleanup
    dsimp only
    split
    · rfl
    · split
      · rfl
      · next hrc =>
        simp [od_cleanup_trace, od_pool_return_after_reset, od_returns_to_pool,
          not_not.mp hrc]

/-- C3, the code at the failing input: in transaction pool mode the server
handler reads a ready-for-query after which the server is idle, `od_reset`
answers 0 (discard), and the handler calls `od_router_detach` right after
that reset, returning the server to the pool. Cleanup, given the same answer
of `od_reset` on the same server, closes it instead. In general the server
handler detaches right after any reset whose result is not -1. -/
theorem relay_detach_after_reset_zero :
    (od_frontend_remote_server (sample_env 0 0 sample_ready) sample_client).trace =
      [od_event.read_server 0 sample_ready, od_event.od_stat_recv_server 6,
        od_event.od_backend_ready sample_ready, od_event.od_stat_query_end,
        od_event.od_reset sample_server 0, od_event.od_router_detach sample_server,
        od_event.write_client (od_frame.chunk sample_ready) 0
          { sample_client with server := none },
        od_event.flush_client 0] ∧
    od_pool_return_after_reset (fun rc => decide (rc = 1)) none
      (od_frontend_remote_server (sample_env 0 0 sample_ready) sample_client).trace = false ∧
    od_cleanup_trace (od_frontend_cleanup (sample_env 0 0 sample_ready) sample_client
        od_frontend_rc_t.OD_FE_OK) =
      [od_event.od_reset sample_server 0,
        od_event.od_router_close_and_unroute sample_server] ∧
    (∀ (env : od_env) (client : od_client_t),
      od_pool_return_after_reset (fun rc => decide (rc ≠ -1)) none
        (od_frontend_remote_server env client).trace = true) := by
  refine ⟨by decide, by decide, by decide, ?_⟩
  intro env client
  exact od_frontend_remote_server_pool_return env client

/-! ## Theorems: the server handler of the relay -/

/-- C4, as stated, fails while a deploy is being acknowledged: in
transaction pool mode, with `deploy_sync = 1`, a ready-for-query first chunk
(state idle) is consumed by the deploy consumer; the handler returns OK, the
server is not in a transaction, no `od_router_detach` is made and the session
still holds the server. -/
theorem ready_during_deploy_keeps_server :
    sample_route.config.pool = od_pool_type_t.OD_POOL_TYPE_TRANSACTION ∧
    machine_msg_type sample_ready = KIWI_BE_READY_FOR_QUERY ∧
    (od_frontend_remote_server (sample_env 1 0 sample_ready) sample_deploying_client).outcome =
      od_outcome.returned od_frontend_rc_t.OD_FE_OK ∧
    (od_frontend_remote_server (sample_env 1 0 sample_ready) sample_deploying_client).trace =
      [od_event.read_server 0 sample_ready, od_event.od_stat_recv_server 6,
       od_event.od_backend_deploy sample_ready 0] ∧
    (od_frontend_remote_server (sample_env 1 0 sample_ready)
        sample_deploying_client).client.server =
      some { sample_server with deploy_sync := 0, is_transaction := false } := by
  refine ⟨by decide, by decide, by decide, by decide, by decide⟩

/-- C4, amended with `deploy_sync` not positive: when the server handler
returns OK on a ready-for-query first chunk, `od_backend_ready` has updated the
server; in transaction pool mode with that server out of a transaction the
calls are, in order, the reset, `od_router_detach`, then the write of the
frame to the client made with a session that holds no server, and the session
holds no server afterwards; in session pool mode, or inside a transaction,
no detach is made and the updated server stays attached. -/
theorem ready_for_query_detach (env : od_env) (client : od_client_t) (server : od_server_t)
    (route : od_route_t) (msg : machine_msg_t)
    (hs : client.server = some server) (hr : client.route = some route)
    (hread : env.packet_read = (0, msg))
    (htype : machine_msg_type msg = KIWI_BE_READY_FOR_QUERY)
    (hdeploy : ¬ server.deploy_sync > 0)
    (hok : (od_frontend_remote_server env client).outcome =
      od_outcome.returned od_frontend_rc_t.OD_FE_OK) :
    ∃ server1, env.backend_ready server msg = some server1 ∧
      ((route.config.pool = od_pool_type_t.OD_POOL_TYPE_TRANSACTION ∧
          server1.is_transaction = false) →
        (od_frontend_remote_server env client).trace =
          [od_event.read_server 0 msg,
           od_event.od_stat_recv_server (machine_msg_get_size msg),
           od_event.od_backend_ready msg, od_event.od_stat_query_end,
           od_event.od_reset server1 (env.reset server1),
           od_event.od_router_detach server1,
           od_event.write_client (od_frame.chunk msg) env.client_write
             { client with server := none },
           od_event.flush_client env.client_flush] ∧
        (od_frontend_remote_server env client).client.server = none) ∧
      ((route.config.pool = od_pool_type_t.OD_POOL_TYPE_SESSION ∨
          server1.is_transaction = true) →
        (od_frontend_remote_server env client).trace.filter od_event.is_detach = [] ∧
        (od_frontend_remote_server env client).client.server = some server1) := by
  have h1 : KIWI_BE_READY_FOR_QUERY ≠ KIWI_BE_ERROR_RESPONSE := by decide
  have h2 : KIWI_BE_READY_FOR_QUERY ≠ KIWI_BE_PARAMETER_STATUS := by decide
  have h3 : KIWI_BE_READY_FOR_QUERY ≠ KIWI_BE_COPY_IN_RESPONSE := by decide
  have h4 : KIWI_BE_READY_FOR_QUERY ≠ KIWI_BE_COPY_OUT_RESPONSE := by decide
  have h5 : KIWI_BE_READY_FOR_QUERY ≠ KIWI_BE_COPY_DONE := by decide
  cases hb : env.backend_ready server msg with
  | none =>
    simp [od_frontend_remote_server, od_frontend_remote_server_switch, hs, hr, hread, htype,
      hdeploy, hb, h1, h2, h3, h4, h5] at hok
  | some server1 =>
    refine ⟨server1, rfl, ?_, ?_⟩
    · rintro ⟨hpool, htx⟩
      by_cases hreset : env.reset server1 = -1
      · simp [od_frontend_remote_server, od_frontend_remote_server_switch, hs, hr, hread,
          htype, hdeploy, hb, h1, h2, h3, h4, h5, hpool, htx, hreset] at hok
      · by_cases hw : env.client_write = -1
        · simp [od_frontend_remote_server, od_frontend_remote_server_switch,
            od_forward_client, hs, hr, hread, htype, hdeploy, hb, h1, h2, h3, h4, h5, hpool,
            htx, hreset, hw] at hok
        · by_cases hf : env.client_flush = -1
          · simp [od_frontend_remote_server, od_frontend_remote_server_switch,
              od_forward_client, hs, hr, hread, htype, hdeploy, hb, h1, h2, h3, h4, h5,
              hpool, htx, hreset, hw, hf] at hok
          · simp [od_frontend_remote_server, od_frontend_remote_server_switch,
              od_forward_client, od_router_detach, hs, hr, hread, htype, hdeploy, hb, h1, h2,
              h3, h4, h5, hpool, htx, hreset, hw, hf]
    · intro hcase
      have hnodetach : ¬ (route.config.pool = od_pool_type_t.OD_POOL_TYPE_TRANSACTION ∧
          server1.is_transaction = false) := by
        rintro ⟨hp, ht⟩
        rcases hcase with h | h
        · rw [hp] at h; cases h
        · rw [ht] at h; cases h
      by_cases hw : env.client_write = -1
      · by_cases hp : route.config.pool = od_pool_type_t.OD_POOL_TYPE_TRANSACTION
        · have ht : server1.is_transaction = true := by
            cases hx : server1.is_transaction
            · exact absurd ⟨hp, hx⟩ hnodetach
            · rfl
          simp [od_frontend_remote_server, od_frontend_remote_server_switch,
            od_forward_client, hs, hr, hread, htype, hdeploy, hb, h1, h2, h3, h4, h5, hp, ht,
            hw] at hok
        · simp [od_frontend_remote_server, od_frontend_remote_server_switch,
            od_forward_client, hs, hr, hread, htype, hdeploy, hb, h1, h2, h3, h4, h5, hp,
            hw] at hok
      · by_cases hp : route.config.pool = od_pool_type_t.OD_POOL_TYPE_TRANSACTION
        · have ht : server1.is_transaction = true := by
            cases hx : server1.is_transaction
            · exact absurd ⟨hp, hx⟩ hnodetach
            · rfl
          by_cases hf : env.client_flush = -1 <;>
            simp [od_frontend_remote_server, od_frontend_remote_server_switch,
              od_forward_client, od_event.is_detach, hs, hr, hread, htype, hdeploy, hb, h1,
              h2, h3, h4, h5, hp, ht, hw, hf]
        · by_cases hf : env.client_flush = -1 <;>
            simp [od_frontend_remote_server, od_frontend_remote_server_switch,
              od_forward_client, od_event.is_detach, hs, hr, hread, htype, hdeploy, hb, h1,
              h2, h3, h4, h5, hp, hw, hf]

/-- Witness of C4 amended: the sample session, transaction pool mode, a
ready-for-query with no deploy pending. -/
theorem ready_for_query_detach_witness :
    ∃ server1, (sample_env 1 0 sample_ready).backend_ready sample_server sample_ready =
        some server1 ∧
      ((sample_route.config.pool = od_pool_type_t.OD_POOL_TYPE_TRANSACTION ∧
          server1.is_transaction = false) →
        (od_frontend_remote_server (sample_env 1 0 sample_ready) sample_client).trace =
          [od_event.read_server 0 sample_ready,
           od_event.od_stat_recv_server (machine_msg_get_size sample_ready),
           od_event.od_backend_ready sample_ready, od_event.od_stat_query_end,
           od_event.od_reset server1 ((sample_env 1 0 sample_ready).reset server1),
           od_event.od_router_detach server1,
           od_event.write_client (od_frame.chunk sample_ready)
             (sample_env 1 0 sample_ready).client_write
             { sample_client with server := none },
           od_event.flush_client (sample_env 1 0 sample_ready).client_flush] ∧
        (od_frontend_remote_server (sample_env 1 0 sample_ready)
          sample_client).client.server = none) ∧
      ((sample_route.config.pool = od_pool_type_t.OD_POOL_TYPE_SESSION ∨
          server1.is_transaction = true) →
        (od_frontend_remote_server (sample_env 1 0 sample_ready)
          sample_client).trace.filter od_event.is_detach = [] ∧
        (od_frontend_remote_server (sample_env 1 0 sample_ready)
          sample_client).client.server = some server1) :=
  ready_for_query_detach (sample_env 1 0 sample_ready) sample_client sample_server
    sample_route sample_ready rfl rfl rfl (by decide) (by decide) (by decide)

/-- While a deploy is pending, a first chunk read from the server is handed
to the deploy consumer and nothing is written to the client. -/
theorem deploy_first_chunk_not_forwarded (env : od_env) (client : od_client_t)
    (server : od_server_t) (hs : client.server = some server)
    (hdeploy : server.deploy_sync > 0) (hfirst : env.packet_read.1 = 0) :
    (od_frontend_remote_server env client).trace.filter od_event.is_write_client = [] := by
  unfold od_frontend_remote_server
  rw [hs]
  simp only [hfirst]
  simp [hdeploy, od_event.is_write_client]
  split <;> simp [od_event.is_write_client]

/-- C5, the code at the failing input: with `deploy_sync = 1`, a continuation
chunk read from the server (result code 1 of the packet reader) is written to
the client and flushed, and the handler returns OK. -/
theorem deploy_continuation_chunk_forwarded :
    sample_deploying_client.server = some { sample_server with deploy_sync := 1 } ∧
    (od_frontend_remote_server (sample_env 1 1 (sample_msg [1, 2, 3]))
        sample_deploying_client).trace =
      [od_event.read_server 1 (sample_msg [1, 2, 3]), od_event.od_stat_recv_server 3,
       od_event.write_client (od_frame.chunk (sample_msg [1, 2, 3])) 0 sample_deploying_client,
       od_event.flush_client 0] ∧
    (od_frontend_remote_server (sample_env 1 1 (sample_msg [1, 2, 3]))
        sample_deploying_client).outcome =
      od_outcome.returned od_frontend_rc_t.OD_FE_OK := by
  refine ⟨by decide, by decide, by decide⟩

/-! ## Theorems: the client handler of the relay -/

/-- Frames written to the server by two lists of calls in a row. -/
theorem od_server_frames_append (a b : List od_event) :
    od_server_frames (a ++ b) = od_server_frames a ++ od_server_frames b := by
  induction a with
  | nil => rfl
  | cons e rest ih => cases e <;> simp [od_server_frames, ih]

/-- Chunks read from the client by two lists of calls in a row. -/
theorem od_client_chunks_append (a b : List od_event) :
    od_client_chunks (a ++ b) = od_client_chunks a ++ od_client_chunks b := by
  induction a with
  | nil => rfl
  | cons e rest ih =>
    cases e <;> simp [od_client_chunks, ih]
    split <;> simp

/-- Results of the server writes of two lists of calls in a row. -/
theorem od_server_write_results_append (a b : List od_event) :
    od_server_write_results (a ++ b) =
      od_server_write_results a ++ od_server_write_results b := by
  induction a with
  | nil => rfl
  | cons e rest ih => cases e <;> simp [od_server_write_results, ih]

/-- One call of the client handler with a server attached: what is handed to
`machine_write` on the server socket is the chunk read unless it is a
TERMINATE first chunk; a TERMINATE first chunk ends the call with TERMINATE;
after OK the server is still attached, the chunk was no TERMINATE and the
write succeeded. -/
theorem od_frontend_remote_client_step (env : od_env) (client : od_client_t)
    (server : od_server_t) (hs : client.server = some server) :
    od_server_frames (od_frontend_remote_client env client).trace =
        ((od_client_chunks (od_frontend_remote_client env client).trace).takeWhile
          (fun c => !od_is_terminate c)).map (fun c => od_frame.chunk c.2) ∧
    (∀ c ∈ od_client_chunks (od_frontend_remote_client env client).trace,
        od_is_terminate c = true →
        (od_frontend_remote_client env client).outcome =
          od_outcome.returned od_frontend_rc_t.OD_FE_TERMINATE) ∧
    ((od_frontend_remote_client env client).outcome =
        od_outcome.returned od_frontend_rc_t.OD_FE_OK →
      (∃ server1, (od_frontend_remote_client env client).client.server = some server1) ∧
      (∀ c ∈ od_client_chunks (od_frontend_remote_client env client).trace,
        od_is_terminate c = false) ∧
      (∀ rc ∈ od_server_write_results (od_frontend_remote_client env client).trace,
        rc ≠ -1)) := by
  have hrun : od_frontend_remote_client env client =
      od_frontend_remote_client_read env client server [] := by
    unfold od_frontend_remote_client
    rw [hs]
  rw [hrun]
  by_cases h1 : env.packet_read.1 = -1
  · simp [od_frontend_remote_client_read, h1, od_server_frames, od_client_chunks]
  · by_cases h2 : env.packet_read.1 = 0
    · by_cases h3 : machine_msg_type env.packet_read.2 = KIWI_FE_TERMINATE
      · simp [od_frontend_remote_client_read, h2, h3, od_server_frames, od_client_chunks,
          od_is_terminate]
      · by_cases h4 : env.server_write = -1
        · simp [od_frontend_remote_client_read, od_forward_server, h2, h3, h4,
            od_server_frames, od_client_chunks, od_is_terminate]
        · by_cases h5 : env.server_flush = -1
          · simp [od_frontend_remote_client_read, od_forward_server, h2, h3, h4, h5,
              od_server_frames, od_client_chunks, od_is_terminate]
          · simp [od_frontend_remote_client_read, od_forward_server, h2, h3, h4, h5,
              od_server_frames, od_client_chunks, od_is_terminate, od_server_write_results]
    · by_cases h4 : env.server_write = -1
      · simp [od_frontend_remote_client_read, od_forward_server, h1, h2, h4,
          od_server_frames, od_client_chunks, od_is_terminate]
      · by_cases h5 : env.server_flush = -1
        · simp [od_frontend_remote_client_read, od_forward_server, h1, h2, h4, h5,
            od_server_frames, od_client_chunks, od_is_terminate]
        · simp [od_frontend_remote_client_read, od_forward_server, h1, h2, h4, h5,
            od_server_frames, od_client_chunks, od_is_terminate, od_server_write_results,
            hs]

/-- C6: over any run of calls of `od_frontend_remote_client` on a session
with a server attached, the frames handed to `machine_write` on the server
socket are exactly the chunks read from the client, as read and in order, up
to and without the first TERMINATE first chunk; reading such a chunk ends the
run with TERMINATE, and a single call reading one writes nothing to the
server; while the run goes on (OK) every one of these writes succeeded. -/
theorem client_chunks_forwarded_in_order (client : od_client_t) (server : od_server_t)
    (hs : client.server = some server) (envs : List od_env) :
    od_server_frames (od_frontend_remote_client_run client envs).trace =
        ((od_client_chunks (od_frontend_remote_client_run client envs).trace).takeWhile
          (fun c => !od_is_terminate c)).map (fun c => od_frame.chunk c.2) ∧
    (∀ c ∈ od_client_chunks (od_frontend_remote_client_run client envs).trace,
        od_is_terminate c = true →
        (od_frontend_remote_client_run client envs).outcome =
          od_outcome.returned od_frontend_rc_t.OD_FE_TERMINATE) ∧
    ((od_frontend_remote_client_run client envs).outcome =
        od_outcome.returned od_frontend_rc_t.OD_FE_OK →
      ∀ rc ∈ od_server_write_results (od_frontend_remote_client_run client envs).trace,
        rc ≠ -1) ∧
    (∀ env : od_env, env.packet_read.1 = 0 →
        machine_msg_type env.packet_read.2 = KIWI_FE_TERMINATE →
        (od_frontend_remote_client env client).outcome =
          od_outcome.returned od_frontend_rc_t.OD_FE_TERMINATE ∧
        od_server_frames (od_frontend_remote_client env client).trace = []) := by
  have hlast : ∀ env : od_env, env.packet_read.1 = 0 →
      machine_msg_type env.packet_read.2 = KIWI_FE_TERMINATE →
      (od_frontend_remote_client env client).outcome =
        od_outcome.returned od_frontend_rc_t.OD_FE_TERMINATE ∧
      od_server_frames (od_frontend_remote_client env client).trace = [] := by
    intro env h0 ht
    have hrun : od_frontend_remote_client env client =
        od_frontend_remote_client_read env client server [] := by
      unfold od_frontend_remote_client
      rw [hs]
    rw [hrun]
    simp [od_frontend_remote_client_read, h0, ht, od_server_frames]
  suffices hmain : ∀ (envs : List od_env) (client : od_client_t) (server : od_server_t),
      client.server = some server →
      od_server_frames (od_frontend_remote_client_run client envs).trace =
          ((od_client_chunks (od_frontend_remote_client_run client envs).trace).takeWhile
            (fun c => !od_is_terminate c)).map (fun c => od_frame.chunk c.2) ∧
      (∀ c ∈ od_client_chunks (od_frontend_remote_client_run client envs).trace,
          od_is_terminate c = true →
          (od_frontend_remote_client_run client envs).outcome =
            od_outcome.returned od_frontend_rc_t.OD_FE_TERMINATE) ∧
      ((od_frontend_remote_client_run client envs).outcome =
          od_outcome.returned od_frontend_rc_t.OD_FE_OK →
        ∀ rc ∈ od_server_write_results (od_frontend_remote_client_run client envs).trace,
          rc ≠ -1) by
    obtain ⟨m1, m2, m3⟩ := hmain envs client server hs
    exact ⟨m1, m2, m3, hlast⟩
  intro envs
  induction envs with
  | nil =>
    intro client server _
    simp [od_frontend_remote_client_run, od_server_frames, od_client_chunks,
      od_server_write_results]
  | cons env rest ih =>
    intro client server hs
    obtain ⟨s1, s2, s3⟩ := od_frontend_remote_client_step env client server hs
    unfold od_frontend_remote_client_run
    dsimp only
    by_cases hok : (od_frontend_remote_client env client).outcome =
        od_outcome.returned od_frontend_rc_t.OD_FE_OK
    · obtain ⟨⟨server1, hs1⟩, hnoterm, hwrites⟩ := s3 hok
      obtain ⟨i1, i2, i3⟩ := ih (od_frontend_remote_client env client).client server1 hs1
      rw [if_neg (not_not.mpr hok)]
      have hpos : ∀ c ∈ od_client_chunks (od_frontend_remote_client env client).trace,
          (!od_is_terminate c) = true := by
        intro c hc
        rw [hnoterm c hc]
        rfl
      have hself : (od_client_chunks (od_frontend_remote_client env client).trace).takeWhile
          (fun c => !od_is_terminate c) =
          od_client_chunks (od_frontend_remote_client env client).trace :=
        List.takeWhile_eq_self_iff.mpr hpos
      refine ⟨?_, ?_, ?_⟩
      · simp only [od_server_frames_append, od_client_chunks_append]
        rw [List.takeWhile_append_of_pos hpos, List.map_append, ← i1, s1, hself]
      · intro c hc hterm
        simp only [od_client_chunks_append, List.mem_append] at hc
        rcases hc with hc | hc
        · rw [hnoterm c hc] at hterm
          cases hterm
        · exact i2 c hc hterm
      · intro hok2 rc hrc
        simp only [od_server_write_results_append, List.mem_append] at hrc
        rcases hrc with hrc | hrc
        · exact hwrites rc hrc
        · exact i3 hok2 rc hrc
    · rw [if_pos hok]
      exact ⟨s1, s2, fun h => absurd h hok⟩

/-- Witness of C6: a query in two chunks, then a terminate, then a chunk the
run never reads. -/
theorem client_chunks_forwarded_in_order_witness :
    od_server_frames (od_frontend_remote_client_run sample_client
        [sample_env 1 0 (sample_msg [81, 1]), sample_env 1 1 (sample_msg [88, 2]),
         sample_env 1 0 (sample_msg [88]), sample_env 1 0 (sample_msg [83])]).trace =
      [od_frame.chunk (sample_msg [81, 1]), od_frame.chunk (sample_msg [88, 2])] ∧
    od_client_chunks (od_frontend_remote_client_run sample_client
        [sample_env 1 0 (sample_msg [81, 1]), sample_env 1 1 (sample_msg [88, 2]),
         sample_env 1 0 (sample_msg [88]), sample_env 1 0 (sample_msg [83])]).trace =
      [(0, sample_msg [81, 1]), (1, sample_msg [88, 2]), (0, sample_msg [88])] ∧
    od_server_frames (od_frontend_remote_client_run sample_client
        [sample_env 1 0 (sample_msg [81, 1]), sample_env 1 1 (sample_msg [88, 2]),
         sample_env 1 0 (sample_msg [88]), sample_env 1 0 (sample_msg [83])]).trace =
      ((od_client_chunks (od_frontend_remote_client_run sample_client
        [sample_env 1 0 (sample_msg [81, 1]), sample_env 1 1 (sample_msg [88, 2]),
         sample_env 1 0 (sample_msg [88]), sample_env 1 0 (sample_msg [83])]).trace).takeWhile
          (fun c => !od_is_terminate c)).map (fun c => od_frame.chunk c.2) :=
  ⟨by decide, by decide,
    (client_chunks_forwarded_in_order sample_client sample_server rfl
      [sample_env 1 0 (sample_msg [81, 1]), sample_env 1 1 (sample_msg [88, 2]),
       sample_env 1 0 (sample_msg [88]), sample_env 1 0 (sample_msg [83])]).1⟩

/-! ## Theorems: parameter status -/

/-- After an upsert the map gives the new value for the name. -/
theorem kiwi_params_lookup_replace_same (params : kiwi_params_t) (name value : String) :
    kiwi_params_lookup (kiwi_params_replace params { name := name, value := value }) name =
      some value := by
  induction params with
  | nil => simp [kiwi_params_replace, kiwi_params_lookup]
  | cons p rest ih =>
    unfold kiwi_params_replace
    by_cases h : p.name = name
    · simp [h, kiwi_params_lookup]
    · simp [h, kiwi_params_lookup, ih]

/-- An upsert leaves the value of every other name as it was. -/
theorem kiwi_params_lookup_replace_other (params : kiwi_params_t) (name value other : String)
    (hne : other ≠ name) :
    kiwi_params_lookup (kiwi_params_replace params { name := name, value := value }) other =
      kiwi_params_lookup params other := by
  induction params with
  | nil => simp [kiwi_params_replace, kiwi_params_lookup, Ne.symm hne]
  | cons p rest ih =>
    unfold kiwi_params_replace
    by_cases h : p.name = name
    · have hp : p.name ≠ other := by rw [h]; exact Ne.symm hne
      simp [h, kiwi_params_lookup, Ne.symm hne, hp]
    · rw [if_neg h]
      by_cases h2 : p.name = other
      · simp [h2, kiwi_params_lookup]
      · simp [h2, kiwi_params_lookup, ih]

/-- C7: on a parameter-status first chunk with no deploy pending, when the
frame decodes to `(name, value)` every write to the client is made with a
session whose parameter map gives `value` for `name` and is unchanged on other
names, and if the parameter is allocated that write is made, of the frame as
read, and the map keeps the value afterwards; when the frame does not decode
nothing is written to the client, the handler returns ESERVER_READ and the map
is unchanged. -/
theorem parameter_status_updates_map (env : od_env) (client : od_client_t)
    (server : od_server_t) (msg : machine_msg_t)
    (hs : client.server = some server)
    (hread : env.packet_read = (0, msg))
    (htype : machine_msg_type msg = KIWI_BE_PARAMETER_STATUS)
    (hdeploy : ¬ server.deploy_sync > 0) :
    (∀ name value, env.read_parameter msg = some (name, value) →
      (∀ f rc session,
        od_event.write_client f rc session ∈ (od_frontend_remote_server env client).trace →
        f = od_frame.chunk msg ∧
        kiwi_params_lookup session.params name = some value ∧
        (∀ other, other ≠ name →
          kiwi_params_lookup session.params other =
            kiwi_params_lookup client.params other)) ∧
      (env.param_allocate = true →
        od_event.write_client (od_frame.chunk msg) env.client_write
          { client with
            params := kiwi_params_replace client.params { name := name, value := value } }
          ∈ (od_frontend_remote_server env client).trace ∧
        kiwi_params_lookup (od_frontend_remote_server env client).client.params name =
          some value)) ∧
    (env.read_parameter msg = none →
      (od_frontend_remote_server env client).outcome =
        od_outcome.returned od_frontend_rc_t.OD_FE_ESERVER_READ ∧
      (od_frontend_remote_server env client).trace.filter od_event.is_write_client = [] ∧
      (od_frontend_remote_server env client).client.params = client.params) := by
  have h1 : KIWI_BE_PARAMETER_STATUS ≠ KIWI_BE_ERROR_RESPONSE := by decide
  constructor
  · intro name value hparse
    have hsame := kiwi_params_lookup_replace_same client.params name value
    have hother := kiwi_params_lookup_replace_other client.params name value
    by_cases ha : env.param_allocate = false
    · simp [od_frontend_remote_server, od_frontend_remote_server_switch, hs, hread, htype,
        hdeploy, h1, hparse, ha]
    · have ha2 : env.param_allocate = true := by
        cases hx : env.param_allocate
        · exact absurd hx ha
        · rfl
      by_cases hw : env.client_write = -1
      · simp [od_frontend_remote_server, od_frontend_remote_server_switch,
          od_forward_client, hs, hread, htype, hdeploy, h1, hparse, ha2, hw, hsame]
        intro f rc session hf hrc hsess
        subst hsess
        exact ⟨hf, hsame, hother⟩
      · by_cases hf : env.client_flush = -1
        · simp [od_frontend_remote_server, od_frontend_remote_server_switch,
            od_forward_client, hs, hread, htype, hdeploy, h1, hparse, ha2, hw, hf, hsame]
          intro f rc session hf hrc hsess
          subst hsess
          exact ⟨hf, hsame, hother⟩
        · simp [od_frontend_remote_server, od_frontend_remote_server_switch,
            od_forward_client, hs, hread, htype, hdeploy, h1, hparse, ha2, hw, hf, hsame]
          intro f rc session hf hrc hsess
          subst hsess
          exact ⟨hf, hsame, hother⟩
  · intro hparse
    simp [od_frontend_remote_server, od_frontend_remote_server_switch, hs, hread, htype,
      hdeploy, h1, hparse, od_event.is_write_client]

/-- Witness of C7: the sample session receives `(TimeZone, GMT)`. -/
theorem parameter_status_updates_map_witness :
    od_event.write_client (od_frame.chunk sample_parameter_status)
        sample_env_parameter.client_write
        { sample_client with
          params := kiwi_params_replace sample_client.params
            { name := "TimeZone", value := "GMT" } }
        ∈ (od_frontend_remote_server sample_env_parameter sample_client).trace ∧
    kiwi_params_lookup
        (od_frontend_remote_server sample_env_parameter sample_client).client.params
        "TimeZone" = some "GMT" :=
  ((parameter_status_updates_map sample_env_parameter sample_client sample_server
    sample_parameter_status rfl rfl (by decide) (by decide)).1 "TimeZone" "GMT" rfl).2 rfl

/-! ## Theorems: order of update and forward -/

/-- The model of `od_router_attach` changes nothing but the server. -/
theorem od_router_attach_same (client : od_client_t) (a : od_attach_answer) :
    od_same_but_server (od_router_attach client a) client := by
  unfold od_router_attach od_same_but_server
  split <;> simp

/-- The attach loop changes nothing of the session but its server. -/
theorem od_frontend_attach_loop_client (env : od_env) (l : List od_attach_answer) :
    ∀ client, od_same_but_server (od_frontend_attach_loop env client l).client client := by
  induction l with
  | nil => intro client; simp [od_frontend_attach_loop, od_same_but_server]
  | cons a rest ih =>
    intro client
    have ha := od_router_attach_same client a
    unfold od_frontend_attach_loop
    split
    · exact ha
    · dsimp only
      split
      · have h := ih (od_router_close (od_router_attach client a))
        unfold od_same_but_server at h ha ⊢
        simp only [od_router_close] at h
        exact ⟨h.1.trans ha.1, h.2.1.trans ha.2.1, h.2.2.1.trans ha.2.2.1,
          h.2.2.2.1.trans ha.2.2.2.1, h.2.2.2.2.1.trans ha.2.2.2.2.1,
          h.2.2.2.2.2.1.trans ha.2.2.2.2.2.1, h.2.2.2.2.2.2.1.trans ha.2.2.2.2.2.2.1,
          h.2.2.2.2.2.2.2.trans ha.2.2.2.2.2.2.2⟩
      · split
        · split <;> exact ha
        · exact ha

/-- After an attach that returned OK the session holds a server. -/
theorem od_frontend_attach_loop_ok_server (env : od_env) (l : List od_attach_answer) :
    ∀ client, (od_frontend_attach_loop env client l).outcome =
        od_outcome.returned od_frontend_rc_t.OD_FE_OK →
      ∃ server, (od_frontend_attach_loop env client l).client.server = some server := by
  induction l with
  | nil => intro client h; simp [od_frontend_attach_loop] at h
  | cons a rest ih =>
    intro client
    unfold od_frontend_attach_loop
    split
    · intro h; simp at h
    · next hst =>
      dsimp only
      split
      · exact ih _
      · split
        · split
          · intro h; simp at h
          · intro _; exact ⟨_, rfl⟩
        · intro _
          have : a.status = od_router_status_t.OD_ROK := not_not.mp hst
          exact ⟨a.server, by simp [od_router_attach, this]⟩

/-- The attach loop writes no deploy. -/
theorem od_frontend_attach_loop_no_deploy (env : od_env) (l : List od_attach_answer) :
    ∀ client, (od_frontend_attach_loop env client l).trace.filter
      od_event.is_deploy_write = [] := by
  induction l with
  | nil => intro client; rfl
  | cons a rest ih =>
    intro client
    unfold od_frontend_attach_loop
    split
    · rfl
    · dsimp only
      split
      · simp [od_event.is_deploy_write, ih]
      · split
        · split <;> rfl
        · rfl

/-- C9: after `od_frontend_attach` returned OK the session holds a server,
and `od_frontend_attach_and_deploy` goes on as follows. If the server's
`last_client_id` equals the session id, no deploy is written and
`deploy_sync` is 0. Otherwise one `od_deploy_write` is made with the session's
parameter map; when it does not fail `deploy_sync` is its result. In both
cases the result is OK and the sync-request counter has grown by
`deploy_sync`. When the deploy write fails the result is ESERVER_WRITE and
the server, with its `deploy_sync` and counter, is left as attached. -/
theorem attach_and_deploy_sync (env : od_env) (client : od_client_t)
    (hok : (od_frontend_attach env client).outcome =
      od_outcome.returned od_frontend_rc_t.OD_FE_OK) :
    ∃ server, (od_frontend_attach env client).client.server = some server ∧
      (od_frontend_attach env client).trace.filter od_event.is_deploy_write = [] ∧
      (od_id_mgr_cmp server.last_client_id client.id = true →
        (od_frontend_attach_and_deploy env client).outcome =
          od_outcome.returned od_frontend_rc_t.OD_FE_OK ∧
        (od_frontend_attach_and_deploy env client).trace =
          (od_frontend_attach env client).trace ∧
        ∃ s, (od_frontend_attach_and_deploy env client).client.server = some s ∧
          s.deploy_sync = 0 ∧ s.sync_request = server.sync_request + s.deploy_sync) ∧
      (od_id_mgr_cmp server.last_client_id client.id = false →
        env.deploy_write server client.params ≠ -1 →
        (od_frontend_attach_and_deploy env client).outcome =
          od_outcome.returned od_frontend_rc_t.OD_FE_OK ∧
        (od_frontend_attach_and_deploy env client).trace =
          (od_frontend_attach env client).trace ++
            [od_event.od_deploy_write server client.params
              (env.deploy_write server client.params)] ∧
        ∃ s, (od_frontend_attach_and_deploy env client).client.server = some s ∧
          s.deploy_sync = env.deploy_write server client.params ∧
          s.sync_request = server.sync_request + s.deploy_sync) ∧
      (od_id_mgr_cmp server.last_client_id client.id = false →
        env.deploy_write server client.params = -1 →
        (od_frontend_attach_and_deploy env client).outcome =
          od_outcome.returned od_frontend_rc_t.OD_FE_ESERVER_WRITE ∧
        (od_frontend_attach_and_deploy env client).trace =
          (od_frontend_attach env client).trace ++
            [od_event.od_deploy_write server client.params (-1)] ∧
        (od_frontend_attach_and_deploy env client).client.server = some server) := by
  obtain ⟨server, hserver⟩ :=
    od_frontend_attach_loop_ok_server env env.router_attach client hok
  have hsame := od_frontend_attach_loop_client env env.router_attach client
  have hid : (od_frontend_attach env client).client.id = client.id := hsame.1
  have hparams : (od_frontend_attach env client).client.params = client.params :=
    hsame.2.2.2.2.2.1
  have hserver2 : (od_frontend_attach env client).client.server = some server := hserver
  refine ⟨server, hserver, od_frontend_attach_loop_no_deploy env env.router_attach client,
    ?_, ?_, ?_⟩
  · intro hcmp
    unfold od_frontend_attach_and_deploy
    simp [hok, hserver2, hid, hcmp, od_server_sync_request]
  · intro hcmp hrc
    unfold od_frontend_attach_and_deploy
    simp [hok, hserver2, hid, hparams, hcmp, hrc, od_server_sync_request]
  · intro hcmp hrc
    unfold od_frontend_attach_and_deploy
    simp [hok, hserver2, hid, hparams, hcmp, hrc]

/-- Witness of C9: the router hands the sample server, last configured by
another client, to the sample session; the deploy of one query is written. -/
theorem attach_and_deploy_sync_witness :
    ∃ server, (od_frontend_attach (sample_env_attach [sample_live_answer])
        sample_detached_client).client.server = some server ∧
      (od_frontend_attach (sample_env_attach [sample_live_answer])
        sample_detached_client).trace.filter od_event.is_deploy_write = [] ∧
      (od_id_mgr_cmp server.last_client_id sample_detached_client.id = true →
        (od_frontend_attach_and_deploy (sample_env_attach [sample_live_answer])
          sample_detached_client).outcome =
          od_outcome.returned od_frontend_rc_t.OD_FE_OK ∧
        (od_frontend_attach_and_deploy (sample_env_attach [sample_live_answer])
          sample_detached_client).trace =
          (od_frontend_attach (sample_env_attach [sample_live_answer])
            sample_detached_client).trace ∧
        ∃ s, (od_frontend_attach_and_deploy (sample_env_attach [sample_live_answer])
            sample_detached_client).client.server = some s ∧
          s.deploy_sync = 0 ∧ s.sync_request = server.sync_request + s.deploy_sync) ∧
      (od_id_mgr_cmp server.last_client_id sample_detached_client.id = false →
        (sample_env_attach [sample_live_answer]).deploy_write server
          sample_detached_client.params ≠ -1 →
        (od_frontend_attach_and_deploy (sample_env_attach [sample_live_answer])
          sample_detached_client).outcome =
          od_outcome.returned od_frontend_rc_t.OD_FE_OK ∧
        (od_frontend_attach_and_deploy (sample_env_attach [sample_live_answer])
          sample_detached_client).trace =
          (od_frontend_attach (sample_env_attach [sample_live_answer])
            sample_detached_client).trace ++
            [od_event.od_deploy_write server sample_detached_client.params
              ((sample_env_attach [sample_live_answer]).deploy_write server
                sample_detached_client.params)] ∧
        ∃ s, (od_frontend_attach_and_deploy (sample_env_attach [sample_live_answer])
            sample_detached_client).client.server = some s ∧
          s.deploy_sync = (sample_env_attach [sample_live_answer]).deploy_write server
            sample_detached_client.params ∧
          s.sync_request = server.sync_request + s.deploy_sync) ∧
      (od_id_mgr_cmp server.last_client_id sample_detached_client.id = false →
        (sample_env_attach [sample_live_answer]).deploy_write server
          sample_detached_client.params = -1 →
        (od_frontend_attach_and_deploy (sample_env_attach [sample_live_answer])
          sample_detached_client).outcome =
          od_outcome.returned od_frontend_rc_t.OD_FE_ESERVER_WRITE ∧
        (od_frontend_attach_and_deploy (sample_env_attach [sample_live_answer])
          sample_detached_client).trace =
          (od_frontend_attach (sample_env_attach [sample_live_answer])
            sample_detached_client).trace ++
            [od_event.od_deploy_write server sample_detached_client.params (-1)] ∧
        (od_frontend_attach_and_deploy (sample_env_attach [sample_live_answer])
          sample_detached_client).client.server = some server) :=
  attach_and_deploy_sync (sample_env_attach [sample_live_answer]) sample_detached_client
    (by decide)

/-! ## Theorems: the attach loop -/

/-- C10, as stated, fails: the retry is not limited to one. With two dead
servers followed by a live one, `od_frontend_attach` closes both, makes a
third `od_router_attach` call and returns OK, not ESERVER_CONNECT; with dead
servers only, it has made two closes and has not returned. -/
theorem attach_retries_more_than_once :
    (od_frontend_attach
        (sample_env_attach [sample_dead_answer, sample_dead_answer, sample_live_answer])
        sample_detached_client).outcome = od_outcome.returned od_frontend_rc_t.OD_FE_OK ∧
    (od_frontend_attach
        (sample_env_attach [sample_dead_answer, sample_dead_answer, sample_live_answer])
        sample_detached_client).trace =
      [od_event.od_router_attach od_router_status_t.OD_ROK,
       od_event.od_router_close sample_server,
       od_event.od_router_attach od_router_status_t.OD_ROK,
       od_event.od_router_close sample_server,
       od_event.od_router_attach od_router_status_t.OD_ROK] ∧
    (od_frontend_attach (sample_env_attach [sample_dead_answer, sample_dead_answer])
        sample_detached_client).outcome = od_outcome.waiting := by
  refine ⟨by decide, by decide, by decide⟩

/-- The attach loop on an answer that is not a dead server: it returns at
once, after that one `od_router_attach` call and no close. -/
theorem od_frontend_attach_loop_live (env : od_env) (client : od_client_t)
    (a : od_attach_answer) (rest : List od_attach_answer) (ha : a.is_dead = false) :
    (od_frontend_attach_loop env client (a :: rest)).outcome ≠ od_outcome.waiting ∧
    (od_frontend_attach_loop env client (a :: rest)).outcome ≠ od_outcome.fault ∧
    ((od_frontend_attach_loop env client (a :: rest)).trace.filter
      od_event.is_router_attach).length = 1 ∧
    ((od_frontend_attach_loop env client (a :: rest)).trace.filter
      od_event.is_router_close).length = 0 ∧
    (a.status ≠ od_router_status_t.OD_ROK →
      (od_frontend_attach_loop env client (a :: rest)).outcome =
        od_outcome.returned od_frontend_rc_t.OD_FE_EATTACH) ∧
    ((od_frontend_attach_loop env client (a :: rest)).outcome =
        od_outcome.returned od_frontend_rc_t.OD_FE_ESERVER_CONNECT ↔
      a.status = od_router_status_t.OD_ROK ∧ a.server.io = none ∧
        (env.backend_connect a.server).1 = -1) := by
  unfold od_attach_answer.is_dead at ha
  by_cases hst : a.status = od_router_status_t.OD_ROK
  · cases hio : a.server.io with
    | none =>
      by_cases hc : (env.backend_connect a.server).1 = -1 <;>
        simp [od_frontend_attach_loop, hst, hio, hc, od_event.is_router_attach,
          od_event.is_router_close]
    | some h =>
      have hconn : a.connected = true := by
        cases hx : a.connected
        · simp [hst, hio, hx] at ha
        · rfl
      simp [od_frontend_attach_loop, hst, hio, hconn, od_event.is_router_attach,
        od_event.is_router_close]
  · simp [od_frontend_attach_loop, hst, od_event.is_router_attach, od_event.is_router_close]

/-- The attach loop on a dead server: the server is closed and the loop goes
on with the next answer of the router. -/
theorem od_frontend_attach_loop_dead (env : od_env) (client : od_client_t)
    (d : od_attach_answer) (rest : List od_attach_answer) (hd : d.is_dead = true) :
    (od_frontend_attach_loop env client (d :: rest)).outcome =
      (od_frontend_attach_loop env (od_router_close (od_router_attach client d)) rest).outcome ∧
    (od_frontend_attach_loop env client (d :: rest)).trace =
      [od_event.od_router_attach d.status, od_event.od_router_close d.server] ++
        (od_frontend_attach_loop env (od_router_close (od_router_attach client d)) rest).trace := by
  unfold od_attach_answer.is_dead at hd
  simp only [Bool.and_eq_true, decide_eq_true_eq, Bool.not_eq_true', Bool.not_eq_eq_eq_not,
    Bool.not_true] at hd
  obtain ⟨⟨hst, hio⟩, hconn⟩ := hd
  constructor
  · conv => lhs; unfold od_frontend_attach_loop
    simp [hst, hio, hconn]
  · conv => lhs; unfold od_frontend_attach_loop
    simp [hst, hio, hconn]

/-- C10, amended: every dead server handed out is closed through
`od_router_close` and the attach is retried, as often as the router hands out
dead servers. After `k` dead servers and one answer that is not a dead server
the call returns having made `k + 1` calls of `od_router_attach` and `k`
closes; it returns EATTACH when that last answer is a failure of the router,
and ESERVER_CONNECT exactly when the last server has no socket and
`od_backend_connect` fails. On the `k` dead servers alone the call has not
returned. -/
theorem attach_retries_until_live (env : od_env) (client : od_client_t)
    (dead : List od_attach_answer) (a : od_attach_answer) (rest : List od_attach_answer)
    (henv : env.router_attach = dead ++ a :: rest)
    (hdead : ∀ d ∈ dead, d.is_dead = true) (ha : a.is_dead = false) :
    (od_frontend_attach env client).outcome ≠ od_outcome.waiting ∧
    (od_frontend_attach env client).outcome ≠ od_outcome.fault ∧
    ((od_frontend_attach env client).trace.filter od_event.is_router_attach).length =
      dead.length + 1 ∧
    ((od_frontend_attach env client).trace.filter od_event.is_router_close).length =
      dead.length ∧
    (a.status ≠ od_router_status_t.OD_ROK →
      (od_frontend_attach env client).outcome =
        od_outcome.returned od_frontend_rc_t.OD_FE_EATTACH) ∧
    ((od_frontend_attach env client).outcome =
        od_outcome.returned od_frontend_rc_t.OD_FE_ESERVER_CONNECT ↔
      a.status = od_router_status_t.OD_ROK ∧ a.server.io = none ∧
        (env.backend_connect a.server).1 = -1) ∧
    (od_frontend_attach_loop env client dead).outcome = od_outcome.waiting ∧
    ((od_frontend_attach_loop env client dead).trace.filter
      od_event.is_router_close).length = dead.length := by
  unfold od_frontend_attach
  rw [henv]
  clear henv
  induction dead generalizing client with
  | nil =>
    obtain ⟨l1, l2, l3, l4, l5, l6⟩ := od_frontend_attach_loop_live env client a rest ha
    exact ⟨l1, l2, l3, l4, l5, l6, rfl, rfl⟩
  | cons d dead ih =>
    have hd : d.is_dead = true := hdead d (List.mem_cons_self _ _)
    obtain ⟨i1, i2, i3, i4, i5, i6, i7, i8⟩ :=
      ih (od_router_close (od_router_attach client d))
        (fun x hx => hdead x (List.mem_cons_of_mem _ hx))
    obtain ⟨o1, t1⟩ := od_frontend_attach_loop_dead env client d (dead ++ a :: rest) hd
    obtain ⟨o2, t2⟩ := od_frontend_attach_loop_dead env client d dead hd
    simp only [List.cons_append]
    rw [o1, t1, o2, t2]
    refine ⟨i1, i2, ?_, ?_, i5, i6, i7, ?_⟩
    · simp [List.filter_cons, od_event.is_router_attach, i3]
    · simp [List.filter_cons, od_event.is_router_close, i4]
    · simp [List.filter_cons, od_event.is_router_close, i8]

/-- Witness of C10 amended: two dead servers, then a live one. -/
theorem attach_retries_until_live_witness :
    (od_frontend_attach
        (sample_env_attach [sample_dead_answer, sample_dead_answer, sample_live_answer])
        sample_detached_client).outcome ≠ od_outcome.waiting ∧
    ((od_frontend_attach
        (sample_env_attach [sample_dead_answer, sample_dead_answer, sample_live_answer])
        sample_detached_client).trace.filter od_event.is_router_attach).length = 2 + 1 ∧
    ((od_frontend_attach
        (sample_env_attach [sample_dead_answer, sample_dead_answer, sample_live_answer])
        sample_detached_client).trace.filter od_event.is_router_close).length = 2 :=
  have h := attach_retries_until_live
    (sample_env_attach [sample_dead_answer, sample_dead_answer, sample_live_answer])
    sample_detached_client [sample_dead_answer, sample_dead_answer] sample_live_answer []
    rfl (by decide) (by decide)
  ⟨h.1, h.2.2.1, h.2.2.2.1⟩

/-! ## Theorems: setup -/

/-- Frames written to the client by two lists of calls in a row. -/
theorem od_client_frames_append (a b : List od_event) :
    od_client_frames (a ++ b) = od_client_frames a ++ od_client_frames b := by
  induction a with
  | nil => rfl
  | cons e rest ih => cases e <;> simp [od_client_frames, ih]

/-- Two sessions that differ at most in their server and hold the same
server are equal. -/
theorem od_same_but_server_eq (a b : od_client_t) (h : od_same_but_server a b)
    (hs : a.server = b.server) : a = b := by
  obtain ⟨h1, h2, h3, h4, h5, h6, h7, h8⟩ := h
  cases a
  cases b
  simp_all

/-- The attach loop writes nothing to the client and copies no cache. -/
theorem od_frontend_attach_loop_quiet (env : od_env) (l : List od_attach_answer) :
    ∀ client, od_client_frames (od_frontend_attach_loop env client l).trace = [] ∧
      (od_frontend_attach_loop env client l).trace.filter od_event.is_lock_copy = [] := by
  induction l with
  | nil => intro client; exact ⟨rfl, rfl⟩
  | cons a rest ih =>
    intro client
    unfold od_frontend_attach_loop
    split
    · exact ⟨rfl, rfl⟩
    · dsimp only
      split
      · have h := ih (od_router_close (od_router_attach client a))
        simp [od_client_frames, od_event.is_lock_copy, h.1, h.2]
      · split
        · split <;> exact ⟨rfl, rfl⟩
        · exact ⟨rfl, rfl⟩

/-- When `od_frontend_setup_params` returns OK it has written one
parameter-status frame per entry, in list order, and nothing else. -/
theorem od_frontend_setup_params_ok (env : od_env) (client : od_client_t)
    (params : kiwi_params_t) :
    ∀ n, (od_frontend_setup_params env client n params).1 = od_frontend_rc_t.OD_FE_OK →
      od_client_frames (od_frontend_setup_params env client n params).2 =
        params.map od_parameter_status ∧
      (od_frontend_setup_params env client n params).2.filter od_event.is_lock_copy = [] := by
  induction params with
  | nil => intro n _; exact ⟨rfl, rfl⟩
  | cons p rest ih =>
    intro n
    unfold od_frontend_setup_params
    split
    · intro h; cases h
    · split
      · intro h; cases h
      · dsimp only
        intro h
        obtain ⟨i1, i2⟩ := ih (n + 1) h
        simp [od_client_frames, i1, od_parameter_status, od_event.is_lock_copy, i2]

/-- The calls of `od_frontend_setup_params` contain no copy of the cache. -/
theorem od_frontend_setup_params_no_copy (env : od_env) (client : od_client_t)
    (params : kiwi_params_t) :
    ∀ n, (od_frontend_setup_params env client n params).2.filter od_event.is_lock_copy = [] := by
  induction params with
  | nil => intro n; rfl
  | cons p rest ih =>
    intro n
    unfold od_frontend_setup_params
    split
    · rfl
    · split
      · rfl
      · dsimp only
        simp [od_event.is_lock_copy, ih]

/-- No call of `od_frontend_setup_write` is a copy of the cache. -/
theorem od_frontend_setup_write_no_copy (env : od_env) (client : od_client_t)
    (cached : kiwi_params_t) :
    (od_frontend_setup_write env client cached).trace.filter od_event.is_lock_copy = [] := by
  have h1 := od_frontend_setup_params_no_copy env client cached 0
  have h2 := od_frontend_setup_params_no_copy env client client.startup_params cached.length
  generalize hr : od_frontend_setup_write env client cached = r
  unfold od_frontend_setup_write at hr
  dsimp only at hr
  split_ifs at hr <;> subst hr <;>
    simp [List.filter_append, h1, h2, od_event.is_lock_copy]

/-- When the frame-writing part of setup returns OK, the frames written to
the client are the parameter-status frames of the cache, those of the startup
parameters, backend-key-data with the key of the session and ready-for-query
with state `I`; the last call is the flush; the parameter map is the copy of
the startup parameters. -/
theorem od_frontend_setup_write_ok (env : od_env) (client : od_client_t)
    (cached : kiwi_params_t)
    (hok : (od_frontend_setup_write env client cached).outcome =
      od_outcome.returned od_frontend_rc_t.OD_FE_OK) :
    od_client_frames (od_frontend_setup_write env client cached).trace =
      cached.map od_parameter_status ++ client.startup_params.map od_parameter_status ++
        [od_frame.backend_key_data client.key.key_pid client.key.key, od_frame.ready 'I'] ∧
    (od_frontend_setup_write env client cached).trace.getLast? =
      some (od_event.flush_client env.client_flush) ∧
    (od_frontend_setup_write env client cached).client =
      { client with params := client.startup_params } := by
  have h1 := od_frontend_setup_params_ok env client cached 0
  have h2 := od_frontend_setup_params_ok env client client.startup_params cached.length
  generalize hr : od_frontend_setup_write env client cached = r at hok
  unfold od_frontend_setup_write at hr
  dsimp only at hr
  split_ifs at hr with c1 c2 c3 c4 c5 c6 c7 c8 <;> subst hr <;> simp at hok
  · exact absurd hok c1
  · exact absurd hok c2
  · obtain ⟨f1, -⟩ := h1 (not_not.mp c1)
    obtain ⟨f2, -⟩ := h2 (not_not.mp c2)
    refine ⟨?_, ?_, rfl⟩
    · simp [od_client_frames_append, f1, f2, od_client_frames, kiwi_params_copy]
    · simp [List.getLast?_append]

/-- The frame-writing part of setup always returns a code. -/
theorem od_frontend_setup_write_returns (env : od_env) (client : od_client_t)
    (cached : kiwi_params_t) :
    ∃ rc, (od_frontend_setup_write env client cached).outcome = od_outcome.returned rc := by
  generalize hr : od_frontend_setup_write env client cached = r
  unfold od_frontend_setup_write at hr
  dsimp only at hr
  split_ifs at hr <;> subst hr <;> exact ⟨_, rfl⟩

/-- A pass of setup that finds the cache empty and whose attach returns OK:
the server is closed, the session is as before the pass, and setup goes on
with the next pass. -/
theorem od_frontend_setup_empty_pass (client : od_client_t) (route : od_route_t)
    (env : od_env) (rest : List od_env)
    (hr : client.route = some route) (hs : client.server = none)
    (hrc : (env.lock_copy route).1 ≠ -1) (hempty : (env.lock_copy route).2 = [])
    (hok : (od_frontend_attach env client).outcome =
      od_outcome.returned od_frontend_rc_t.OD_FE_OK) :
    (od_frontend_setup client (env :: rest)).outcome =
      (od_frontend_setup client rest).outcome ∧
    (od_frontend_setup client (env :: rest)).client =
      (od_frontend_setup client rest).client ∧
    (od_frontend_setup client (env :: rest)).trace =
      od_setup_throwaway client env ++ (od_frontend_setup client rest).trace := by
  obtain ⟨server, hserver⟩ :=
    od_frontend_attach_loop_ok_server env env.router_attach client hok
  have hserver2 : (od_frontend_attach env client).client.server = some server := hserver
  have hsame := od_frontend_attach_loop_client env env.router_attach client
  have hclosed : od_router_close (od_frontend_attach env client).client = client := by
    apply od_same_but_server_eq
    · exact hsame
    · simp [od_router_close, hs]
  rw [od_frontend_setup]
  simp only [hr, hrc, hempty, hok, hserver2, hclosed, od_setup_throwaway, List.length_nil,
    if_true, if_false, ne_eq, not_true_eq_false, not_false_eq_true]
  simp

/-- A pass of setup whose copy of the cache fails or is not empty ends
setup: it returns a code and has copied the cache once. -/
theorem od_frontend_setup_last_pass (client : od_client_t) (route : od_route_t)
    (env : od_env) (rest : List od_env) (hr : client.route = some route)
    (hlast : (env.lock_copy route).1 = -1 ∨ (env.lock_copy route).2 ≠ []) :
    od_frontend_setup client (env :: rest) = od_frontend_setup client [env] ∧
    (∃ rc, (od_frontend_setup client [env]).outcome = od_outcome.returned rc) ∧
    ((od_frontend_setup client [env]).trace.filter od_event.is_lock_copy).length = 1 := by
  by_cases hrc : (env.lock_copy route).1 = -1
  · simp [od_frontend_setup, hr, hrc, od_event.is_lock_copy]
  · have hne : (env.lock_copy route).2 ≠ [] := by
      rcases hlast with h | h
      · exact absurd h hrc
      · exact h
    have hlen : ¬ (env.lock_copy route).2.length = 0 := by
      intro h
      exact hne (List.length_eq_zero.mp h)
    obtain ⟨rc, hret⟩ := od_frontend_setup_write_returns env client (env.lock_copy route).2
    have hno := od_frontend_setup_write_no_copy env client (env.lock_copy route).2
    simp [od_frontend_setup, hr, hrc, hlen, hret, hno, od_event.is_lock_copy]

/-- One pass of setup that finds the cache empty copies the cache once. -/
theorem od_setup_throwaway_one_copy (client : od_client_t) (route : od_route_t)
    (env : od_env) (hr : client.route = some route) :
    ((od_setup_throwaway client env).filter od_event.is_lock_copy).length = 1 := by
  have hq := (od_frontend_attach_loop_quiet env env.router_attach client).2
  have hq2 : (od_frontend_attach env client).trace.filter od_event.is_lock_copy = [] := hq
  unfold od_setup_throwaway
  rw [hr]
  simp only [List.filter_cons, od_event.is_lock_copy, if_true, List.filter_append, hq2,
    List.nil_append, List.length_cons]
  split <;> simp [od_event.is_lock_copy]

/-- C11, as stated, fails: the throwaway attach is not limited to one. With
the route cache empty at the first two copies, setup makes two throwaway
attaches, each followed by `od_router_close`, copies the cache a third time
and only then emits the setup frames. -/
theorem setup_two_throwaway_attaches :
    (od_frontend_setup sample_detached_client
        [sample_env_empty_cache, sample_env_empty_cache,
         sample_env 1 0 sample_query]).outcome =
      od_outcome.returned od_frontend_rc_t.OD_FE_OK ∧
    (od_frontend_setup sample_detached_client
        [sample_env_empty_cache, sample_env_empty_cache,
         sample_env 1 0 sample_query]).trace.take 7 =
      [od_event.kiwi_params_lock_copy 0 [],
       od_event.od_router_attach od_router_status_t.OD_ROK,
       od_event.od_router_close sample_server,
       od_event.kiwi_params_lock_copy 0 [],
       od_event.od_router_attach od_router_status_t.OD_ROK,
       od_event.od_router_close sample_server,
       od_event.kiwi_params_lock_copy 0 [{ name := "server_version", value := "9.6.0" }]] ∧
    (od_frontend_setup sample_detached_client
        [sample_env_empty_cache, sample_env_empty_cache]).outcome = od_outcome.waiting := by
  refine ⟨by decide, by decide, by decide⟩

/-- C11, amended: setup makes one throwaway attach for every copy of the
route cache that comes back empty, without bound. After `k` passes that copy
an empty cache and whose attach returns OK, each being the copy, the attach
and the `od_router_close` of the server obtained, a pass whose copy fails or
is not empty ends setup with a code, the cache having been copied `k + 1`
times; on the `k` empty passes alone setup has not returned. -/
theorem setup_throwaway_per_empty_copy (client : od_client_t) (route : od_route_t)
    (hr : client.route = some route) (hs : client.server = none)
    (passes : List od_env) (last : od_env) (rest : List od_env)
    (hpasses : ∀ e ∈ passes, (e.lock_copy route).1 ≠ -1 ∧ (e.lock_copy route).2 = [] ∧
      (od_frontend_attach e client).outcome = od_outcome.returned od_frontend_rc_t.OD_FE_OK)
    (hlast : (last.lock_copy route).1 = -1 ∨ (last.lock_copy route).2 ≠ []) :
    (∃ rc, (od_frontend_setup client (passes ++ last :: rest)).outcome =
      od_outcome.returned rc) ∧
    (od_frontend_setup client (passes ++ last :: rest)).trace =
      passes.foldr (fun e acc => od_setup_throwaway client e ++ acc)
        (od_frontend_setup client [last]).trace ∧
    ((od_frontend_setup client (passes ++ last :: rest)).trace.filter
      od_event.is_lock_copy).length = passes.length + 1 ∧
    (od_frontend_setup client passes).outcome = od_outcome.waiting := by
  induction passes with
  | nil =>
    obtain ⟨l1, l2, l3⟩ := od_frontend_setup_last_pass client route last rest hr hlast
    simp only [List.nil_append, List.foldr_nil, List.length_nil, Nat.zero_add]
    rw [l1]
    exact ⟨l2, rfl, l3, rfl⟩
  | cons e passes ih =>
    obtain ⟨he1, he2, he3⟩ := hpasses e (List.mem_cons_self _ _)
    obtain ⟨i1, i2, i3, i4⟩ := ih (fun x hx => hpasses x (List.mem_cons_of_mem _ hx))
    obtain ⟨p1, -, p3⟩ := od_frontend_setup_empty_pass client route e
      (passes ++ last :: rest) hr hs he1 he2 he3
    obtain ⟨q1, -, -⟩ := od_frontend_setup_empty_pass client route e passes hr hs he1 he2 he3
    simp only [List.cons_append, List.foldr_cons, List.length_cons]
    rw [p1, p3, q1]
    refine ⟨i1, by rw [i2], ?_, i4⟩
    rw [List.filter_append, List.length_append, i3,
      od_setup_throwaway_one_copy client route e hr]
    omega

/-- Witness of C11 amended: two passes on an empty cache, then a pass on the
cache of the sample route. -/
theorem setup_throwaway_per_empty_copy_witness :
    (∃ rc, (od_frontend_setup sample_detached_client
        ([sample_env_empty_cache, sample_env_empty_cache] ++
          sample_env 1 0 sample_query :: [])).outcome = od_outcome.returned rc) ∧
    ((od_frontend_setup sample_detached_client
        ([sample_env_empty_cache, sample_env_empty_cache] ++
          sample_env 1 0 sample_query :: [])).trace.filter
      od_event.is_lock_copy).length = 2 + 1 :=
  have h := setup_throwaway_per_empty_copy sample_detached_client sample_route rfl rfl
    [sample_env_empty_cache, sample_env_empty_cache] (sample_env 1 0 sample_query) []
    (by decide) (Or.inr (by decide))
  ⟨h.1, h.2.2.1⟩

/-- The calls of a throwaway pass write nothing to the client. -/
theorem od_setup_throwaway_quiet (client : od_client_t) (env : od_env) :
    od_client_frames (od_setup_throwaway client env) = [] := by
  have hq : od_client_frames (od_frontend_attach env client).trace = [] :=
    (od_frontend_attach_loop_quiet env env.router_attach client).1
  unfold od_setup_throwaway
  split
  · rfl
  · show od_client_frames ((od_frontend_attach env client).trace ++ _) = []
    rw [od_client_frames_append, hq]
    split <;> rfl

/-- When setup returns OK, its last pass copied a cache that is not empty,
and the frames written to the client are those of `od_frontend_setup_write`
for that cache; the session holds no server. -/
theorem od_frontend_setup_ok (route : od_route_t) (envs : List od_env) :
    ∀ client : od_client_t, client.route = some route → client.server = none →
      (od_frontend_setup client envs).outcome =
        od_outcome.returned od_frontend_rc_t.OD_FE_OK →
      ∃ env ∈ envs, (env.lock_copy route).2 ≠ [] ∧
        od_client_frames (od_frontend_setup client envs).trace =
          (env.lock_copy route).2.map od_parameter_status ++
            client.startup_params.map od_parameter_status ++
            [od_frame.backend_key_data client.key.key_pid client.key.key,
             od_frame.ready 'I'] ∧
        (od_frontend_setup client envs).trace.getLast? =
          some (od_event.flush_client env.client_flush) ∧
        (od_frontend_setup client envs).client =
          { client with params := client.startup_params } := by
  induction envs with
  | nil => intro client _ _ h; simp [od_frontend_setup] at h
  | cons env rest ih =>
    intro client hr hs hok
    by_cases hrc : (env.lock_copy route).1 = -1
    · simp [od_frontend_setup, hr, hrc] at hok
    · by_cases hempty : (env.lock_copy route).2 = []
      · by_cases ha : (od_frontend_attach env client).outcome =
            od_outcome.returned od_frontend_rc_t.OD_FE_OK
        · obtain ⟨p1, p2, p3⟩ :=
            od_frontend_setup_empty_pass client route env rest hr hs hrc hempty ha
          rw [p1] at hok
          obtain ⟨e, he, h1, h2, h3, h4⟩ := ih client hr hs hok
          refine ⟨e, List.mem_cons_of_mem _ he, h1, ?_, ?_, ?_⟩
          · simp [p3, od_client_frames_append, od_setup_throwaway_quiet, h2]
          · rw [p3]
            cases ht : (od_frontend_setup client rest).trace with
            | nil => rw [ht] at h3; simp at h3
            | cons x xs =>
              rw [ht] at h3
              rw [List.getLast?_append_of_ne_nil _ (List.cons_ne_nil x xs)]
              exact h3
          · rw [p2]; exact h4
        · simp [od_frontend_setup, hr, hrc, hempty, ha] at hok
      · have hlen : ¬ (env.lock_copy route).2.length = 0 := by
          intro h
          exact hempty (List.length_eq_zero.mp h)
        have hw : (od_frontend_setup_write env client (env.lock_copy route).2).outcome =
            od_outcome.returned od_frontend_rc_t.OD_FE_OK := by
          simpa [od_frontend_setup, hr, hrc, hlen] using hok
        obtain ⟨w1, w2, w3⟩ :=
          od_frontend_setup_write_ok env client (env.lock_copy route).2 hw
        refine ⟨env, List.mem_cons_self _ _, hempty, ?_, ?_, ?_⟩
        · simp only [od_frontend_setup, hr, hrc, hlen, if_false, od_client_frames]
          exact w1
        · simp only [od_frontend_setup, hr, hrc, hlen, if_false]
          cases ht : (od_frontend_setup_write env client (env.lock_copy route).2).trace with
          | nil => rw [ht] at w2; simp at w2
          | cons x xs =>
            rw [ht] at w2
            rw [List.getLast?_cons_cons]
            exact w2
        · simp only [od_frontend_setup, hr, hrc, hlen, if_false]
          rw [w3, hr]

/-- C12: when setup, entered from `od_frontend` (key set by `od_frontend_key`,
route assigned, no server), returns OK, its last pass copied a route cache
that is not empty and the frames written to the client are, in order: one
parameter-status frame per entry of that cache, one per startup parameter,
one backend-key-data frame carrying `(id.id_a, id.id_b)`, one ready-for-query
frame with state `I`; the last call is the flush; the parameter map is a copy
of the startup parameters and no server is attached. -/
theorem setup_frames (client : od_client_t) (route : od_route_t)
    (hr : client.route = some route) (hs : client.server = none) (envs : List od_env)
    (hok : (od_frontend_setup (od_frontend_key client) envs).outcome =
      od_outcome.returned od_frontend_rc_t.OD_FE_OK) :
    ∃ env ∈ envs, (env.lock_copy route).2 ≠ [] ∧
      od_client_frames (od_frontend_setup (od_frontend_key client) envs).trace =
        (env.lock_copy route).2.map od_parameter_status ++
          client.startup_params.map od_parameter_status ++
          [od_frame.backend_key_data client.id.id_a client.id.id_b, od_frame.ready 'I'] ∧
      (od_frontend_setup (od_frontend_key client) envs).trace.getLast? =
        some (od_event.flush_client env.client_flush) ∧
      (od_frontend_setup (od_frontend_key client) envs).client.params =
        client.startup_params ∧
      (od_frontend_setup (od_frontend_key client) envs).client.server = none := by
  obtain ⟨env, hmem, h1, h2, h3, h4⟩ :=
    od_frontend_setup_ok route envs (od_frontend_key client) hr hs hok
  refine ⟨env, hmem, h1, h2, h3, ?_, ?_⟩
  · rw [h4]; rfl
  · rw [h4]; exact hs

/-- Witness of C12: setup of the sample session on the cache of the sample
route. -/
theorem setup_frames_witness :
    ∃ env ∈ [sample_env 1 0 sample_query], (env.lock_copy sample_route).2 ≠ [] ∧
      od_client_frames (od_frontend_setup (od_frontend_key sample_detached_client)
          [sample_env 1 0 sample_query]).trace =
        (env.lock_copy sample_route).2.map od_parameter_status ++
          sample_detached_client.startup_params.map od_parameter_status ++
          [od_frame.backend_key_data sample_detached_client.id.id_a
            sample_detached_client.id.id_b, od_frame.ready 'I'] ∧
      (od_frontend_setup (od_frontend_key sample_detached_client)
          [sample_env 1 0 sample_query]).trace.getLast? =
        some (od_event.flush_client env.client_flush) ∧
      (od_frontend_setup (od_frontend_key sample_detached_client)
          [sample_env 1 0 sample_query]).client.params =
        sample_detached_client.startup_params ∧
      (od_frontend_setup (od_frontend_key sample_detached_client)
          [sample_env 1 0 sample_query]).client.server = none :=
  setup_frames sample_detached_client sample_route rfl rfl [sample_env 1 0 sample_query]
    (by decide)

/-! ## Theorems: the cancel key -/

/-- Attach and deploy change nothing of the session but its server. -/
theorem od_frontend_attach_and_deploy_same (env : od_env) (client : od_client_t) :
    od_same_but_server (od_frontend_attach_and_deploy env client).client client := by
  have h := od_frontend_attach_loop_client env env.router_attach client
  have h2 : od_same_but_server (od_frontend_attach env client).client client := h
  generalize hr : od_frontend_attach_and_deploy env client = r
  unfold od_frontend_attach_and_deploy at hr
  dsimp only at hr
  split at hr
  · subst hr; exact h2
  · split at hr
    · subst hr; exact h2
    · split at hr
      · split at hr <;> (subst hr; exact h2)
      · subst hr; exact h2

/-- C13, as stated, fails: in transaction pool mode the sample session is
attached to server `77f0`, detached on a ready-for-query, then attached to
server `b2b2`, a different server; the query written to either server is
written under the same cancel key `(7, 9)`, the one `od_frontend_key` derives
from the session id. Attach and deploy never change the key. -/
theorem cancel_key_kept_across_servers :
    od_server_write_keys
      (od_frontend_remote (od_frontend_key sample_detached_client)
        [[sample_ready_query sample_server_a], [sample_ready_idle 5],
         [sample_ready_query sample_server_b]]).trace =
      [(some sample_server_a.id, { key_pid := 7, key := 9 }),
       (some sample_server_b.id, { key_pid := 7, key := 9 })] ∧
    sample_server_a.id ≠ sample_server_b.id ∧
    ((od_frontend_remote (od_frontend_key sample_detached_client)
        [[sample_ready_query sample_server_a], [sample_ready_idle 5],
         [sample_ready_query sample_server_b]]).trace.filter od_event.is_detach).length = 1 ∧
    (∀ (env : od_env) (client : od_client_t),
      (od_frontend_attach_and_deploy env client).client.key = client.key) := by
  refine ⟨by decide, by decide, by decide, ?_⟩
  intro env client
  exact (od_frontend_attach_and_deploy_same env client).2.1

/-! ## Theorems: error frames of cleanup -/

/-- The frames `od_frontend_error` writes: the error frame when it could be
built, nothing otherwise. -/
theorem od_frontend_error_frames (env : od_env) (client : od_client_t) (code text : String) :
    od_client_frames (od_frontend_error env client code text).2 =
      if env.error_msg = true then [od_frame.error code text] else [] := by
  unfold od_frontend_error
  cases h : env.error_msg
  · simp [od_client_frames]
  · simp only [Bool.true_eq_false, if_false, if_true]
    split <;> rfl

/-- C14, as stated, fails: the stored error is not passed through verbatim.
With forwarding on and a stored error whose message is `denied`, the frame
sent keeps severity and SQLSTATE code but its message text is
`odyssey: c0a1b: denied`. -/
theorem connect_error_forwarded_with_prefix :
    od_cleanup_trace (od_frontend_cleanup sample_env_fwd sample_failed_client
        od_frontend_rc_t.OD_FE_ESERVER_CONNECT) =
      [od_event.write_client
          (od_frame.error_as "FATAL" "28P01" none none
            "odyssey: c0a1b: denied") 0 sample_failed_client,
       od_event.flush_client 0,
       od_event.od_router_close_and_unroute
         { sample_server with io := none, error_connect := some sample_stored_error }] ∧
    sample_env_fwd.read_error sample_stored_error =
      some { severity := "FATAL", code := "28P01", message := "denied",
             detail := none, hint := none } ∧
    "odyssey: c0a1b: denied" ≠ "denied" := by
  refine ⟨by decide, by decide, by decide⟩

/-- C14, amended: for terminal code ESERVER_CONNECT with a server attached
and a route assigned, cleanup ends with `od_router_close_and_unroute`, its
only release call. When the route forwards connect errors and the server holds
a stored error that decodes, the frame sent (if it can be built) has the
stored severity, SQLSTATE code, detail and hint, and as message text what
`od_snprintf` leaves in a buffer of 512 for `odyssey: <id>: <stored message>`;
when the stored error does not decode no frame is sent; in every other case
the frame is the CONNECTION_FAILURE error `failed to connect to remote
server <id>`. -/
theorem cleanup_connect_error (env : od_env) (client : od_client_t) (server : od_server_t)
    (route : od_route_t) (hs : client.server = some server)
    (hr : client.route = some route) :
    ∃ after pre,
      od_frontend_cleanup env client od_frontend_rc_t.OD_FE_ESERVER_CONNECT =
        some (after, pre ++ [od_event.od_router_close_and_unroute server]) ∧
      pre.filter od_event.is_release = [] ∧
      (∀ stored error, server.error_connect = some stored →
        route.config.client_fwd_error = true → env.read_error stored = some error →
        od_client_frames pre =
          if env.error_msg = true then
            [od_frame.error_as error.severity error.code error.detail error.hint
              (env.od_snprintf 512
                ("odyssey: " ++ od_id_t.id_prefix client.id ++ client.id.id ++ ": " ++
                  error.message))]
          else []) ∧
      (∀ stored, server.error_connect = some stored →
        route.config.client_fwd_error = true → env.read_error stored = none →
        od_client_frames pre = []) ∧
      ((server.error_connect = none ∨ route.config.client_fwd_error = false) →
        od_client_frames pre =
          if env.error_msg = true then
            [od_frame.error KIWI_CONNECTION_FAILURE
              ("failed to connect to remote server " ++ od_id_t.id_prefix server.id ++
                server.id.id)]
          else []) := by
  have hplain := od_frontend_error_frames env client KIWI_CONNECTION_FAILURE
    ("failed to connect to remote server " ++ od_id_t.id_prefix server.id ++ server.id.id)
  have hrel := od_frontend_error_no_release env client KIWI_CONNECTION_FAILURE
    ("failed to connect to remote server " ++ od_id_t.id_prefix server.id ++ server.id.id)
  cases he : server.error_connect with
  | none =>
    refine ⟨od_router_close_and_unroute client, _,
      by simp only [od_frontend_cleanup, hs, he], hrel, ?_, ?_, ?_⟩
    · intro stored error h; cases h
    · intro stored h; cases h
    · intro _; exact hplain
  | some stored =>
    cases hf : route.config.client_fwd_error with
    | false =>
      refine ⟨od_router_close_and_unroute client, _,
        by simp only [od_frontend_cleanup, hs, he, hr, hf]; rfl, hrel, ?_, ?_, ?_⟩
      · intro _ _ _ h; cases h
      · intro _ _ h; cases h
      · intro _; exact hplain
    | true =>
      obtain ⟨e, hfwd⟩ := od_frontend_error_fwd_defined env client server stored hs he
      have hrel2 := od_frontend_error_fwd_no_release env client e hfwd
      refine ⟨od_router_close_and_unroute client, e.2,
        by simp only [od_frontend_cleanup, hs, he, hr, hf, hfwd]; rfl, hrel2, ?_, ?_, ?_⟩
      · intro stored2 error h _ hdec
        cases h
        unfold od_frontend_error_fwd at hfwd
        simp only [hs, he, hdec] at hfwd
        cases hm : env.error_msg
        · simp only [hm, if_true, Option.some.injEq] at hfwd
          subst hfwd
          rfl
        · simp only [hm, Bool.true_eq_false, if_false, Option.some.injEq] at hfwd
          split at hfwd <;> (cases hfwd; rfl)
      · intro stored2 h _ hdec
        cases h
        unfold od_frontend_error_fwd at hfwd
        simp only [hs, he, hdec, Option.some.injEq] at hfwd
        subst hfwd
        rfl
      · intro h
        rcases h with h | h
        · cases h
        · cases h

/-- Witness of C14 amended: the sample session after a failed connect. -/
theorem cleanup_connect_error_witness :
    ∃ after pre,
      od_frontend_cleanup sample_env_fwd sample_failed_client
          od_frontend_rc_t.OD_FE_ESERVER_CONNECT =
        some (after, pre ++ [od_event.od_router_close_and_unroute
          { sample_server with io := none, error_connect := some sample_stored_error }]) ∧
      pre.filter od_event.is_release = [] :=
  have h := cleanup_connect_error sample_env_fwd sample_failed_client
    { sample_server with io := none, error_connect := some sample_stored_error }
    sample_fwd_route rfl rfl
  h.elim fun after h2 => h2.elim fun pre h3 => ⟨after, pre, h3.1, h3.2.1⟩

/-- C15, as stated, fails: when cleanup is reached with ECLIENT_CONFIGURE
and no server attached, as after a failed setup, it sends no frame and calls
`od_unroute` only. -/
theorem client_configure_without_server :
    sample_detached_client.server = none ∧
    od_frontend_cleanup (sample_env 1 0 sample_query) sample_detached_client
        od_frontend_rc_t.OD_FE_ECLIENT_CONFIGURE =
      some (od_unroute sample_detached_client, [od_event.od_unroute]) := by
  refine ⟨by decide, by decide⟩

/-- C15, amended: for terminal code ECLIENT_CONFIGURE with a server
attached, cleanup sends the client (if the frame can be built) the
CONNECTION_FAILURE error `client <id> configuration error` and then releases
through `od_router_detach_and_unroute`; with no server attached it sends
nothing and calls `od_unroute` only. -/
theorem cleanup_client_configure (env : od_env) (client : od_client_t)
    (server : od_server_t) (other : od_client_t)
    (hs : client.server = some server) (ho : other.server = none) :
    (∃ pre, od_frontend_cleanup env client od_frontend_rc_t.OD_FE_ECLIENT_CONFIGURE =
        some (od_router_detach_and_unroute client,
          pre ++ [od_event.od_router_detach_and_unroute server]) ∧
      pre.filter od_event.is_release = [] ∧
      od_client_frames pre =
        if env.error_msg = true then
          [od_frame.error KIWI_CONNECTION_FAILURE
            ("client " ++ od_id_t.id_prefix client.id ++ client.id.id ++
              " configuration error")]
        else []) ∧
    od_frontend_cleanup env other od_frontend_rc_t.OD_FE_ECLIENT_CONFIGURE =
      some (od_unroute other, [od_event.od_unroute]) := by
  constructor
  · refine ⟨(od_frontend_error env client KIWI_CONNECTION_FAILURE
        ("client " ++ od_id_t.id_prefix client.id ++ client.id.id ++
          " configuration error")).2,
      by simp only [od_frontend_cleanup, hs],
      od_frontend_error_no_release _ _ _ _, od_frontend_error_frames _ _ _ _⟩
  · simp only [od_frontend_cleanup, ho]

/-- Witness of C15 amended: the sample session with and without its server. -/
theorem cleanup_client_configure_witness :
    od_frontend_cleanup (sample_env 1 0 sample_query) sample_detached_client
        od_frontend_rc_t.OD_FE_ECLIENT_CONFIGURE =
      some (od_unroute sample_detached_client, [od_event.od_unroute]) :=
  (cleanup_client_configure (sample_env 1 0 sample_query) sample_client sample_server
    sample_detached_client rfl rfl).2

/-! ## Theorems: failures of reads and writes in the relay -/

/-- A forward to the client: its calls, and that a failed call is the last
one and makes the forward fail. -/
theorem od_forward_client_failure (env : od_env) (client : od_client_t) (msg : machine_msg_t) :
    (∀ f s, od_event.write_client f (-1) s ∈ (od_forward_client env client msg).2 →
      (od_forward_client env client msg).1 = false ∧
      (od_forward_client env client msg).2.getLast? = some (od_event.write_client f (-1) s)) ∧
    (od_event.flush_client (-1) ∈ (od_forward_client env client msg).2 →
      (od_forward_client env client msg).1 = false ∧
      (od_forward_client env client msg).2.getLast? = some (od_event.flush_client (-1))) := by
  unfold od_forward_client
  split_ifs with h1 h2
  · simp [h1]
  · simp [h2]
    intro f s _ h _
    exact absurd h.symm h1
  · simp
    constructor
    · intro f s _ h _
      exact absurd h.symm h1
    · intro h
      exact absurd h.symm h2

/-- The first-chunk switch of the server handler neither writes to the
client nor flushes its socket. -/
theorem od_frontend_remote_server_switch_no_client_io (env : od_env) (client : od_client_t)
    (server : od_server_t) (msg : machine_msg_t) :
    ∀ e ∈ (od_frontend_remote_server_switch env client server msg).2.2,
      e.is_client_io = false := by
  generalize ht : (od_frontend_remote_server_switch env client server msg).2.2 = t
  unfold od_frontend_remote_server_switch at ht
  dsimp only at ht
  split at ht
  · subst ht; simp [od_event.is_client_io]
  · split at ht
    · split at ht
      · subst ht; simp
      · split at ht <;> (subst ht; simp)
    · split at ht
      · subst ht; simp
      · split at ht
        · subst ht; simp
        · split at ht
          · split at ht
            · subst ht; simp [od_event.is_client_io]
            · split at ht
              · subst ht; simp [od_event.is_client_io]
              · split at ht
                · split at ht
                  · split at ht
                    · subst ht; simp [od_event.is_client_io]
                    · subst ht; simp [od_event.is_client_io]
                  · subst ht; simp [od_event.is_client_io]
                · subst ht; simp [od_event.is_client_io]
          · subst ht; simp

/-- The calls of the server handler are calls that do not touch the client
socket, followed either by nothing, the handler then not returning
ECLIENT_WRITE, or by one forward to the client, on whose success the result
depends. -/
theorem od_frontend_remote_server_split (env : od_env) (client : od_client_t) :
    ∃ pre, (∀ e ∈ pre, od_event.is_client_io e = false) ∧
      (((od_frontend_remote_server env client).trace = pre) ∨
       (∃ session msg,
          (od_frontend_remote_server env client).trace =
            pre ++ (od_forward_client env session msg).2 ∧
          ((od_forward_client env session msg).1 = false →
            (od_frontend_remote_server env client).outcome =
              od_outcome.returned od_frontend_rc_t.OD_FE_ECLIENT_WRITE))) := by
  generalize hr : od_frontend_remote_server env client = r
  unfold od_frontend_remote_server at hr
  split at hr
  · subst hr; exact ⟨[], by simp, Or.inl rfl⟩
  · next server hs =>
    dsimp only at hr
    have hsw := od_frontend_remote_server_switch_no_client_io env client server
      env.packet_read.2
    split at hr
    · subst hr; exact ⟨_, by simp [od_event.is_client_io], Or.inl rfl⟩
    · split at hr
      · split at hr
        · subst hr
          exact ⟨_, by simp [od_event.is_client_io], Or.inr ⟨_, _, rfl, fun _ => rfl⟩⟩
        · next hw =>
          subst hr
          exact ⟨_, by simp [od_event.is_client_io],
            Or.inr ⟨_, _, rfl, fun h => absurd h hw⟩⟩
      · split at hr
        · split at hr <;>
          · subst hr; exact ⟨_, by simp [od_event.is_client_io], Or.inl rfl⟩
        · split at hr
          · subst hr
            refine ⟨_, ?_, Or.inl rfl⟩
            intro e he
            simp only [List.mem_append, List.mem_cons, List.mem_singleton,
              List.not_mem_nil, or_false] at he
            rcases he with (rfl | rfl) | he
            · rfl
            · rfl
            · exact hsw e he
          · split at hr
            · subst hr
              refine ⟨_, ?_, Or.inr ⟨_, _, rfl, fun _ => rfl⟩⟩
              intro e he
              simp only [List.mem_append, List.mem_cons, List.mem_singleton,
                List.not_mem_nil, or_false] at he
              rcases he with (rfl | rfl) | he
              · rfl
              · rfl
              · exact hsw e he
            · next hw =>
              subst hr
              refine ⟨_, ?_, Or.inr ⟨_, _, rfl, fun h => absurd h hw⟩⟩
              intro e he
              simp only [List.mem_append, List.mem_cons, List.mem_singleton,
                List.not_mem_nil, or_false] at he
              rcases he with (rfl | rfl) | he
              · rfl
              · rfl
              · exact hsw e he

/-- In the server handler a failed write or flush on the client socket is
the last call made and the handler returns ECLIENT_WRITE. -/
theorem od_frontend_remote_server_client_failure (env : od_env) (client : od_client_t) :
    (∀ f s, od_event.write_client f (-1) s ∈ (od_frontend_remote_server env client).trace →
      (od_frontend_remote_server env client).outcome =
        od_outcome.returned od_frontend_rc_t.OD_FE_ECLIENT_WRITE ∧
      (od_frontend_remote_server env client).trace.getLast? =
        some (od_event.write_client f (-1) s)) ∧
    (od_event.flush_client (-1) ∈ (od_frontend_remote_server env client).trace →
      (od_frontend_remote_server env client).outcome =
        od_outcome.returned od_frontend_rc_t.OD_FE_ECLIENT_WRITE ∧
      (od_frontend_remote_server env client).trace.getLast? =
        some (od_event.flush_client (-1))) := by
  obtain ⟨pre, hpre, hcase⟩ := od_frontend_remote_server_split env client
  rcases hcase with h | ⟨session, msg, htr, hout⟩
  · rw [h]
    constructor
    · intro f s hmem
      have := hpre _ hmem
      simp [od_event.is_client_io] at this
    · intro hmem
      have := hpre _ hmem
      simp [od_event.is_client_io] at this
  · obtain ⟨fw1, fw2⟩ := od_forward_client_failure env session msg
    rw [htr]
    constructor
    · intro f s hmem
      rcases List.mem_append.mp hmem with hm | hm
      · have := hpre _ hm
        simp [od_event.is_client_io] at this
      · obtain ⟨a, b⟩ := fw1 f s hm
        refine ⟨hout a, ?_⟩
        rw [List.getLast?_append_of_ne_nil _ (List.ne_nil_of_mem hm)]
        exact b
    · intro hmem
      rcases List.mem_append.mp hmem with hm | hm
      · have := hpre _ hm
        simp [od_event.is_client_io] at this
      · obtain ⟨a, b⟩ := fw2 hm
        refine ⟨hout a, ?_⟩
        rw [List.getLast?_append_of_ne_nil _ (List.ne_nil_of_mem hm)]
        exact b

/-- C16: the relay types failures by endpoint and direction. With a server
attached, the client handler returns ECLIENT_READ when the read from the
client fails, having written nothing to the server, and ESERVER_WRITE when the
write or the flush to the server fails, that call being its last; the server
handler returns ESERVER_READ when the read from the server fails, having
written nothing to the client, and ECLIENT_WRITE when a write or a flush to
the client fails, that call being its last. When the poll reports the client
socket ready and the read then fails, as at end of stream, the relay loop
returns ECLIENT_READ. -/
theorem relay_io_failures (env : od_env) (client : od_client_t) (server : od_server_t)
    (hs : client.server = some server) :
    (env.packet_read.1 = -1 →
      (od_frontend_remote_client env client).outcome =
        od_outcome.returned od_frontend_rc_t.OD_FE_ECLIENT_READ ∧
      od_server_frames (od_frontend_remote_client env client).trace = []) ∧
    (env.packet_read.1 ≠ -1 → od_is_terminate env.packet_read = false →
      env.server_write = -1 →
      (od_frontend_remote_client env client).outcome =
        od_outcome.returned od_frontend_rc_t.OD_FE_ESERVER_WRITE ∧
      ∃ session, (od_frontend_remote_client env client).trace.getLast? =
        some (od_event.write_server (od_frame.chunk env.packet_read.2) (-1) session)) ∧
    (env.packet_read.1 ≠ -1 → od_is_terminate env.packet_read = false →
      env.server_write ≠ -1 → env.server_flush = -1 →
      (od_frontend_remote_client env client).outcome =
        od_outcome.returned od_frontend_rc_t.OD_FE_ESERVER_WRITE ∧
      (od_frontend_remote_client env client).trace.getLast? =
        some (od_event.flush_server (-1))) ∧
    (env.packet_read.1 = -1 →
      (od_frontend_remote_server env client).outcome =
        od_outcome.returned od_frontend_rc_t.OD_FE_ESERVER_READ ∧
      od_client_frames (od_frontend_remote_server env client).trace = []) ∧
    (∀ f s, od_event.write_client f (-1) s ∈ (od_frontend_remote_server env client).trace →
      (od_frontend_remote_server env client).outcome =
        od_outcome.returned od_frontend_rc_t.OD_FE_ECLIENT_WRITE ∧
      (od_frontend_remote_server env client).trace.getLast? =
        some (od_event.write_client f (-1) s)) ∧
    (od_event.flush_client (-1) ∈ (od_frontend_remote_server env client).trace →
      (od_frontend_remote_server env client).outcome =
        od_outcome.returned od_frontend_rc_t.OD_FE_ECLIENT_WRITE ∧
      (od_frontend_remote_server env client).trace.getLast? =
        some (od_event.flush_client (-1))) ∧
    (env.packet_read.1 ≠ -1 → env.packet_read.1 ≠ 0 →
      (env.client_write = -1 ∨ env.client_flush = -1) →
      (od_frontend_remote_server env client).outcome =
        od_outcome.returned od_frontend_rc_t.OD_FE_ECLIENT_WRITE) ∧
    (∀ (st : od_relay_t) (r : od_ready) (rest : List od_ready),
      st.client = client → r.env = env → r.io = client.io → r.io ≠ client.io_notify →
      env.packet_read.1 = -1 →
      (od_frontend_remote_round st (r :: rest)).1 =
        some (od_outcome.returned od_frontend_rc_t.OD_FE_ECLIENT_READ)) := by
  have hrun : od_frontend_remote_client env client =
      od_frontend_remote_client_read env client server [] := by
    unfold od_frontend_remote_client
    rw [hs]
  obtain ⟨sv1, sv2⟩ := od_frontend_remote_server_client_failure env client
  have hread : env.packet_read.1 = -1 →
      (od_frontend_remote_client env client).outcome =
        od_outcome.returned od_frontend_rc_t.OD_FE_ECLIENT_READ ∧
      od_server_frames (od_frontend_remote_client env client).trace = [] := by
    intro h1
    rw [hrun]
    simp [od_frontend_remote_client_read, h1, od_server_frames]
  refine ⟨hread, ?_, ?_, ?_, sv1, sv2, ?_, ?_⟩
  · intro h1 hterm hw
    rw [hrun]
    by_cases h2 : env.packet_read.1 = 0
    · have h3 : ¬ machine_msg_type env.packet_read.2 = KIWI_FE_TERMINATE := by
        intro h
        simp [od_is_terminate, h2, h] at hterm
      simp [od_frontend_remote_client_read, od_forward_server, h2, h3, hw]
    · simp [od_frontend_remote_client_read, od_forward_server, h1, h2, hw]
  · intro h1 hterm hw hf
    rw [hrun]
    by_cases h2 : env.packet_read.1 = 0
    · have h3 : ¬ machine_msg_type env.packet_read.2 = KIWI_FE_TERMINATE := by
        intro h
        simp [od_is_terminate, h2, h] at hterm
      simp [od_frontend_remote_client_read, od_forward_server, h2, h3, hw, hf]
    · simp [od_frontend_remote_client_read, od_forward_server, h1, h2, hw, hf]
  · intro h1
    simp [od_frontend_remote_server, hs, h1, od_client_frames]
  · intro h1 h2 hfail
    by_cases hw : env.client_write = -1
    · simp [od_frontend_remote_server, od_forward_client, hs, h1, h2, hw]
    · have hf : env.client_flush = -1 := by
        rcases hfail with h | h
        · exact absurd h hw
        · exact h
      simp [od_frontend_remote_server, od_forward_client, hs, h1, h2, hw, hf]
  · intro st r rest hst henv hio hne h1
    have hio2 : r.io = st.client.io := by rw [hst]; exact hio
    have hne2 : ¬ r.io = st.client.io_notify := by rw [hst]; exact hne
    have hout := (hread h1).1
    have hne3 : ¬ client.io = client.io_notify := by rw [← hio]; exact hne
    simp only [od_frontend_remote_round, hne2, hio2, if_false, if_true, henv, hst, hout]
    simp [hne3]

/-- Witness of C16: the read from the client fails on the sample session. -/
theorem relay_io_failures_witness :
    (od_frontend_remote_client (sample_env 1 (-1) (sample_msg [])) sample_client).outcome =
      od_outcome.returned od_frontend_rc_t.OD_FE_ECLIENT_READ ∧
    od_server_frames
      (od_frontend_remote_client (sample_env 1 (-1) (sample_msg [])) sample_client).trace = [] :=
  (relay_io_failures (sample_env 1 (-1) (sample_msg [])) sample_client sample_server rfl).1 rfl

/-! ## Theorems: the sync-request counter -/

/-- The attach loop makes no call of the relay loop. -/
theorem od_frontend_attach_loop_no_relay_call (env : od_env) (l : List od_attach_answer) :
    ∀ client, ∀ e ∈ (od_frontend_attach_loop env client l).trace,
      od_event.is_relay_call e = false := by
  induction l with
  | nil => intro client e he; cases he
  | cons a rest ih =>
    intro client
    unfold od_frontend_attach_loop
    split
    · simp [od_event.is_relay_call]
    · dsimp only
      split
      · intro e he
        simp only [List.cons_append, List.nil_append, List.mem_cons] at he
        rcases he with rfl | rfl | he
        · rfl
        · rfl
        · exact ih _ e he
      · split
        · split <;> simp [od_event.is_relay_call]
        · simp [od_event.is_relay_call]

/-- Attach and deploy make no call of the relay loop. -/
theorem od_frontend_attach_and_deploy_no_relay_call (env : od_env) (client : od_client_t) :
    ∀ e ∈ (od_frontend_attach_and_deploy env client).trace,
      od_event.is_relay_call e = false := by
  have h0 := od_frontend_attach_loop_no_relay_call env env.router_attach client
  unfold od_frontend_attach_and_deploy
  dsimp only
  split
  · exact h0
  · split
    · exact h0
    · split
      · split
        · intro e he
          rcases List.mem_append.mp he with h | h
          · exact h0 e h
          · simp only [List.mem_singleton] at h; subst h; rfl
        · intro e he
          rcases List.mem_append.mp he with h | h
          · exact h0 e h
          · simp only [List.mem_singleton] at h; subst h; rfl
      · exact h0

/-- The client handler makes no call of the relay loop. -/
theorem od_frontend_remote_client_no_relay_call (env : od_env) (client : od_client_t) :
    ∀ e ∈ (od_frontend_remote_client env client).trace,
      od_event.is_relay_call e = false := by
  have hread : ∀ (c : od_client_t) (server : od_server_t) (pre : List od_event),
      (∀ e ∈ pre, od_event.is_relay_call e = false) →
      ∀ e ∈ (od_frontend_remote_client_read env c server pre).trace,
        od_event.is_relay_call e = false := by
    intro c server pre hpre
    unfold od_frontend_remote_client_read od_forward_server
    dsimp only
    split_ifs <;>
      simp only [List.mem_append, List.mem_cons, List.mem_singleton, List.not_mem_nil,
        or_false, or_imp, forall_and, forall_eq, od_event.is_relay_call, and_true,
        true_and] <;>
      exact hpre
  unfold od_frontend_remote_client
  split
  · exact hread client _ [] (fun e he => nomatch he)
  · dsimp only
    split
    · exact od_frontend_attach_and_deploy_no_relay_call env client
    · split
      · exact od_frontend_attach_and_deploy_no_relay_call env client
      · exact hread _ _ _ (od_frontend_attach_and_deploy_no_relay_call env client)

/-- The first-chunk switch of the server handler makes no call of the relay
loop. -/
theorem od_frontend_remote_server_switch_no_relay_call (env : od_env) (client : od_client_t)
    (server : od_server_t) (msg : machine_msg_t) :
    ∀ e ∈ (od_frontend_remote_server_switch env client server msg).2.2,
      e.is_relay_call = false := by
  generalize ht : (od_frontend_remote_server_switch env client server msg).2.2 = t
  unfold od_frontend_remote_server_switch at ht
  dsimp only at ht
  split at ht
  · subst ht; simp [od_event.is_relay_call]
  · split at ht
    · split at ht
      · subst ht; simp
      · split at ht <;> (subst ht; simp)
    · split at ht
      · subst ht; simp
      · split at ht
        · subst ht; simp
        · split at ht
          · split at ht
            · subst ht; simp [od_event.is_relay_call]
            · split at ht
              · subst ht; simp [od_event.is_relay_call]
              · split at ht
                · split at ht
                  · split at ht
                    · subst ht; simp [od_event.is_relay_call]
                    · subst ht; simp [od_event.is_relay_call]
                  · subst ht; simp [od_event.is_relay_call]
                · subst ht; simp [od_event.is_relay_call]
          · subst ht; simp

/-- The server handler makes no call of the relay loop. -/
theorem od_frontend_remote_server_no_relay_call (env : od_env) (client : od_client_t) :
    ∀ e ∈ (od_frontend_remote_server env client).trace,
      od_event.is_relay_call e = false := by
  generalize hr : od_frontend_remote_server env client = r
  unfold od_frontend_remote_server od_forward_client at hr
  split at hr
  · subst hr; simp
  · next server hs =>
    dsimp only at hr
    have hsw := od_frontend_remote_server_switch_no_relay_call env client server
      env.packet_read.2
    split_ifs at hr <;> subst hr <;>
      simp only [List.mem_append, List.mem_cons, List.mem_singleton, List.not_mem_nil,
        or_false, or_imp, forall_and, forall_eq, od_event.is_relay_call, and_true,
        true_and, implies_true] <;>
      exact hsw

/-- The attach loop on a session without server: it never faults; it returns
OK or ESERVER_CONNECT with a server attached, or EATTACH with none. -/
theorem od_frontend_attach_loop_codes (env : od_env) (l : List od_attach_answer) :
    ∀ client : od_client_t, client.server = none →
      (od_frontend_attach_loop env client l).outcome ≠ od_outcome.fault ∧
      (∀ rc, (od_frontend_attach_loop env client l).outcome = od_outcome.returned rc →
        (rc = od_frontend_rc_t.OD_FE_OK ∧
          (od_frontend_attach_loop env client l).client.server.isSome = true) ∨
        (rc = od_frontend_rc_t.OD_FE_ESERVER_CONNECT ∧
          (od_frontend_attach_loop env client l).client.server.isSome = true) ∨
        (rc = od_frontend_rc_t.OD_FE_EATTACH ∧
          (od_frontend_attach_loop env client l).client.server = none)) := by
  induction l with
  | nil => intro client _; simp [od_frontend_attach_loop]
  | cons a rest ih =>
    intro client hs
    by_cases hst : a.status = od_router_status_t.OD_ROK
    · by_cases hdead : a.server.io.isSome = true ∧ a.connected = false
      · have h := ih (od_router_close (od_router_attach client a)) rfl
        have ho : (od_frontend_attach_loop env client (a :: rest)).outcome =
            (od_frontend_attach_loop env (od_router_close (od_router_attach client a))
              rest).outcome := by
          conv => lhs; unfold od_frontend_attach_loop
          simp [hst, hdead]
        have hc : (od_frontend_attach_loop env client (a :: rest)).client =
            (od_frontend_attach_loop env (od_router_close (od_router_attach client a))
              rest).client := by
          conv => lhs; unfold od_frontend_attach_loop
          simp [hst, hdead]
        rw [ho, hc]
        exact h
      · by_cases hio : a.server.io.isNone = true
        · by_cases hc : (env.backend_connect a.server).1 = -1 <;>
            simp [od_frontend_attach_loop, hst, hdead, hio, hc]
        · simp [od_frontend_attach_loop, hst, hdead, hio, od_router_attach]
    · simp [od_frontend_attach_loop, hst, od_router_attach, hs]

/-- Attach and deploy on a session without server: they never fault; they
return OK, ESERVER_CONNECT or ESERVER_WRITE with a server attached, or
EATTACH with none. -/
theorem od_frontend_attach_and_deploy_codes (env : od_env) (client : od_client_t)
    (hs : client.server = none) :
    (od_frontend_attach_and_deploy env client).outcome ≠ od_outcome.fault ∧
    (∀ rc, (od_frontend_attach_and_deploy env client).outcome = od_outcome.returned rc →
      ((rc = od_frontend_rc_t.OD_FE_OK ∨ rc = od_frontend_rc_t.OD_FE_ESERVER_CONNECT ∨
          rc = od_frontend_rc_t.OD_FE_ESERVER_WRITE) ∧
        (od_frontend_attach_and_deploy env client).client.server.isSome = true) ∨
      (rc = od_frontend_rc_t.OD_FE_EATTACH ∧
        (od_frontend_attach_and_deploy env client).client.server = none)) := by
  obtain ⟨a1, a2⟩ := od_frontend_attach_loop_codes env env.router_attach client hs
  have b1 : (od_frontend_attach env client).outcome ≠ od_outcome.fault := a1
  have b2 : ∀ rc, (od_frontend_attach env client).outcome = od_outcome.returned rc →
      (rc = od_frontend_rc_t.OD_FE_OK ∧
        (od_frontend_attach env client).client.server.isSome = true) ∨
      (rc = od_frontend_rc_t.OD_FE_ESERVER_CONNECT ∧
        (od_frontend_attach env client).client.server.isSome = true) ∨
      (rc = od_frontend_rc_t.OD_FE_EATTACH ∧
        (od_frontend_attach env client).client.server = none) := a2
  generalize hr : od_frontend_attach_and_deploy env client = r
  unfold od_frontend_attach_and_deploy at hr
  dsimp only at hr
  split at hr
  · next hne =>
    subst hr
    refine ⟨b1, ?_⟩
    intro rc hrc
    rcases b2 rc hrc with ⟨h1, h2⟩ | ⟨h1, h2⟩ | ⟨h1, h2⟩
    · subst h1; exact absurd hrc hne
    · exact Or.inl ⟨Or.inr (Or.inl h1), h2⟩
    · exact Or.inr ⟨h1, h2⟩
  · next hok =>
    have hok2 := not_not.mp hok
    split at hr
    · next hnone =>
      rcases b2 _ hok2 with ⟨_, h2⟩ | ⟨h1, _⟩ | ⟨h1, _⟩
      · rw [hnone] at h2; cases h2
      · cases h1
      · cases h1
    · split at hr
      · split at hr
        · next hsv _ _ =>
          subst hr
          refine ⟨by simp, ?_⟩
          intro rc hrc
          cases hrc
          exact Or.inl ⟨Or.inr (Or.inr rfl), by simp [hsv]⟩
        · subst hr
          refine ⟨by simp, ?_⟩
          intro rc hrc
          cases hrc
          exact Or.inl ⟨Or.inl rfl, rfl⟩
      · subst hr
        refine ⟨by simp, ?_⟩
        intro rc hrc
        cases hrc
        exact Or.inl ⟨Or.inl rfl, rfl⟩

/-- Sessions that differ at most in their server have the same identity,
key, sockets, route and startup parameters. -/
theorem od_same_session_of_same_but_server (a b : od_client_t)
    (h : od_same_but_server a b) : od_same_session a b :=
  ⟨h.1, h.2.1, h.2.2.1, h.2.2.2.1, h.2.2.2.2.1, h.2.2.2.2.2.2.1⟩

/-- The part of the client handler after the attach: it returns
ECLIENT_READ, ESERVER_WRITE, TERMINATE or OK; the server stays attached, with
its socket, and the rest of the session is unchanged. -/
theorem od_frontend_remote_client_read_codes (env : od_env) (client : od_client_t)
    (server : od_server_t) (pre : List od_event) :
    (∃ rc, (od_frontend_remote_client_read env client server pre).outcome =
        od_outcome.returned rc ∧
      (rc = od_frontend_rc_t.OD_FE_ECLIENT_READ ∨ rc = od_frontend_rc_t.OD_FE_ESERVER_WRITE ∨
        rc = od_frontend_rc_t.OD_FE_TERMINATE ∨ rc = od_frontend_rc_t.OD_FE_OK)) ∧
    od_same_but_server (od_frontend_remote_client_read env client server pre).client client ∧
    (client.server = some server →
      ∃ updated, (od_frontend_remote_client_read env client server pre).client.server =
        some updated ∧ updated.io = server.io) := by
  generalize hr : od_frontend_remote_client_read env client server pre = r
  unfold od_frontend_remote_client_read at hr
  dsimp only at hr
  split_ifs at hr <;> subst hr <;>
    simp [od_same_but_server, od_server_sync_request] <;>
    (intro h; exact ⟨server, h, rfl⟩)

/-- The client handler never faults and leaves identity, key, sockets and
route of the session as they are. After OK or a server error code a server is
attached; after EATTACH none is; a server attached before the call is still
attached, with the same socket, after it. -/
theorem od_frontend_remote_client_codes (env : od_env) (client : od_client_t) :
    (od_frontend_remote_client env client).outcome ≠ od_outcome.fault ∧
    od_same_session (od_frontend_remote_client env client).client client ∧
    (∀ rc, (od_frontend_remote_client env client).outcome = od_outcome.returned rc →
      rc ≠ od_frontend_rc_t.OD_FE_UNDEF ∧
      (rc = od_frontend_rc_t.OD_FE_OK →
        (od_frontend_remote_client env client).client.server.isSome = true) ∧
      (rc.is_server_error = true →
        (od_frontend_remote_client env client).client.server.isSome = true) ∧
      (rc = od_frontend_rc_t.OD_FE_EATTACH →
        (od_frontend_remote_client env client).client.server = none)) ∧
    (∀ server, client.server = some server →
      ∃ updated, (od_frontend_remote_client env client).client.server = some updated ∧
        updated.io = server.io) := by
  cases hs : client.server with
  | some server =>
    have hrun : od_frontend_remote_client env client =
        od_frontend_remote_client_read env client server [] := by
      unfold od_frontend_remote_client
      rw [hs]
    obtain ⟨⟨rc, hrc, hcodes⟩, hsame, hio⟩ :=
      od_frontend_remote_client_read_codes env client server []
    obtain ⟨updated, hu, hio2⟩ := hio hs
    rw [hrun]
    refine ⟨by rw [hrc]; simp, od_same_session_of_same_but_server _ _ hsame, ?_, ?_⟩
    · intro rc2 h2
      rw [hrc] at h2
      cases h2
      rw [hu]
      rcases hcodes with h | h | h | h <;> subst h <;> simp
    · intro s h
      cases h
      exact ⟨updated, hu, hio2⟩
  | none =>
    obtain ⟨a1, a2⟩ := od_frontend_attach_and_deploy_codes env client hs
    have asame := od_frontend_attach_and_deploy_same env client
    by_cases ha : (od_frontend_attach_and_deploy env client).outcome =
        od_outcome.returned od_frontend_rc_t.OD_FE_OK
    · rcases a2 _ ha with ⟨_, hsome⟩ | ⟨h, _⟩
      · cases hb : (od_frontend_attach_and_deploy env client).client.server with
        | none => rw [hb] at hsome; cases hsome
        | some base =>
          have hrun : od_frontend_remote_client env client =
              od_frontend_remote_client_read env
                (od_frontend_attach_and_deploy env client).client base
                (od_frontend_attach_and_deploy env client).trace := by
            simp [od_frontend_remote_client, hs, ha, hb]
          obtain ⟨⟨rc, hrc, hcodes⟩, hsame, hio⟩ :=
            od_frontend_remote_client_read_codes env
              (od_frontend_attach_and_deploy env client).client base
              (od_frontend_attach_and_deploy env client).trace
          obtain ⟨updated, hu, -⟩ := hio hb
          rw [hrun]
          have s1 := od_same_session_of_same_but_server _ _ hsame
          have s2 := od_same_session_of_same_but_server _ _ asame
          refine ⟨by rw [hrc]; simp, ?_, ?_, fun s h => nomatch h⟩
          · exact ⟨s1.1.trans s2.1, s1.2.1.trans s2.2.1, s1.2.2.1.trans s2.2.2.1,
              s1.2.2.2.1.trans s2.2.2.2.1, s1.2.2.2.2.1.trans s2.2.2.2.2.1,
              s1.2.2.2.2.2.trans s2.2.2.2.2.2⟩
          · intro rc2 h2
            rw [hrc] at h2
            cases h2
            rw [hu]
            rcases hcodes with h | h | h | h <;> subst h <;> simp
      · cases h
    · have hrun : od_frontend_remote_client env client =
          od_frontend_attach_and_deploy env client := by
        simp [od_frontend_remote_client, hs, ha]
      rw [hrun]
      refine ⟨a1, od_same_session_of_same_but_server _ _ asame, ?_, fun s h => nomatch h⟩
      intro rc hrc
      rcases a2 rc hrc with ⟨h1, h2⟩ | ⟨h1, h2⟩
      · rw [h2]
        rcases h1 with h | h | h <;> subst h <;> simp
      · subst h1
        rw [h2]
        simp [od_frontend_rc_t.is_server_error]

/-- The first-chunk switch of the server handler, on a session with server
and route and with answers that keep the socket of the server: it returns a
code, which is OK or a server error code; after a server error code the
server is attached; identity, key, sockets and route are unchanged; a server
still attached has the socket it had. -/
theorem od_frontend_remote_server_switch_codes (env : od_env) (client : od_client_t)
    (server : od_server_t) (route : od_route_t) (msg : machine_msg_t)
    (hs : client.server = some server) (hr : client.route = some route)
    (hk : env.keeps_io) :
    (∃ rc, (od_frontend_remote_server_switch env client server msg).1 =
        od_outcome.returned rc ∧
      (rc = od_frontend_rc_t.OD_FE_OK ∨
        (rc.is_server_error = true ∧
          (od_frontend_remote_server_switch env client server msg).2.1.server.isSome = true))) ∧
    od_same_session (od_frontend_remote_server_switch env client server msg).2.1 client ∧
    (∀ updated, (od_frontend_remote_server_switch env client server msg).2.1.server =
        some updated → updated.io = server.io) := by
  generalize hsw : od_frontend_remote_server_switch env client server msg = sw
  unfold od_frontend_remote_server_switch at hsw
  dsimp only at hsw
  repeat' (split at hsw)
  all_goals subst hsw
  all_goals simp [od_same_session, od_frontend_rc_t.is_server_error, hs, hr, od_router_detach]
  all_goals
    first
      | exact hk.1 _ _ _ (by assumption)
      | (rename_i hnone; rw [hr] at hnone; cases hnone)

/-- The server handler on a session with server and route, with answers that
keep the socket of the server: it returns a code other than UNDEF and
EATTACH; after a server error code the server is still attached; identity,
key, sockets and route are unchanged; a server still attached has the socket
it had. -/
theorem od_frontend_remote_server_codes (env : od_env) (client : od_client_t)
    (server : od_server_t) (route : od_route_t)
    (hs : client.server = some server) (hr : client.route = some route)
    (hk : env.keeps_io) :
    (∃ rc, (od_frontend_remote_server env client).outcome = od_outcome.returned rc ∧
      rc ≠ od_frontend_rc_t.OD_FE_UNDEF ∧ rc ≠ od_frontend_rc_t.OD_FE_EATTACH ∧
      (rc.is_server_error = true →
        (od_frontend_remote_server env client).client.server.isSome = true)) ∧
    od_same_session (od_frontend_remote_server env client).client client ∧
    (∀ updated, (od_frontend_remote_server env client).client.server = some updated →
      updated.io = server.io) := by
  obtain ⟨⟨rc, hrc, hcode⟩, hsame, hio⟩ :=
    od_frontend_remote_server_switch_codes env client server route env.packet_read.2 hs hr hk
  have hrefl : od_same_session client client := ⟨rfl, rfl, rfl, rfl, rfl, rfl⟩
  generalize hres : od_frontend_remote_server env client = r
  unfold od_frontend_remote_server at hres
  rw [hs] at hres
  dsimp only at hres
  split at hres
  · subst hres
    exact ⟨⟨_, rfl, by simp, by simp, fun _ => by simp [hs]⟩, hrefl,
      fun u hu => by rw [hs] at hu; cases hu; rfl⟩
  · split at hres
    · split at hres <;>
      · subst hres
        exact ⟨⟨_, rfl, by simp, by simp, fun _ => by simp [hs]⟩, hrefl,
          fun u hu => by rw [hs] at hu; cases hu; rfl⟩
    · split at hres
      · split at hres <;>
        · subst hres
          refine ⟨⟨_, rfl, by simp, by simp, fun _ => rfl⟩,
            ⟨rfl, rfl, rfl, rfl, rfl, rfl⟩, ?_⟩
          intro u hu
          cases hu
          exact hk.2 _ _
      · split at hres
        · next hne =>
          subst hres
          refine ⟨⟨rc, hrc, ?_, ?_, ?_⟩, hsame, hio⟩
          · rcases hcode with h | ⟨h, _⟩
            · subst h; exact absurd hrc hne
            · intro hu; subst hu; simp [od_frontend_rc_t.is_server_error] at h
          · rcases hcode with h | ⟨h, _⟩
            · subst h; exact absurd hrc hne
            · intro hu; subst hu; simp [od_frontend_rc_t.is_server_error] at h
          · intro _
            rcases hcode with h | ⟨_, h⟩
            · subst h; exact absurd hrc hne
            · exact h
        · split at hres <;>
          · subst hres
            exact ⟨⟨_, rfl, by simp, by simp,
              fun h => by simp [od_frontend_rc_t.is_server_error] at h⟩, hsame, hio⟩

/-- The control handler returns OK or KILL, makes no call and changes only
the control word. -/
theorem od_frontend_ctl_codes (client : od_client_t) (op : od_client_op_t) :
    ((od_frontend_ctl client op).outcome = od_outcome.returned od_frontend_rc_t.OD_FE_OK ∨
      (od_frontend_ctl client op).outcome =
        od_outcome.returned od_frontend_rc_t.OD_FE_KILL) ∧
    (od_frontend_ctl client op).trace = [] ∧
    (od_frontend_ctl client op).client = { client with ctl_op := op } := by
  unfold od_frontend_ctl
  dsimp only
  split <;> simp

/-- One step of the inner loop on the control channel. -/
theorem od_frontend_remote_round_notify (st : od_relay_t) (r : od_ready)
    (rest : List od_ready) (hio : r.io = st.client.io_notify) :
    od_frontend_remote_round st (r :: rest) =
      if (od_frontend_ctl st.client r.op).outcome ≠
          od_outcome.returned od_frontend_rc_t.OD_FE_OK then
        (some (od_frontend_ctl st.client r.op).outcome,
          { st with client := (od_frontend_ctl st.client r.op).client },
          od_event.handler od_endpoint.notify :: (od_frontend_ctl st.client r.op).trace)
      else
        ((od_frontend_remote_round
            { st with client := (od_frontend_ctl st.client r.op).client } rest).1,
         (od_frontend_remote_round
            { st with client := (od_frontend_ctl st.client r.op).client } rest).2.1,
         od_event.handler od_endpoint.notify :: (od_frontend_ctl st.client r.op).trace ++
           (od_frontend_remote_round
             { st with client := (od_frontend_ctl st.client r.op).client } rest).2.2) := by
  rw [od_frontend_remote_round]
  simp only [hio, if_true]

/-- One step of the inner loop on the client socket. -/
theorem od_frontend_remote_round_client (st : od_relay_t) (r : od_ready)
    (rest : List od_ready) (hn : r.io ≠ st.client.io_notify) (hio : r.io = st.client.io) :
    od_frontend_remote_round st (r :: rest) =
      if (od_frontend_remote_client r.env st.client).outcome ≠
          od_outcome.returned od_frontend_rc_t.OD_FE_OK then
        (some (od_frontend_remote_client r.env st.client).outcome,
          { st with client := (od_frontend_remote_client r.env st.client).client },
          od_event.handler od_endpoint.client ::
            (od_frontend_remote_client r.env st.client).trace)
      else
        match (od_frontend_remote_client r.env st.client).client.server with
        | none =>
          (some od_outcome.fault,
            { st with client := (od_frontend_remote_client r.env st.client).client },
            od_event.handler od_endpoint.client ::
              (od_frontend_remote_client r.env st.client).trace)
        | some server =>
          ((od_frontend_remote_round
              { client := (od_frontend_remote_client r.env st.client).client,
                io_set := st.io_set.set 2 server.io, io_count := 3 } rest).1,
           (od_frontend_remote_round
              { client := (od_frontend_remote_client r.env st.client).client,
                io_set := st.io_set.set 2 server.io, io_count := 3 } rest).2.1,
           od_event.handler od_endpoint.client ::
             (od_frontend_remote_client r.env st.client).trace ++
             (od_frontend_remote_round
               { client := (od_frontend_remote_client r.env st.client).client,
                 io_set := st.io_set.set 2 server.io, io_count := 3 } rest).2.2) := by
  have hn2 : ¬ st.client.io = st.client.io_notify := hio ▸ hn
  rw [od_frontend_remote_round]
  simp only [hio, hn2, if_false, if_true]

/-- One step of the inner loop on the server socket. -/
theorem od_frontend_remote_round_server (st : od_relay_t) (r : od_ready)
    (rest : List od_ready) (hn : r.io ≠ st.client.io_notify) (hio : r.io ≠ st.client.io) :
    od_frontend_remote_round st (r :: rest) =
      if (od_frontend_remote_server r.env st.client).outcome ≠
          od_outcome.returned od_frontend_rc_t.OD_FE_OK then
        (some (od_frontend_remote_server r.env st.client).outcome,
          { st with client := (od_frontend_remote_server r.env st.client).client },
          od_event.handler od_endpoint.server ::
            (od_frontend_remote_server r.env st.client).trace)
      else if (od_frontend_remote_server r.env st.client).client.server = none then
        (none,
          { client := (od_frontend_remote_server r.env st.client).client,
            io_set := st.io_set.set 2 none, io_count := 2 },
          od_event.handler od_endpoint.server ::
            (od_frontend_remote_server r.env st.client).trace)
      else
        ((od_frontend_remote_round
            { st with client := (od_frontend_remote_server r.env st.client).client } rest).1,
         (od_frontend_remote_round
            { st with client := (od_frontend_remote_server r.env st.client).client } rest).2.1,
         od_event.handler od_endpoint.server ::
           (od_frontend_remote_server r.env st.client).trace ++
           (od_frontend_remote_round
             { st with client := (od_frontend_remote_server r.env st.client).client }
             rest).2.2) := by
  rw [od_frontend_remote_round]
  simp only [hn, hio, if_false]

/-- Sameness of sessions is reflexive. -/
theorem od_same_session_refl (a : od_client_t) : od_same_session a a :=
  ⟨rfl, rfl, rfl, rfl, rfl, rfl⟩

/-- Sameness of sessions is transitive. -/
theorem od_same_session_trans (a b c : od_client_t) (h1 : od_same_session a b)
    (h2 : od_same_session b c) : od_same_session a c := by
  obtain ⟨a1, a2, a3, a4, a5, a6⟩ := h1
  obtain ⟨b1, b2, b3, b4, b5, b6⟩ := h2
  exact ⟨a1.trans b1, a2.trans b2, a3.trans b3, a4.trans b4, a5.trans b5, a6.trans b6⟩

/-- The poll-set invariant survives a step that keeps the socket of the
server, the poll set and the count. -/
theorem od_relay_poll_set_ok_keep (st : od_relay_t) (c : od_client_t)
    (hp : st.poll_set_ok) (hsame : od_same_session c st.client)
    (hnone : st.client.server = none → c.server = none)
    (hsome : ∀ server, st.client.server = some server →
      ∃ updated, c.server = some updated ∧ updated.io = server.io) :
    od_relay_t.poll_set_ok { st with client := c } := by
  obtain ⟨_, _, hio, hn, _, _⟩ := hsame
  unfold od_relay_t.poll_set_ok at hp ⊢
  rcases hp with ⟨h3, server, hs, hset⟩ | ⟨h2, hs, hset⟩
  · obtain ⟨updated, hu, hio2⟩ := hsome server hs
    exact Or.inl ⟨h3, updated, hu, by simp only [hset, hio, hn, hio2]⟩
  · exact Or.inr ⟨h2, hnone hs, by simp only [hset, hio, hn]⟩

/-- The poll-set invariant after a successful client step. -/
theorem od_relay_poll_set_ok_attach (st : od_relay_t) (c : od_client_t) (server : od_server_t)
    (hp : st.poll_set_ok) (hsame : od_same_session c st.client)
    (hs : c.server = some server) :
    od_relay_t.poll_set_ok
      { client := c, io_set := st.io_set.set 2 server.io, io_count := 3 } := by
  obtain ⟨_, _, hio, hn, _, _⟩ := hsame
  unfold od_relay_t.poll_set_ok at hp ⊢
  refine Or.inl ⟨rfl, server, hs, ?_⟩
  rcases hp with ⟨_, _, _, hset⟩ | ⟨_, _, hset⟩ <;> simp [hset, hio, hn]

/-- The poll-set invariant after a server step that detached the server. -/
theorem od_relay_poll_set_ok_detach (st : od_relay_t) (c : od_client_t)
    (hp : st.poll_set_ok) (hsame : od_same_session c st.client)
    (hs : c.server = none) :
    od_relay_t.poll_set_ok
      { client := c, io_set := st.io_set.set 2 none, io_count := 2 } := by
  obtain ⟨_, _, hio, hn, _, _⟩ := hsame
  unfold od_relay_t.poll_set_ok at hp ⊢
  refine Or.inr ⟨rfl, hs, ?_⟩
  rcases hp with ⟨_, _, _, hset⟩ | ⟨_, _, hset⟩ <;> simp [hset, hio, hn]

/-- One round of the inner loop from a state with the poll-set invariant, an
assigned route and, if no server is held, only the control channel and the
client socket reported ready: no assertion fails, the session stays the
same, the invariant holds again when the poll is called next, and a code
returned meets the server state cleanup expects. -/
theorem od_frontend_remote_round_safe (route : od_route_t) (ready : List od_ready) :
    ∀ st : od_relay_t, st.poll_set_ok → st.client.route = some route →
      (∀ r ∈ ready, r.env.keeps_io) →
      (st.client.server.isSome = true ∨
        ∀ r ∈ ready, r.io = st.client.io_notify ∨ r.io = st.client.io) →
      (od_frontend_remote_round st ready).1 ≠ some od_outcome.fault ∧
      od_same_session (od_frontend_remote_round st ready).2.1.client st.client ∧
      ((od_frontend_remote_round st ready).1 = none →
        od_relay_t.poll_set_ok (od_frontend_remote_round st ready).2.1) ∧
      (∀ rc, (od_frontend_remote_round st ready).1 = some (od_outcome.returned rc) →
        rc ≠ od_frontend_rc_t.OD_FE_UNDEF ∧ rc ≠ od_frontend_rc_t.OD_FE_OK ∧
        (rc = od_frontend_rc_t.OD_FE_EATTACH →
          (od_frontend_remote_round st ready).2.1.client.server = none) ∧
        (rc.is_server_error = true →
          (od_frontend_remote_round st ready).2.1.client.server.isSome = true)) := by
  induction ready with
  | nil =>
    intro st hp _ _ _
    refine ⟨?_, od_same_session_refl _, fun _ => hp, ?_⟩ <;>
      simp [od_frontend_remote_round]
  | cons r rest ih =>
    intro st hp hr hk hw
    have hkr := hk r (List.mem_cons_self _ _)
    have hkrest : ∀ x ∈ rest, x.env.keeps_io := fun x hx => hk x (List.mem_cons_of_mem _ hx)
    by_cases hn : r.io = st.client.io_notify
    · rw [od_frontend_remote_round_notify st r rest hn]
      obtain ⟨hout, _, hcl⟩ := od_frontend_ctl_codes st.client r.op
      have hsame : od_same_session (od_frontend_ctl st.client r.op).client st.client := by
        rw [hcl]; exact ⟨rfl, rfl, rfl, rfl, rfl, rfl⟩
      have hsrv : (od_frontend_ctl st.client r.op).client.server = st.client.server := by
        rw [hcl]
      by_cases hok : (od_frontend_ctl st.client r.op).outcome =
          od_outcome.returned od_frontend_rc_t.OD_FE_OK
      · rw [if_neg (not_not.mpr hok)]
        have hp2 := od_relay_poll_set_ok_keep st _ hp hsame
          (fun h => by rw [hsrv]; exact h)
          (fun server h => ⟨server, by rw [hsrv]; exact h, rfl⟩)
        have hw2 : ((od_frontend_ctl st.client r.op).client.server.isSome = true ∨
            ∀ x ∈ rest, x.io = (od_frontend_ctl st.client r.op).client.io_notify ∨
              x.io = (od_frontend_ctl st.client r.op).client.io) := by
          rw [hsrv, hsame.2.2.1, hsame.2.2.2.1]
          exact hw.imp id (fun h x hx => h x (List.mem_cons_of_mem _ hx))
        obtain ⟨i1, i2, i3, i4⟩ := ih { st with client := (od_frontend_ctl st.client r.op).client }
          hp2 (by rw [← hr]; exact hsame.2.2.2.2.1) hkrest hw2
        exact ⟨i1, od_same_session_trans _ _ _ i2 hsame, i3, i4⟩
      · rw [if_pos hok]
        have hkill := hout.resolve_left hok
        refine ⟨?_, hsame, ?_, ?_⟩
        · rw [hkill]; simp
        · intro h; cases h
        · intro rc h
          rw [hkill] at h
          cases h
          simp [od_frontend_rc_t.is_server_error]
    · by_cases hc : r.io = st.client.io
      · rw [od_frontend_remote_round_client st r rest hn hc]
        obtain ⟨hnf, hsame, hcodes, hkeep⟩ := od_frontend_remote_client_codes r.env st.client
        by_cases hok : (od_frontend_remote_client r.env st.client).outcome =
            od_outcome.returned od_frontend_rc_t.OD_FE_OK
        · rw [if_neg (not_not.mpr hok)]
          have hsome := (hcodes _ hok).2.1 rfl
          cases hsv : (od_frontend_remote_client r.env st.client).client.server with
          | none => rw [hsv] at hsome; cases hsome
          | some server =>
            dsimp only
            have hp2 := od_relay_poll_set_ok_attach st _ server hp hsame hsv
            obtain ⟨i1, i2, i3, i4⟩ := ih
              { client := (od_frontend_remote_client r.env st.client).client,
                io_set := st.io_set.set 2 server.io, io_count := 3 }
              hp2 (by rw [← hr]; exact hsame.2.2.2.2.1) hkrest
              (Or.inl (by show (od_frontend_remote_client r.env st.client).client.server.isSome
                            = true
                          rw [hsv]; rfl))
            exact ⟨i1, od_same_session_trans _ _ _ i2 hsame, i3, i4⟩
        · rw [if_pos hok]
          refine ⟨?_, hsame, ?_, ?_⟩
          · intro h; exact hnf (Option.some.inj h)
          · intro h; cases h
          · intro rc h
            have hrc := Option.some.inj h
            obtain ⟨c1, _, c3, c4⟩ := hcodes rc hrc
            refine ⟨c1, ?_, c4, c3⟩
            intro he
            rw [he] at hrc
            exact hok hrc
      · rw [od_frontend_remote_round_server st r rest hn hc]
        have hsome : st.client.server.isSome = true := by
          rcases hw with h | h
          · exact h
          · rcases h r (List.mem_cons_self _ _) with h | h
            · exact absurd h hn
            · exact absurd h hc
        obtain ⟨server, hs⟩ := Option.isSome_iff_exists.mp hsome
        obtain ⟨⟨rc, hrc, c1, c2, c3⟩, hsame, hkeep⟩ :=
          od_frontend_remote_server_codes r.env st.client server route hs hr hkr
        by_cases hok : (od_frontend_remote_server r.env st.client).outcome =
            od_outcome.returned od_frontend_rc_t.OD_FE_OK
        · rw [if_neg (not_not.mpr hok)]
          by_cases hd : (od_frontend_remote_server r.env st.client).client.server = none
          · rw [if_pos hd]
            refine ⟨by simp, hsame, fun _ => od_relay_poll_set_ok_detach st _ hp hsame hd, ?_⟩
            intro rc h; cases h
          · rw [if_neg hd]
            obtain ⟨updated, hu⟩ := Option.ne_none_iff_exists'.mp hd
            have hp2 := od_relay_poll_set_ok_keep st _ hp hsame
              (fun h => by rw [hs] at h; cases h)
              (fun s2 h => ⟨updated, hu, by
                rw [hs] at h; cases h; exact hkeep updated hu⟩)
            obtain ⟨i1, i2, i3, i4⟩ := ih
              { st with client := (od_frontend_remote_server r.env st.client).client }
              hp2 (by rw [← hr]; exact hsame.2.2.2.2.1) hkrest
              (Or.inl (by show (od_frontend_remote_server r.env st.client).client.server.isSome
                            = true
                          rw [hu]; rfl))
            exact ⟨i1, od_same_session_trans _ _ _ i2 hsame, i3, i4⟩
        · rw [if_pos hok]
          refine ⟨?_, hsame, ?_, ?_⟩
          · rw [hrc]; simp
          · intro h; cases h
          · intro rc2 h
            have h2 := Option.some.inj h
            rw [hrc] at h2
            cases h2
            refine ⟨c1, ?_, fun he => absurd he c2, c3⟩
            intro he
            rw [he] at hrc
            exact hok hrc

/-- The calls of a handler contain no call of a handler. -/
theorem od_no_relay_call_handlers (t : List od_event)
    (h : ∀ e ∈ t, od_event.is_relay_call e = false) :
    t.filter od_event.is_handler = [] := by
  rw [List.filter_eq_nil_iff]
  intro e he
  have := h e he
  cases e <;> simp_all [od_event.is_relay_call, od_event.is_handler]

/-- The calls of a handler contain no poll. -/
theorem od_no_relay_call_polls (t : List od_event)
    (h : ∀ e ∈ t, od_event.is_relay_call e = false) :
    ∀ e ∈ t, od_event.is_poll e = false := by
  intro e he
  have := h e he
  cases e <;> simp_all [od_event.is_relay_call, od_event.is_poll]

/-- The calls of every handler of the relay contain no call of the relay
loop itself. -/
theorem od_frontend_ctl_no_relay_call (client : od_client_t) (op : od_client_op_t) :
    ∀ e ∈ (od_frontend_ctl client op).trace, od_event.is_relay_call e = false := by
  rw [(od_frontend_ctl_codes client op).2.1]
  simp

/-- One round of the inner loop calls no poll, calls at most one handler per
endpoint reported ready, at least one if any endpoint is reported, and one
for every endpoint when the round ends with a server still held. -/
theorem od_frontend_remote_round_handlers (ready : List od_ready) :
    ∀ st : od_relay_t,
      (∀ e ∈ (od_frontend_remote_round st ready).2.2, od_event.is_poll e = false) ∧
      ((od_frontend_remote_round st ready).2.2.filter od_event.is_handler).length ≤
        ready.length ∧
      (ready ≠ [] →
        1 ≤ ((od_frontend_remote_round st ready).2.2.filter od_event.is_handler).length) ∧
      ((od_frontend_remote_round st ready).1 = none →
        (od_frontend_remote_round st ready).2.1.client.server ≠ none →
        ((od_frontend_remote_round st ready).2.2.filter od_event.is_handler).length =
          ready.length) := by
  have hstop : ∀ (m : od_endpoint) (t : List od_event),
      (∀ e ∈ t, od_event.is_relay_call e = false) →
      (∀ e ∈ od_event.handler m :: t, od_event.is_poll e = false) ∧
      ((od_event.handler m :: t).filter od_event.is_handler).length = 1 := by
    intro m t ht
    refine ⟨?_, ?_⟩
    · intro e he
      rcases List.mem_cons.mp he with h | h
      · subst h; rfl
      · exact od_no_relay_call_polls t ht e h
    · rw [List.filter_cons_of_pos (by rfl), od_no_relay_call_handlers t ht]
      rfl
  have hgo : ∀ (m : od_endpoint) (t u : List od_event),
      (∀ e ∈ t, od_event.is_relay_call e = false) →
      (∀ e ∈ u, od_event.is_poll e = false) →
      (∀ e ∈ od_event.handler m :: t ++ u, od_event.is_poll e = false) ∧
      ((od_event.handler m :: t ++ u).filter od_event.is_handler).length =
        1 + (u.filter od_event.is_handler).length := by
    intro m t u ht hu
    refine ⟨?_, ?_⟩
    · intro e he
      rcases List.mem_append.mp he with h | h
      · exact (hstop m t ht).1 e h
      · exact hu e h
    · rw [List.filter_append, List.length_append, (hstop m t ht).2]
  induction ready with
  | nil => intro st; simp [od_frontend_remote_round]
  | cons r rest ih =>
    intro st
    by_cases hn : r.io = st.client.io_notify
    · rw [od_frontend_remote_round_notify st r rest hn]
      have ht := od_frontend_ctl_no_relay_call st.client r.op
      split
      · obtain ⟨s1, s2⟩ := hstop od_endpoint.notify _ ht
        refine ⟨s1, ?_, ?_, ?_⟩
        · rw [s2]; simp
        · intro _; rw [s2]
        · intro h; cases h
      · obtain ⟨i1, i2, _, i4⟩ :=
          ih { st with client := (od_frontend_ctl st.client r.op).client }
        obtain ⟨g1, g2⟩ := hgo od_endpoint.notify _ _ ht i1
        refine ⟨g1, ?_, ?_, ?_⟩
        · rw [g2, List.length_cons]; omega
        · intro _; rw [g2]; omega
        · intro h1 h2; rw [g2, i4 h1 h2, List.length_cons]; omega
    · by_cases hc : r.io = st.client.io
      · rw [od_frontend_remote_round_client st r rest hn hc]
        have ht := od_frontend_remote_client_no_relay_call r.env st.client
        obtain ⟨s1, s2⟩ := hstop od_endpoint.client _ ht
        split
        · refine ⟨s1, ?_, ?_, ?_⟩
          · rw [s2]; simp
          · intro _; rw [s2]
          · intro h; cases h
        · split
          · refine ⟨s1, ?_, ?_, ?_⟩
            · rw [s2]; simp
            · intro _; rw [s2]
            · intro h; cases h
          · next server _ =>
            obtain ⟨i1, i2, _, i4⟩ := ih
              { client := (od_frontend_remote_client r.env st.client).client,
                io_set := st.io_set.set 2 server.io, io_count := 3 }
            obtain ⟨g1, g2⟩ := hgo od_endpoint.client _ _ ht i1
            refine ⟨g1, ?_, ?_, ?_⟩
            · rw [g2, List.length_cons]; omega
            · intro _; rw [g2]; omega
            · intro h1 h2; rw [g2, i4 h1 h2, List.length_cons]; omega
      · rw [od_frontend_remote_round_server st r rest hn hc]
        have ht := od_frontend_remote_server_no_relay_call r.env st.client
        obtain ⟨s1, s2⟩ := hstop od_endpoint.server _ ht
        split
        · refine ⟨s1, ?_, ?_, ?_⟩
          · rw [s2]; simp
          · intro _; rw [s2]
          · intro h; cases h
        · split
          · next hd =>
            refine ⟨s1, ?_, ?_, ?_⟩
            · rw [s2]; simp
            · intro _; rw [s2]
            · intro _ h2; exact absurd hd h2
          · obtain ⟨i1, i2, _, i4⟩ :=
              ih { st with client := (od_frontend_remote_server r.env st.client).client }
            obtain ⟨g1, g2⟩ := hgo od_endpoint.server _ _ ht i1
            refine ⟨g1, ?_, ?_, ?_⟩
            · rw [g2, List.length_cons]; omega
            · intro _; rw [g2]; omega
            · intro h1 h2; rw [g2, i4 h1 h2, List.length_cons]; omega

/-- A round that ends the relay. -/
theorem od_frontend_remote_loop_stop (st : od_relay_t) (ready : List od_ready)
    (rounds : List (List od_ready)) (outcome : od_outcome)
    (h : (od_frontend_remote_round st ready).1 = some outcome) :
    od_frontend_remote_loop st (ready :: rounds) =
      { outcome := outcome, client := (od_frontend_remote_round st ready).2.1.client,
        trace := od_event.machine_read_poll st.io_set st.io_count
            (ready.map (fun r => r.io)) st.client ::
          (od_frontend_remote_round st ready).2.2 } := by
  rw [od_frontend_remote_loop]
  simp only [h]

/-- A round after which the poll is called again. -/
theorem od_frontend_remote_loop_next (st : od_relay_t) (ready : List od_ready)
    (rounds : List (List od_ready))
    (h : (od_frontend_remote_round st ready).1 = none) :
    od_frontend_remote_loop st (ready :: rounds) =
      { od_frontend_remote_loop (od_frontend_remote_round st ready).2.1 rounds with
        trace := od_event.machine_read_poll st.io_set st.io_count
            (ready.map (fun r => r.io)) st.client ::
          (od_frontend_remote_round st ready).2.2 ++
          (od_frontend_remote_loop (od_frontend_remote_round st ready).2.1 rounds).trace } := by
  rw [od_frontend_remote_loop]
  simp only [h]

/-- An event that is no poll meets the poll-set invariant. -/
theorem od_event_poll_set_ok_of_not_poll (e : od_event) (h : od_event.is_poll e = false) :
    od_event.poll_set_ok e = true := by
  cases e <;> first | rfl | cases h

/-- The poll called from a state with the poll-set invariant meets it, and if
it keeps its contract and no server is held, it reports only the control
channel and the client socket. -/
theorem od_relay_poll_event (st : od_relay_t) (ready : List od_ready)
    (hp : st.poll_set_ok) :
    od_event.poll_set_ok (od_event.machine_read_poll st.io_set st.io_count
      (ready.map (fun r => r.io)) st.client) = true ∧
    (od_event.poll_ok (od_event.machine_read_poll st.io_set st.io_count
      (ready.map (fun r => r.io)) st.client) = true →
      (st.client.server.isSome = true ∨
        ∀ r ∈ ready, r.io = st.client.io_notify ∨ r.io = st.client.io)) := by
  unfold od_relay_t.poll_set_ok at hp
  rcases hp with ⟨h3, server, hs, hset⟩ | ⟨h2, hs, hset⟩
  · refine ⟨?_, fun _ => Or.inl (by rw [hs]; rfl)⟩
    simp [od_event.poll_set_ok, hs, h3, hset]
  · refine ⟨?_, fun h => Or.inr ?_⟩
    · simp [od_event.poll_set_ok, hs, h2, hset]
    · intro r hr
      simp only [od_event.poll_ok, List.all_eq_true, List.mem_map, forall_exists_index,
        and_imp, forall_apply_eq_imp_iff₂] at h
      have := h r hr
      rw [hset, h2] at this
      simpa using this

/-- The relay loop from a state with the poll-set invariant and an assigned
route, every poll keeping its contract: no assertion fails, the session
stays the same, every poll is called with the invariant, and a code returned
meets the server state cleanup expects. -/
theorem od_frontend_remote_loop_safe (route : od_route_t) (rounds : List (List od_ready)) :
    ∀ st : od_relay_t, st.poll_set_ok → st.client.route = some route →
      (∀ ready ∈ rounds, ∀ r ∈ ready, r.env.keeps_io) →
      (∀ e ∈ (od_frontend_remote_loop st rounds).trace, od_event.poll_ok e = true) →
      (od_frontend_remote_loop st rounds).outcome ≠ od_outcome.fault ∧
      od_same_session (od_frontend_remote_loop st rounds).client st.client ∧
      (∀ e ∈ (od_frontend_remote_loop st rounds).trace, od_event.poll_set_ok e = true) ∧
      (∀ rc, (od_frontend_remote_loop st rounds).outcome = od_outcome.returned rc →
        rc ≠ od_frontend_rc_t.OD_FE_UNDEF ∧ rc ≠ od_frontend_rc_t.OD_FE_OK ∧
        (rc = od_frontend_rc_t.OD_FE_EATTACH →
          (od_frontend_remote_loop st rounds).client.server = none) ∧
        (rc.is_server_error = true →
          (od_frontend_remote_loop st rounds).client.server.isSome = true)) := by
  induction rounds with
  | nil =>
    intro st _ _ _ _
    refine ⟨?_, od_same_session_refl _, ?_, ?_⟩ <;> simp [od_frontend_remote_loop]
  | cons ready rounds ih =>
    intro st hp hr hk hpoll
    have hkr := hk ready (List.mem_cons_self _ _)
    have hkrest : ∀ x ∈ rounds, ∀ r ∈ x, r.env.keeps_io :=
      fun x hx => hk x (List.mem_cons_of_mem _ hx)
    obtain ⟨p1, p2⟩ := od_relay_poll_event st ready hp
    have hround := (od_frontend_remote_round_handlers ready st).1
    cases h1 : (od_frontend_remote_round st ready).1 with
    | some outcome =>
      rw [od_frontend_remote_loop_stop st ready rounds outcome h1] at hpoll ⊢
      have hw := p2 (hpoll _ (List.mem_cons_self _ _))
      obtain ⟨r1, r2, _, r4⟩ := od_frontend_remote_round_safe route ready st hp hr hkr hw
      refine ⟨?_, r2, ?_, ?_⟩
      · intro h
        apply r1
        rw [h1]
        exact congrArg some h
      · intro e he
        rcases List.mem_cons.mp he with h | h
        · rw [h]; exact p1
        · exact od_event_poll_set_ok_of_not_poll e (hround e h)
      · intro rc h
        exact r4 rc (by rw [h1]; exact congrArg some h)
    | none =>
      rw [od_frontend_remote_loop_next st ready rounds h1] at hpoll ⊢
      have hw := p2 (hpoll _ (List.mem_cons_self _ _))
      obtain ⟨_, r2, r3, _⟩ := od_frontend_remote_round_safe route ready st hp hr hkr hw
      obtain ⟨i1, i2, i3, i4⟩ := ih (od_frontend_remote_round st ready).2.1 (r3 h1)
        (by rw [← hr]; exact r2.2.2.2.2.1) hkrest
        (fun e he => hpoll e (List.mem_cons_of_mem _ (List.mem_append_right _ he)))
      refine ⟨i1, od_same_session_trans _ _ _ i2 r2, ?_, i4⟩
      intro e he
      rcases List.mem_cons.mp he with h | h
      · rw [h]; exact p1
      · rcases List.mem_append.mp h with h | h
        · exact od_event_poll_set_ok_of_not_poll e (hround e h)
        · exact i3 e h

/-- The codes of `od_frontend_setup_params`. -/
theorem od_frontend_setup_params_codes (env : od_env) (client : od_client_t)
    (params : kiwi_params_t) :
    ∀ n, (od_frontend_setup_params env client n params).1 = od_frontend_rc_t.OD_FE_OK ∨
      (od_frontend_setup_params env client n params).1 =
        od_frontend_rc_t.OD_FE_ECLIENT_CONFIGURE ∨
      (od_frontend_setup_params env client n params).1 =
        od_frontend_rc_t.OD_FE_ECLIENT_WRITE := by
  induction params with
  | nil => intro n; simp [od_frontend_setup_params]
  | cons param rest ih =>
    intro n
    by_cases h1 : env.setup_msg n = false
    · simp [od_frontend_setup_params, h1]
    · by_cases h2 : env.setup_write n = -1
      · simp [od_frontend_setup_params, h1, h2]
      · simpa [od_frontend_setup_params, h1, h2] using ih (n + 1)

/-- The frame-writing part of setup returns OK or a client error and leaves
the server and the route of the session as they are. -/
theorem od_frontend_setup_write_codes (env : od_env) (client : od_client_t)
    (cached : kiwi_params_t) :
    (∃ rc, (od_frontend_setup_write env client cached).outcome = od_outcome.returned rc ∧
      (rc = od_frontend_rc_t.OD_FE_OK ∨ rc = od_frontend_rc_t.OD_FE_ECLIENT_CONFIGURE ∨
        rc = od_frontend_rc_t.OD_FE_ECLIENT_WRITE)) ∧
    (od_frontend_setup_write env client cached).client.server = client.server ∧
    (od_frontend_setup_write env client cached).client.route = client.route := by
  have h1 := od_frontend_setup_params_codes env client cached 0
  have h2 := od_frontend_setup_params_codes env client client.startup_params cached.length
  generalize hr : od_frontend_setup_write env client cached = r
  unfold od_frontend_setup_write at hr
  dsimp only at hr
  split_ifs at hr with c1 c2 c3 c4 c5 c6 c7 c8 <;> subst hr <;> simp
  · exact h1
  · exact h2

/-- The codes of setup from a session with a route and no server: no
assertion fails, the route stays, no server is held on OK, on
`OD_FE_EATTACH` and on the client errors, and a server is held on a server
error. -/
theorem od_frontend_setup_codes (route : od_route_t) (envs : List od_env) :
    ∀ client : od_client_t, client.route = some route → client.server = none →
      (od_frontend_setup client envs).outcome ≠ od_outcome.fault ∧
      (od_frontend_setup client envs).client.route = some route ∧
      (∀ rc, (od_frontend_setup client envs).outcome = od_outcome.returned rc →
        rc ≠ od_frontend_rc_t.OD_FE_UNDEF ∧
        (rc = od_frontend_rc_t.OD_FE_OK →
          (od_frontend_setup client envs).client.server = none) ∧
        (rc = od_frontend_rc_t.OD_FE_EATTACH →
          (od_frontend_setup client envs).client.server = none) ∧
        (rc.is_server_error = true →
          (od_frontend_setup client envs).client.server.isSome = true)) := by
  induction envs with
  | nil => intro client hr _; simp [od_frontend_setup, hr]
  | cons env rest ih =>
    intro client hr hs
    by_cases hrc : (env.lock_copy route).1 = -1
    · simp [od_frontend_setup, hr, hrc, hs, od_frontend_rc_t.is_server_error]
    · by_cases hempty : (env.lock_copy route).2 = []
      · by_cases hok : (od_frontend_attach env client).outcome =
            od_outcome.returned od_frontend_rc_t.OD_FE_OK
        · obtain ⟨e1, e2, _⟩ :=
            od_frontend_setup_empty_pass client route env rest hr hs hrc hempty hok
          rw [e1, e2]
          exact ih client hr hs
        · have hrun : od_frontend_setup client (env :: rest) =
              { od_frontend_attach env client with
                trace := od_event.kiwi_params_lock_copy (env.lock_copy route).1
                  (env.lock_copy route).2 :: (od_frontend_attach env client).trace } := by
            rw [od_frontend_setup]
            simp only [hr, hrc, hempty, hok, List.length_nil, if_true, if_false, ne_eq,
              not_false_eq_true]
          obtain ⟨a1, a2⟩ := od_frontend_attach_loop_codes env env.router_attach client hs
          have hsame := od_frontend_attach_loop_client env env.router_attach client
          rw [hrun]
          refine ⟨a1, ?_, ?_⟩
          · rw [← hr]; exact hsame.2.2.2.2.1
          · intro rc h
            rcases a2 rc h with ⟨h1, _⟩ | ⟨h1, h2⟩ | ⟨h1, h2⟩
            · rw [h1] at h; exact absurd h hok
            · subst h1
              exact ⟨by simp, by simp, by simp, fun _ => h2⟩
            · subst h1
              exact ⟨by simp, by simp, fun _ => h2, by simp [od_frontend_rc_t.is_server_error]⟩
      · have hlen : ¬ (env.lock_copy route).2.length = 0 := by
          intro h
          exact hempty (List.length_eq_zero.mp h)
        have hrun : od_frontend_setup client (env :: rest) =
            { od_frontend_setup_write env client (env.lock_copy route).2 with
              trace := od_event.kiwi_params_lock_copy (env.lock_copy route).1
                (env.lock_copy route).2 ::
                (od_frontend_setup_write env client (env.lock_copy route).2).trace } := by
          rw [od_frontend_setup]
          simp only [hr, hrc, hlen, if_false]
        obtain ⟨⟨rc, w1, w2⟩, w3, w4⟩ :=
          od_frontend_setup_write_codes env client (env.lock_copy route).2
        rw [hrun]
        refine ⟨by simp [w1], by rw [← hr]; exact w4, ?_⟩
        intro rc2 h
        have h2 : od_outcome.returned rc = od_outcome.returned rc2 := w1.symm.trans h
        cases h2
        have hnone : (od_frontend_setup_write env client (env.lock_copy route).2).client.server
            = none := by rw [w3]; exact hs
        rcases w2 with h | h | h <;> subst h <;>
          exact ⟨by simp, fun _ => hnone, fun _ => hnone,
            by simp [od_frontend_rc_t.is_server_error]⟩

/-- With a terminal code other than UNDEF, a route assigned and the server
state the code's branch expects, cleanup is defined and leaves a session
that `od_frontend_close` accepts. -/
theorem od_frontend_cleanup_defined (env : od_env) (client : od_client_t)
    (status : od_frontend_rc_t)
    (hstatus : status ≠ od_frontend_rc_t.OD_FE_UNDEF)
    (hroute : client.route ≠ none)
    (hpre : od_cleanup_server_ok client status) :
    ∃ after trace,
      od_frontend_cleanup env client status = some (after, trace) ∧
      (od_frontend_close after).isSome = true := by
  obtain ⟨hpre1, hpre2⟩ := hpre
  cases hr : client.route with
  | none => exact absurd hr hroute
  | some route =>
    cases hs : client.server with
    | none =>
      cases status <;>
        simp only [od_frontend_cleanup, hs, hr, Option.isSome_none, Option.isNone_some,
          Bool.false_eq_true, if_false]
      case OD_FE_UNDEF => exact absurd rfl hstatus
      case OD_FE_ESERVER_CONNECT => exact absurd hs (hpre2 (Or.inl rfl))
      case OD_FE_ESERVER_CONFIGURE => exact absurd hs (hpre2 (Or.inr (Or.inl rfl)))
      case OD_FE_ESERVER_READ => exact absurd hs (hpre2 (Or.inr (Or.inr (Or.inl rfl))))
      case OD_FE_ESERVER_WRITE => exact absurd hs (hpre2 (Or.inr (Or.inr (Or.inr rfl))))
      all_goals
        exact ⟨_, _, rfl, by simp [od_frontend_close, od_unroute, hs]⟩
    | some server =>
      have hclose : ∀ c : od_client_t, c.route = none → c.server = none →
          (od_frontend_close c).isSome = true := by
        intro c h1 h2
        simp [od_frontend_close, h1, h2]
      cases status <;> simp only [od_frontend_cleanup, hs, hr]
      case OD_FE_UNDEF => exact absurd rfl hstatus
      case OD_FE_EATTACH => rw [hs] at hpre1; exact absurd (hpre1 rfl) (by simp)
      case OD_FE_ECLIENT_CONFIGURE => exact ⟨_, _, rfl, hclose _ rfl rfl⟩
      case OD_FE_ESERVER_CONFIGURE => exact ⟨_, _, rfl, hclose _ rfl rfl⟩
      case OD_FE_ESERVER_READ => exact ⟨_, _, rfl, hclose _ rfl rfl⟩
      case OD_FE_ESERVER_WRITE => exact ⟨_, _, rfl, hclose _ rfl rfl⟩
      case OD_FE_ESERVER_CONNECT =>
        cases he : server.error_connect with
        | none => exact ⟨_, _, rfl, hclose _ rfl rfl⟩
        | some stored =>
          simp only []
          split
          · obtain ⟨e, hfwd⟩ := od_frontend_error_fwd_defined env client server stored hs he
            rw [hfwd]
            exact ⟨_, _, rfl, hclose _ rfl rfl⟩
          · exact ⟨_, _, rfl, hclose _ rfl rfl⟩
      all_goals
        split <;> exact ⟨_, _, rfl, hclose _ rfl rfl⟩

/-- The server state cleanup expects, from the facts the handlers give on a
code. -/
theorem od_cleanup_server_ok_of_codes (client : od_client_t) (rc : od_frontend_rc_t)
    (h1 : rc = od_frontend_rc_t.OD_FE_EATTACH → client.server = none)
    (h2 : rc.is_server_error = true → client.server.isSome = true) :
    od_cleanup_server_ok client rc := by
  refine ⟨h1, ?_⟩
  intro h hnone
  have h3 : rc.is_server_error = true := by
    rcases h with h | h | h | h <;> subst h <;> rfl
  have h4 := h2 h3
  rw [hnone] at h4
  cases h4

/-- The sample collaborators leave the socket of the server as it is. -/
theorem sample_env_keeps_io (reset_rc read_rc : Int) (msg : machine_msg_t) :
    od_env.keeps_io (sample_env reset_rc read_rc msg) := by
  constructor
  · intro server m updated h
    simp only [sample_env, Option.some.injEq] at h
    rw [← h]
  · intro server m
    simp only [sample_env]
    split <;> rfl

/-- The sample collaborators with router answers leave the socket of the
server as it is. -/
theorem sample_env_attach_keeps_io (answers : List od_attach_answer) :
    od_env.keeps_io (sample_env_attach answers) := by
  constructor
  · intro server m updated h
    simp only [sample_env_attach, sample_env, Option.some.injEq] at h
    rw [← h]
  · intro server m
    simp only [sample_env_attach, sample_env]
    split <;> rfl

/-- The collaborators of the sample polls leave the socket of the server as
it is. -/
theorem sample_rounds_keep_io : ∀ ready ∈ sample_rounds, ∀ r ∈ ready, od_env.keeps_io r.env := by
  intro ready h1 r h2
  simp only [sample_rounds, List.mem_cons, List.mem_singleton, List.not_mem_nil, or_false]
    at h1
  rcases h1 with h | h | h <;> subst h <;>
    simp only [List.mem_cons, List.mem_singleton, List.not_mem_nil, or_false] at h2
  · rcases h2 with h | h <;> subst h
    · exact sample_env_keeps_io _ _ _
    · exact sample_env_attach_keeps_io _
  · subst h2; exact sample_env_keeps_io _ _ _
  · subst h2; exact sample_env_keeps_io _ _ _

/-- The relay entered with a route and no server, every poll keeping its
contract: no assertion fails, the session stays the same, every poll is
called with the poll-set invariant, and a code returned meets the server
state cleanup expects. -/
theorem od_frontend_remote_safe (client : od_client_t) (route : od_route_t)
    (rounds : List (List od_ready))
    (hs : client.server = none) (hr : client.route = some route)
    (hk : ∀ ready ∈ rounds, ∀ r ∈ ready, r.env.keeps_io)
    (hpoll : ∀ e ∈ (od_frontend_remote client rounds).trace, od_event.poll_ok e = true) :
    (od_frontend_remote client rounds).outcome ≠ od_outcome.fault ∧
    od_same_session (od_frontend_remote client rounds).client client ∧
    (∀ e ∈ (od_frontend_remote client rounds).trace, od_event.poll_set_ok e = true) ∧
    (∀ rc, (od_frontend_remote client rounds).outcome = od_outcome.returned rc →
      rc ≠ od_frontend_rc_t.OD_FE_UNDEF ∧ rc ≠ od_frontend_rc_t.OD_FE_OK ∧
      (rc = od_frontend_rc_t.OD_FE_EATTACH →
        (od_frontend_remote client rounds).client.server = none) ∧
      (rc.is_server_error = true →
        (od_frontend_remote client rounds).client.server.isSome = true)) :=
  od_frontend_remote_loop_safe route rounds
    { client := client, io_set := [client.io_notify, client.io, none], io_count := 2 }
    (Or.inr ⟨rfl, hs, rfl⟩) hr hk hpoll

/-! ## Theorems: endpoints processed per poll -/

/-- C17, as stated, fails: the first poll of the sample run reports the
control channel and the client socket ready at once, and both handlers are
called (`od_frontend_ctl`, then `od_frontend_remote_client`) before the poll
is called a second time. Listed are the calls of the relay loop in order,
`none` standing for a poll. -/
theorem two_endpoints_before_next_poll :
    ((od_frontend_remote sample_detached_client sample_rounds).trace.filter
        od_event.is_relay_call).map od_event.endpoint =
      [none, some od_endpoint.notify, some od_endpoint.client,
       none, some od_endpoint.server,
       none, some od_endpoint.notify] := by
  decide

/-- C17, amended: after each return of the poll the inner loop runs over the
endpoints reported ready before the poll is called again. It calls no poll
itself, calls at most one handler per endpoint reported, at least one when
any is reported, and one for every endpoint reported when no handler ended
the relay and the session still holds a server after the last call (the
round stops early only on a code other than OK or on a server step that
left the session without a server). -/
theorem poll_processes_ready_endpoints (st : od_relay_t) (ready : List od_ready)
    (rounds : List (List od_ready)) :
    (od_frontend_remote_loop st (ready :: rounds)).trace =
      od_event.machine_read_poll st.io_set st.io_count (ready.map (fun r => r.io))
          st.client ::
        (od_frontend_remote_round st ready).2.2 ++
        (match (od_frontend_remote_round st ready).1 with
         | none =>
           (od_frontend_remote_loop (od_frontend_remote_round st ready).2.1 rounds).trace
         | some _ => []) ∧
    (∀ e ∈ (od_frontend_remote_round st ready).2.2, od_event.is_poll e = false) ∧
    ((od_frontend_remote_round st ready).2.2.filter od_event.is_handler).length ≤
      ready.length ∧
    (ready ≠ [] →
      1 ≤ ((od_frontend_remote_round st ready).2.2.filter od_event.is_handler).length) ∧
    ((od_frontend_remote_round st ready).1 = none →
      (od_frontend_remote_round st ready).2.1.client.server ≠ none →
      ((od_frontend_remote_round st ready).2.2.filter od_event.is_handler).length =
        ready.length) := by
  refine ⟨?_, od_frontend_remote_round_handlers ready st⟩
  cases h1 : (od_frontend_remote_round st ready).1 with
  | some outcome =>
    rw [od_frontend_remote_loop_stop st ready rounds outcome h1]
    simp
  | none =>
    rw [od_frontend_remote_loop_next st ready rounds h1]

/-- Witness of C17 amended: the first poll of the sample run reports two
endpoints and two handlers are called before the next poll. -/
theorem poll_processes_ready_endpoints_witness :
    ((od_frontend_remote_round (od_relay_t.start sample_detached_client)
        [sample_ready_notify, sample_ready_query sample_server_a]).2.2.filter
      od_event.is_handler).length = 2 :=
  (poll_processes_ready_endpoints (od_relay_t.start sample_detached_client)
    [sample_ready_notify, sample_ready_query sample_server_a] []).2.2.2.2
    (by decide) (by decide)

/-! ## Theorems: the poll-set invariant -/

/-- C19: when `od_frontend_remote` is entered with a route and no server (the
state setup leaves on OK), every poll reports only endpoints it was given,
and `od_backend_ready` and `od_backend_deploy` leave the socket of the server
as it is, then at every call of the poll the poll set has three endpoints
exactly when the session holds a server, the third being the socket of that
server, and two endpoints otherwise; and no assertion fails: the assertion
after a successful client step holds and `od_frontend_remote_server` is never
called without a server. -/
theorem poll_set_invariant (client : od_client_t) (route : od_route_t)
    (rounds : List (List od_ready))
    (hs : client.server = none) (hr : client.route = some route)
    (hk : ∀ ready ∈ rounds, ∀ r ∈ ready, r.env.keeps_io)
    (hpoll : ∀ e ∈ (od_frontend_remote client rounds).trace, od_event.poll_ok e = true) :
    (∀ e ∈ (od_frontend_remote client rounds).trace, od_event.poll_set_ok e = true) ∧
    (od_frontend_remote client rounds).outcome ≠ od_outcome.fault := by
  obtain ⟨h1, _, h3, _⟩ := od_frontend_remote_safe client route rounds hs hr hk hpoll
  exact ⟨h3, h1⟩

/-- Witness of C19: the sample run, whose second poll has three endpoints and
whose third poll, after the detach, has two. -/
theorem poll_set_invariant_witness :
    (∀ e ∈ (od_frontend_remote sample_detached_client sample_rounds).trace,
      od_event.poll_set_ok e = true) ∧
    (od_frontend_remote sample_detached_client sample_rounds).outcome ≠ od_outcome.fault :=
  poll_set_invariant sample_detached_client sample_route sample_rounds rfl rfl
    sample_rounds_keep_io (by decide)

/-! ## Theorems: the server state at cleanup -/

/-- Cleanup and close after a run that did not fail an assertion and whose
code, if it returned one, meets what cleanup expects: no assertion fails. -/
theorem od_frontend_cleanup_close_defined (cleanup_env : od_env) (m : od_result)
    (hnf : m.outcome ≠ od_outcome.fault)
    (hcodes : ∀ rc, m.outcome = od_outcome.returned rc →
      rc ≠ od_frontend_rc_t.OD_FE_UNDEF ∧ m.client.route ≠ none ∧
      od_cleanup_server_ok m.client rc) :
    (match m.outcome with
      | od_outcome.returned ferc =>
        match od_frontend_cleanup cleanup_env m.client ferc with
        | none => { m with outcome := od_outcome.fault }
        | some cl =>
          match od_frontend_close cl.1 with
          | none => { outcome := od_outcome.fault, client := cl.1, trace := m.trace ++ cl.2 }
          | some closed =>
            { outcome := od_outcome.returned ferc, client := closed,
              trace := m.trace ++ cl.2 }
      | _ => m).outcome ≠ od_outcome.fault := by
  cases hm : m.outcome with
  | fault => exact absurd hm hnf
  | waiting => simp [hm]
  | returned ferc =>
    obtain ⟨c1, c2, c3⟩ := hcodes ferc hm
    obtain ⟨after, trace, hcl, hclose⟩ :=
      od_frontend_cleanup_defined cleanup_env m.client ferc c1 c2 c3
    obtain ⟨closed, hclosed⟩ := Option.isSome_iff_exists.mp hclose
    simp [hcl, hclosed]

/-- C20: from a session with a route and no server (the state in which
`od_frontend` reaches its switch), with every poll reporting only endpoints
it was given and `od_backend_ready` and `od_backend_deploy` leaving the
socket of the server as it is: whenever setup returns a code, and whenever
the relay entered after an OK of setup returns a code, a route is assigned,
no server is attached if the code is `OD_FE_EATTACH`, and a server is
attached if the code is one of the four server error codes; hence cleanup
and close after them fail no assertion. -/
theorem cleanup_server_state (client : od_client_t) (route : od_route_t)
    (setup_envs : List od_env) (rounds : List (List od_ready)) (cleanup_env : od_env)
    (hr : client.route = some route) (hs : client.server = none)
    (hk : ∀ ready ∈ rounds, ∀ r ∈ ready, r.env.keeps_io)
    (hpoll : ∀ e ∈ (od_frontend_remote (od_frontend_setup client setup_envs).client
      rounds).trace, od_event.poll_ok e = true) :
    (∀ rc, (od_frontend_setup client setup_envs).outcome = od_outcome.returned rc →
      (od_frontend_setup client setup_envs).client.route ≠ none ∧
      od_cleanup_server_ok (od_frontend_setup client setup_envs).client rc) ∧
    ((od_frontend_setup client setup_envs).outcome =
        od_outcome.returned od_frontend_rc_t.OD_FE_OK →
      ∀ rc, (od_frontend_remote (od_frontend_setup client setup_envs).client
          rounds).outcome = od_outcome.returned rc →
        (od_frontend_remote (od_frontend_setup client setup_envs).client
          rounds).client.route ≠ none ∧
        od_cleanup_server_ok
          (od_frontend_remote (od_frontend_setup client setup_envs).client rounds).client
          rc) ∧
    (od_frontend_remote_storage setup_envs rounds cleanup_env client).outcome ≠
      od_outcome.fault := by
  obtain ⟨s1, s2, s3⟩ := od_frontend_setup_codes route setup_envs client hr hs
  have hsetup : ∀ rc, (od_frontend_setup client setup_envs).outcome = od_outcome.returned rc →
      rc ≠ od_frontend_rc_t.OD_FE_UNDEF ∧
      (od_frontend_setup client setup_envs).client.route ≠ none ∧
      od_cleanup_server_ok (od_frontend_setup client setup_envs).client rc := by
    intro rc h
    obtain ⟨c1, _, c3, c4⟩ := s3 rc h
    exact ⟨c1, by rw [s2]; simp, od_cleanup_server_ok_of_codes _ _ c3 c4⟩
  have hrelay : (od_frontend_setup client setup_envs).outcome =
        od_outcome.returned od_frontend_rc_t.OD_FE_OK →
      (od_frontend_remote (od_frontend_setup client setup_envs).client rounds).outcome ≠
        od_outcome.fault ∧
      ∀ rc, (od_frontend_remote (od_frontend_setup client setup_envs).client
          rounds).outcome = od_outcome.returned rc →
        rc ≠ od_frontend_rc_t.OD_FE_UNDEF ∧
        (od_frontend_remote (od_frontend_setup client setup_envs).client
          rounds).client.route ≠ none ∧
        od_cleanup_server_ok
          (od_frontend_remote (od_frontend_setup client setup_envs).client rounds).client
          rc := by
    intro hok
    obtain ⟨r1, r2, _, r4⟩ := od_frontend_remote_safe
      (od_frontend_setup client setup_envs).client route rounds
      ((s3 _ hok).2.1 rfl) s2 hk hpoll
    refine ⟨r1, ?_⟩
    intro rc h
    obtain ⟨c1, _, c3, c4⟩ := r4 rc h
    exact ⟨c1, by rw [r2.2.2.2.2.1, s2]; simp, od_cleanup_server_ok_of_codes _ _ c3 c4⟩
  refine ⟨fun rc h => (hsetup rc h).2, fun hok rc h => ((hrelay hok).2 rc h).2, ?_⟩
  unfold od_frontend_remote_storage
  dsimp only
  by_cases hok : (od_frontend_setup client setup_envs).outcome =
      od_outcome.returned od_frontend_rc_t.OD_FE_OK
  · rw [if_neg (not_not.mpr hok)]
    exact od_frontend_cleanup_close_defined cleanup_env
      { od_frontend_remote (od_frontend_setup client setup_envs).client rounds with
        trace := (od_frontend_setup client setup_envs).trace ++
          (od_frontend_remote (od_frontend_setup client setup_envs).client rounds).trace }
      (hrelay hok).1 (hrelay hok).2
  · rw [if_pos hok]
    exact od_frontend_cleanup_close_defined cleanup_env _ s1 hsetup

/-- The collaborators of the sample run with a read error leave the socket
of the server as it is. -/
theorem sample_rounds_read_error_keep_io :
    ∀ ready ∈ sample_rounds_read_error, ∀ r ∈ ready, od_env.keeps_io r.env := by
  intro ready h1 r h2
  simp only [sample_rounds_read_error, List.mem_cons, List.mem_singleton, List.not_mem_nil,
    or_false] at h1
  rcases h1 with h | h <;> subst h <;>
    simp only [List.mem_cons, List.mem_singleton, List.not_mem_nil, or_false] at h2 <;>
    subst h2
  · exact sample_env_attach_keeps_io _
  · exact sample_env_keeps_io _ _ _

/-- Witness of C20: setup returns OK, the relay attaches `sample_server_a`
and ends with `OD_FE_ESERVER_READ` when the read from it fails; the server is
still attached, and cleanup and close fail no assertion. -/
theorem cleanup_server_state_witness :
    (od_frontend_remote
        (od_frontend_setup sample_detached_client [sample_env 1 0 sample_query]).client
        sample_rounds_read_error).outcome =
      od_outcome.returned od_frontend_rc_t.OD_FE_ESERVER_READ ∧
    od_cleanup_server_ok
      (od_frontend_remote
        (od_frontend_setup sample_detached_client [sample_env 1 0 sample_query]).client
        sample_rounds_read_error).client od_frontend_rc_t.OD_FE_ESERVER_READ ∧
    (od_frontend_remote_storage [sample_env 1 0 sample_query] sample_rounds_read_error
      (sample_env 1 0 sample_query) sample_detached_client).outcome ≠ od_outcome.fault :=
  ⟨by decide,
   ((cleanup_server_state sample_detached_client sample_route [sample_env 1 0 sample_query]
      sample_rounds_read_error (sample_env 1 0 sample_query) rfl rfl
      sample_rounds_read_error_keep_io (by decide)).2.1 (by decide) _ (by decide)).2,
   (cleanup_server_state sample_detached_client sample_route [sample_env 1 0 sample_query]
      sample_rounds_read_error (sample_env 1 0 sample_query) rfl rfl
      sample_rounds_read_error_keep_io (by decide)).2.2⟩

/-- The attach loop writes nothing to the server socket. -/
theorem od_frontend_attach_loop_key_is (env : od_env) (key : kiwi_key_t)
    (l : List od_attach_answer) :
    ∀ client, ∀ e ∈ (od_frontend_attach_loop env client l).trace,
      od_event.key_is key e = true := by
  induction l with
  | nil => intro client e he; cases he
  | cons a rest ih =>
    intro client
    unfold od_frontend_attach_loop
    split
    · simp [od_event.key_is]
    · dsimp only
      split
      · intro e he
        simp only [List.cons_append, List.nil_append, List.mem_cons] at he
        rcases he with rfl | rfl | he
        · rfl
        · rfl
        · exact ih _ e he
      · split
        · split <;> simp [od_event.key_is]
        · simp [od_event.key_is]

/-- Attach and deploy write nothing to the server socket with `machine_write`
on a chunk. -/
theorem od_frontend_attach_and_deploy_key_is (env : od_env) (key : kiwi_key_t)
    (client : od_client_t) :
    ∀ e ∈ (od_frontend_attach_and_deploy env client).trace,
      od_event.key_is key e = true := by
  have h0 := od_frontend_attach_loop_key_is env key env.router_attach client
  unfold od_frontend_attach_and_deploy
  dsimp only
  split
  · exact h0
  · split
    · exact h0
    · split
      · split
        · intro e he
          rcases List.mem_append.mp he with h | h
          · exact h0 e h
          · simp only [List.mem_singleton] at h; subst h; rfl
        · intro e he
          rcases List.mem_append.mp he with h | h
          · exact h0 e h
          · simp only [List.mem_singleton] at h; subst h; rfl
      · exact h0

/-- Every write of the client handler to the server socket is made under the
cancel key the session had when the handler was called. -/
theorem od_frontend_remote_client_key_is (env : od_env) (client : od_client_t) :
    ∀ e ∈ (od_frontend_remote_client env client).trace,
      od_event.key_is client.key e = true := by
  have hread : ∀ (c : od_client_t) (server : od_server_t) (pre : List od_event),
      c.key = client.key →
      (∀ e ∈ pre, od_event.key_is client.key e = true) →
      ∀ e ∈ (od_frontend_remote_client_read env c server pre).trace,
        od_event.key_is client.key e = true := by
    intro c server pre hc hpre
    unfold od_frontend_remote_client_read od_forward_server
    dsimp only
    split_ifs <;>
      simp only [List.mem_append, List.mem_cons, List.mem_singleton, List.not_mem_nil,
        or_false, or_imp, forall_and, forall_eq, od_event.key_is, and_true,
        true_and, hc, decide_True] <;>
      exact hpre
  unfold od_frontend_remote_client
  split
  · exact hread client _ [] rfl (fun e he => nomatch he)
  · dsimp only
    split
    · exact od_frontend_attach_and_deploy_key_is env _ client
    · split
      · exact od_frontend_attach_and_deploy_key_is env _ client
      · exact hread _ _ _ (od_frontend_attach_and_deploy_same env client).2.1
          (od_frontend_attach_and_deploy_key_is env _ client)

/-- The first-chunk switch of the server handler leaves the cancel key as it
is and writes nothing to the server socket. -/
theorem od_frontend_remote_server_switch_key (env : od_env) (client : od_client_t)
    (server : od_server_t) (msg : machine_msg_t) (key : kiwi_key_t) :
    (od_frontend_remote_server_switch env client server msg).2.1.key = client.key ∧
    ∀ e ∈ (od_frontend_remote_server_switch env client server msg).2.2,
      od_event.key_is key e = true := by
  generalize hsw : od_frontend_remote_server_switch env client server msg = sw
  unfold od_frontend_remote_server_switch at hsw
  dsimp only at hsw
  repeat' (split at hsw)
  all_goals subst hsw
  all_goals simp [od_router_detach, od_event.key_is]

/-- The server handler leaves the cancel key as it is and writes nothing to
the server socket. -/
theorem od_frontend_remote_server_key (env : od_env) (client : od_client_t)
    (key : kiwi_key_t) :
    (od_frontend_remote_server env client).client.key = client.key ∧
    ∀ e ∈ (od_frontend_remote_server env client).trace, od_event.key_is key e = true := by
  generalize hr : od_frontend_remote_server env client = r
  unfold od_frontend_remote_server od_forward_client at hr
  split at hr
  · subst hr; simp
  · next server hs =>
    dsimp only at hr
    obtain ⟨hk, hsw⟩ := od_frontend_remote_server_switch_key env client server
      env.packet_read.2 key
    split_ifs at hr <;> subst hr <;>
      simp only [List.mem_append, List.mem_cons, List.mem_singleton, List.not_mem_nil,
        or_false, or_imp, forall_and, forall_eq, od_event.key_is, and_true,
        true_and, implies_true, hk] <;>
      exact hsw

/-- One round of the inner loop leaves the cancel key as it is, and every
write to the server socket in it is made under that key. -/
theorem od_frontend_remote_round_key (ready : List od_ready) :
    ∀ st : od_relay_t,
      (od_frontend_remote_round st ready).2.1.client.key = st.client.key ∧
      ∀ e ∈ (od_frontend_remote_round st ready).2.2,
        od_event.key_is st.client.key e = true := by
  have hcons : ∀ (k : kiwi_key_t) (m : od_endpoint) (t : List od_event),
      (∀ e ∈ t, od_event.key_is k e = true) →
      ∀ e ∈ od_event.handler m :: t, od_event.key_is k e = true := by
    intro k m t ht e he
    rcases List.mem_cons.mp he with h | h
    · subst h; rfl
    · exact ht e h
  have happ : ∀ (k : kiwi_key_t) (m : od_endpoint) (t u : List od_event),
      (∀ e ∈ t, od_event.key_is k e = true) → (∀ e ∈ u, od_event.key_is k e = true) →
      ∀ e ∈ od_event.handler m :: t ++ u, od_event.key_is k e = true := by
    intro k m t u ht hu e he
    rcases List.mem_append.mp he with h | h
    · exact hcons k m t ht e h
    · exact hu e h
  induction ready with
  | nil => intro st; simp [od_frontend_remote_round]
  | cons r rest ih =>
    intro st
    by_cases hn : r.io = st.client.io_notify
    · rw [od_frontend_remote_round_notify st r rest hn]
      obtain ⟨_, htr, hcl⟩ := od_frontend_ctl_codes st.client r.op
      have hkey : (od_frontend_ctl st.client r.op).client.key = st.client.key := by rw [hcl]
      have ht : ∀ e ∈ (od_frontend_ctl st.client r.op).trace,
          od_event.key_is st.client.key e = true := by rw [htr]; simp
      split
      · exact ⟨hkey, hcons _ _ _ ht⟩
      · obtain ⟨i1, i2⟩ := ih { st with client := (od_frontend_ctl st.client r.op).client }
        refine ⟨i1.trans hkey, happ _ _ _ _ ht ?_⟩
        intro e he
        have := i2 e he
        rwa [hkey] at this
    · by_cases hc : r.io = st.client.io
      · rw [od_frontend_remote_round_client st r rest hn hc]
        have hkey : (od_frontend_remote_client r.env st.client).client.key = st.client.key :=
          (od_frontend_remote_client_codes r.env st.client).2.1.2.1
        have ht := od_frontend_remote_client_key_is r.env st.client
        split
        · exact ⟨hkey, hcons _ _ _ ht⟩
        · split
          · exact ⟨hkey, hcons _ _ _ ht⟩
          · next server _ =>
            obtain ⟨i1, i2⟩ := ih
              { client := (od_frontend_remote_client r.env st.client).client,
                io_set := st.io_set.set 2 server.io, io_count := 3 }
            refine ⟨i1.trans hkey, happ _ _ _ _ ht ?_⟩
            intro e he
            have := i2 e he
            rwa [hkey] at this
      · rw [od_frontend_remote_round_server st r rest hn hc]
        obtain ⟨hkey, ht⟩ := od_frontend_remote_server_key r.env st.client st.client.key
        split
        · exact ⟨hkey, hcons _ _ _ ht⟩
        · split
          · exact ⟨hkey, hcons _ _ _ ht⟩
          · obtain ⟨i1, i2⟩ :=
              ih { st with client := (od_frontend_remote_server r.env st.client).client }
            refine ⟨i1.trans hkey, happ _ _ _ _ ht ?_⟩
            intro e he
            have := i2 e he
            rwa [hkey] at this

/-- The relay loop leaves the cancel key as it is, and every write to the
server socket in it is made under that key. -/
theorem od_frontend_remote_loop_key (rounds : List (List od_ready)) :
    ∀ st : od_relay_t,
      (od_frontend_remote_loop st rounds).client.key = st.client.key ∧
      ∀ e ∈ (od_frontend_remote_loop st rounds).trace,
        od_event.key_is st.client.key e = true := by
  induction rounds with
  | nil => intro st; simp [od_frontend_remote_loop]
  | cons ready rounds ih =>
    intro st
    obtain ⟨r1, r2⟩ := od_frontend_remote_round_key ready st
    cases h1 : (od_frontend_remote_round st ready).1 with
    | some outcome =>
      rw [od_frontend_remote_loop_stop st ready rounds outcome h1]
      refine ⟨r1, ?_⟩
      intro e he
      rcases List.mem_cons.mp he with h | h
      · subst h; rfl
      · exact r2 e h
    | none =>
      rw [od_frontend_remote_loop_next st ready rounds h1]
      obtain ⟨i1, i2⟩ := ih (od_frontend_remote_round st ready).2.1
      refine ⟨i1.trans r1, ?_⟩
      intro e he
      rcases List.mem_cons.mp he with h | h
      · subst h; rfl
      · rcases List.mem_append.mp h with h | h
        · exact r2 e h
        · have := i2 e h
          rwa [r1] at this

/-- The keys listed by `od_server_write_keys` are the keys of the writes to
the server socket. -/
theorem od_server_write_keys_key_is (key : kiwi_key_t) (t : List od_event)
    (h : ∀ e ∈ t, od_event.key_is key e = true) :
    ∀ p ∈ od_server_write_keys t, p.2 = key := by
  induction t with
  | nil => intro p hp; cases hp
  | cons e rest ih =>
    have hrest := ih (fun x hx => h x (List.mem_cons_of_mem _ hx))
    have he := h e (List.mem_cons_self _ _)
    cases e <;> simp only [od_server_write_keys] <;> try exact hrest
    intro p hp
    rcases List.mem_cons.mp hp with hp | hp
    · subst hp
      simpa [od_event.key_is] using he
    · exact hrest p hp

/-- The frame-writing part of setup leaves the cancel key as it is. -/
theorem od_frontend_setup_write_key (env : od_env) (client : od_client_t)
    (cached : kiwi_params_t) :
    (od_frontend_setup_write env client cached).client.key = client.key := by
  generalize hr : od_frontend_setup_write env client cached = r
  unfold od_frontend_setup_write at hr
  dsimp only at hr
  split_ifs at hr <;> subst hr <;> rfl

/-- Setup leaves the cancel key as it is, throwaway attaches included. -/
theorem od_frontend_setup_key (envs : List od_env) :
    ∀ client : od_client_t, (od_frontend_setup client envs).client.key = client.key := by
  induction envs with
  | nil => intro client; rfl
  | cons env rest ih =>
    intro client
    have hsame := od_frontend_attach_loop_client env env.router_attach client
    have hattach : (od_frontend_attach env client).client.key = client.key := hsame.2.1
    generalize hr : od_frontend_setup client (env :: rest) = r
    rw [od_frontend_setup] at hr
    split at hr
    · subst hr; rfl
    · dsimp only at hr
      split_ifs at hr
      · subst hr; rfl
      · subst hr; exact hattach
      · split at hr
        · subst hr; exact hattach
        · subst hr
          exact (ih (od_router_close (od_frontend_attach env client).client)).trans hattach
      · subst hr
        exact od_frontend_setup_write_key env client _

/-! ## Theorems: the cancel key over the life of a session -/

/-- C13, amended: the cancel key is generated once per session and is not
regenerated on a new client-server assignment. `od_frontend_key` sets it to
`(id.id_a, id.id_b)`; setup, its throwaway attaches included, leaves it so;
and in the relay that follows, whatever the polls report and whichever
servers the router hands out, every write to a server socket is made under
that same pair, which is also the pair of the session the relay leaves. -/
theorem cancel_key_fixed_per_session (client : od_client_t) (setup_envs : List od_env)
    (rounds : List (List od_ready)) :
    (od_frontend_key client).key =
      { key_pid := client.id.id_a, key := client.id.id_b } ∧
    (od_frontend_setup (od_frontend_key client) setup_envs).client.key =
      { key_pid := client.id.id_a, key := client.id.id_b } ∧
    (∀ p ∈ od_server_write_keys
        (od_frontend_remote (od_frontend_setup (od_frontend_key client) setup_envs).client
          rounds).trace,
      p.2 = { key_pid := client.id.id_a, key := client.id.id_b }) ∧
    (od_frontend_remote (od_frontend_setup (od_frontend_key client) setup_envs).client
      rounds).client.key = { key_pid := client.id.id_a, key := client.id.id_b } := by
  have h1 : (od_frontend_setup (od_frontend_key client) setup_envs).client.key =
      { key_pid := client.id.id_a, key := client.id.id_b } :=
    od_frontend_setup_key setup_envs (od_frontend_key client)
  obtain ⟨l1, l2⟩ := od_frontend_remote_loop_key rounds
    { client := (od_frontend_setup (od_frontend_key client) setup_envs).client,
      io_set := [(od_frontend_setup (od_frontend_key client) setup_envs).client.io_notify,
        (od_frontend_setup (od_frontend_key client) setup_envs).client.io, none],
      io_count := 2 }
  refine ⟨rfl, h1, ?_, l1.trans h1⟩
  intro p hp
  rw [← h1]
  exact od_server_write_keys_key_is _ _ l2 p hp

end Odyssey
